import Mathlib

/-!
# Hubble L3/L4 flow parser (`pkg/hubble/parser/threefour/parser.go`)

A shallow embedding of the parser and the properties of its field decoders,
of the layer decoder `decodeLayers` and of `Parser.Decode`.

Conventions of the embedding.

* Go pointers that may be `nil` are `Option`s, Go byte slices are `List Nat`.
* Unsigned machine integers are `Nat`s, the signed verdict is an `Int`; every
  narrowing conversion of the source is written out as a `%`.
* The reusable packet workspace is passed explicitly: `decodeLayers` returns the
  workspace it leaves behind together with its results.
* Code that lives outside `parser.go` is either a field of the value that holds
  it in Go (the gopacket parsers of `packet`, the getters of `Parser`), a field
  of `Externals`, or a definition whose doc comment says what it models.
-/

namespace Threefour

/-! ## Protobuf flow messages (`api/v1/flow`) -/

namespace pb

/-- Flow verdict enum. -/
inductive Verdict where
  | VERDICT_UNKNOWN | FORWARDED | DROPPED | ERROR | AUDIT | REDIRECTED
  deriving DecidableEq, Repr, Inhabited

/-- Traffic direction enum. -/
inductive TrafficDirection where
  | TRAFFIC_DIRECTION_UNKNOWN | INGRESS | EGRESS
  deriving DecidableEq, Repr, Inhabited

/-- IP version enum. -/
inductive IPVersion where
  | IP_NOT_USED | IPv4 | IPv6
  deriving DecidableEq, Repr, Inhabited

/-- Tunnel protocol enum. -/
inductive TunnelProtocol where
  | UNKNOWN | VXLAN | GENEVE
  deriving DecidableEq, Repr, Inhabited

/-- Flow type enum. -/
inductive FlowType where
  | UNKNOWN_TYPE | L3_L4 | L7 | SOCK
  deriving DecidableEq, Repr, Inhabited

/-- Ethernet message: the two MAC addresses in string form. -/
structure Ethernet where
  Source : String := ""
  Destination : String := ""
  deriving DecidableEq, Repr, Inhabited

/-- IP message. -/
structure IP where
  Source : String := ""
  SourceXlated : String := ""
  Destination : String := ""
  IpVersion : IPVersion := IPVersion.IP_NOT_USED
  Encrypted : Bool := false
  deriving DecidableEq, Repr, Inhabited

/-- The nine TCP flags of the flow message. -/
structure TCPFlags where
  FIN : Bool := false
  SYN : Bool := false
  RST : Bool := false
  PSH : Bool := false
  ACK : Bool := false
  URG : Bool := false
  ECE : Bool := false
  CWR : Bool := false
  NS : Bool := false
  deriving DecidableEq, Repr, Inhabited

/-- Layer 4 message: a `oneof` over the five transport protocols. -/
inductive Layer4 where
  | TCP (SourcePort DestinationPort : Nat) (Flags : TCPFlags)
  | UDP (SourcePort DestinationPort : Nat)
  | SCTP (SourcePort DestinationPort : Nat)
  | ICMPv4 (Type_ Code : Nat)
  | ICMPv6 (Type_ Code : Nat)
  deriving DecidableEq, Repr

/-- Tunnel message: the protocol and the IP and L4 of the encapsulating packet. -/
structure Tunnel where
  Protocol : TunnelProtocol := TunnelProtocol.UNKNOWN
  IP : Option IP := none
  L4 : Option Layer4 := none
  deriving DecidableEq, Repr

/-- Endpoint message. -/
structure Endpoint where
  ID : Nat := 0
  Identity : Nat := 0
  Namespace : String := ""
  PodName : String := ""
  Labels : List String := []
  deriving DecidableEq, Repr, Inhabited

/-- Service message. -/
structure Service where
  Name : String := ""
  Namespace : String := ""
  deriving DecidableEq, Repr, Inhabited

/-- File and line of the datapath source that emitted a drop. -/
structure FileInfo where
  Name : String := ""
  Line : Nat := 0
  deriving DecidableEq, Repr, Inhabited

/-- Event type and sub-type of the monitor event. -/
structure CiliumEventType where
  Type_ : Nat := 0
  SubType : Nat := 0
  deriving DecidableEq, Repr, Inhabited

/-- Network interface message. -/
structure NetworkInterface where
  Index : Nat := 0
  Name : String := ""
  deriving DecidableEq, Repr, Inhabited

/-- Getter of `IP.Source`; the empty string on a nil message. -/
def IP.GetSource (ip : Option IP) : String :=
  match ip with
  | some i => i.Source
  | none => ""

/-- Getter of `IP.SourceXlated`; the empty string on a nil message. -/
def IP.GetSourceXlated (ip : Option IP) : String :=
  match ip with
  | some i => i.SourceXlated
  | none => ""

/-- Getter of a `wrapperspb.BoolValue`; `false` on a nil message. -/
def BoolValue.GetValue (b : Option Bool) : Bool :=
  match b with
  | some v => v
  | none => false

/-- The zero observation point. -/
def TraceObservationPoint_UNKNOWN_POINT : Nat := 0

/-- Modelled from the spec: the enum value `TO_ENDPOINT` of `api/v1/flow`, which is
not under src/; the spec only fixes that it is not the zero value, the number is
the one of the flow API. -/
def TraceObservationPoint_TO_ENDPOINT : Nat := 101

/-- The zero trace reason. -/
def TraceReason_TRACE_REASON_UNKNOWN : Nat := 0

/-- The zero debug capture point. -/
def DebugCapturePoint_DBG_CAPTURE_POINT_UNKNOWN : Nat := 0

/-- Modelled from the spec: the policies `correlation.CorrelatePolicy` (not under
src/) annotates a flow with; of a flow the correlator writes these fields and no
other. -/
structure PolicyAnnotations where
  EgressAllowedBy : List String := []
  IngressAllowedBy : List String := []
  EgressDeniedBy : List String := []
  IngressDeniedBy : List String := []
  PolicyLog : List String := []
  deriving DecidableEq, Repr, Inhabited

/-- The flow message: the fields `Decode` writes, the policy annotations, and
three of the fields `Decode` never names (`Time`, `Uuid`, `NodeName`). -/
structure Flow where
  Time : Nat := 0
  Uuid : String := ""
  NodeName : String := ""
  Verdict : Verdict := Verdict.VERDICT_UNKNOWN
  AuthType : Nat := 0
  DropReason : Nat := 0
  DropReasonDesc : Nat := 0
  File : Option FileInfo := none
  Ethernet : Option Ethernet := none
  IP : Option IP := none
  L4 : Option Layer4 := none
  Tunnel : Option Tunnel := none
  Source : Option Endpoint := none
  Destination : Option Endpoint := none
  Type_ : FlowType := FlowType.UNKNOWN_TYPE
  SourceNames : List String := []
  DestinationNames : List String := []
  L7 : Option String := none
  IsReply : Option Bool := none
  Reply : Bool := false
  TrafficDirection : TrafficDirection := TrafficDirection.TRAFFIC_DIRECTION_UNKNOWN
  EventType : Option CiliumEventType := none
  TraceReason : Nat := 0
  TraceObservationPoint : Nat := 0
  SourceService : Option Service := none
  DestinationService : Option Service := none
  PolicyMatchType : Nat := 0
  DebugCapturePoint : Nat := 0
  Interface : Option NetworkInterface := none
  ProxyPort : Nat := 0
  Summary : String := ""
  Policies : PolicyAnnotations := {}
  deriving DecidableEq, Repr

end pb

/-! ## Go standard library values used by the parser -/

namespace net

/-- The 12 byte head of an IPv4-mapped IPv6 address. -/
def v4InV6Prefix : List Nat := [0, 0, 0, 0, 0, 0, 0, 0, 0, 0, 0xff, 0xff]

/-- `net.IPv4zero`, in its 16 byte form. -/
def IPv4zero : List Nat := v4InV6Prefix ++ [0, 0, 0, 0]

/-- `net.IPv6unspecified`. -/
def IPv6unspecified : List Nat := List.replicate 16 0

/-- `net.IP.Equal`: an IPv4 address and its IPv4-mapped form are equal. -/
def IP_Equal (ip x : List Nat) : Bool :=
  if ip.length = x.length then decide (ip = x)
  else if ip.length = 4 ∧ x.length = 16 then
    decide (x.take 12 = v4InV6Prefix) && decide (ip = x.drop 12)
  else if ip.length = 16 ∧ x.length = 4 then
    decide (ip.take 12 = v4InV6Prefix) && decide (ip.drop 12 = x)
  else false

/-- `net.IP.IsUnspecified`. -/
def IP_IsUnspecified (ip : List Nat) : Bool :=
  IP_Equal ip IPv4zero || IP_Equal ip IPv6unspecified

end net

namespace netip

/-- `netip.Addr` without zones: the zero value, an IPv4 or an IPv6 address. -/
inductive Addr where
  | zero
  | v4 (a : List Nat)
  | v6 (a : List Nat)
  deriving DecidableEq, Repr, Inhabited

/-- `netip.Addr.IsValid`: every address but the zero value. -/
def Addr.IsValid (a : Addr) : Bool :=
  match a with
  | Addr.zero => false
  | _ => true

end netip

namespace netipx

/-- `netipx.FromStdIP` (its first result): 4 and 16 byte slices convert, an
IPv4-mapped IPv6 address is unmapped, every other length gives the zero `Addr`. -/
def FromStdIP (std : List Nat) : netip.Addr :=
  if std.length = 4 then netip.Addr.v4 std
  else if std.length = 16 then
    if std.take 12 = net.v4InV6Prefix then netip.Addr.v4 (std.drop 12)
    else netip.Addr.v6 std
  else netip.Addr.zero

end netipx

/-! ## Monitor events (`pkg/monitor`, `pkg/monitor/api`) -/

namespace monitorAPI

/-- Modelled from the spec: the event tag `MessageTypeDrop` of `pkg/monitor/api`,
which is not under src/; the number is the one of the datapath ABI. -/
def MessageTypeDrop : Nat := 1

/-- Modelled from the spec: the event tag `MessageTypeCapture` of `pkg/monitor/api`,
which is not under src/; the number is the one of the datapath ABI. -/
def MessageTypeCapture : Nat := 3

/-- Modelled from the spec: the event tag `MessageTypeTrace` of `pkg/monitor/api`,
which is not under src/; the number is the one of the datapath ABI. -/
def MessageTypeTrace : Nat := 4

/-- Modelled from the spec: the event tag `MessageTypePolicyVerdict` of
`pkg/monitor/api`, which is not under src/; the number is the one of the datapath
ABI. -/
def MessageTypePolicyVerdict : Nat := 5

/-- Modelled from the spec: the observation point `TraceToProxy` of
`pkg/monitor/api`, which is not under src/; the number is the one of the datapath
ABI. -/
def TraceToProxy : Nat := 1

/-- Modelled from the spec: the direction value `PolicyIngress` of
`pkg/monitor/api`, which is not under src/; the number is the one of the datapath
ABI. -/
def PolicyIngress : Nat := 1

end monitorAPI

namespace monitor

/-- Modelled from the spec: the drop notification header of `pkg/monitor`, which
is not under src/, with the fields the data model of the spec lists (sub-type,
source endpoint id, src/dst labels, file/line, data offset, L3/IPv6/VXLAN/Geneve
flags). `DataOffset` and the four flags are accessor methods in Go. -/
structure DropNotify where
  SubType : Nat := 0
  Source : Nat := 0
  SrcLabel : Nat := 0
  DstLabel : Nat := 0
  Line : Nat := 0
  File : Nat := 0
  DataOffset : Nat := 0
  IsL3Device : Bool := false
  IsIPv6 : Bool := false
  IsVXLAN : Bool := false
  IsGeneve : Bool := false
  deriving DecidableEq, Repr, Inhabited

/-- Modelled from the spec: the trace notification header of `pkg/monitor`, which
is not under src/, with the fields the data model of the spec lists (observation
point, src/dst labels, source endpoint id, dst id, reason, original IP, interface
index, L3/IPv6/VXLAN/Geneve flags, data offset). `Reason` is the raw reason byte,
which also holds the encrypt flag bit; `OrigIP` is the 16 byte array of the
header. -/
structure TraceNotify where
  ObsPoint : Nat := 0
  Source : Nat := 0
  SrcLabel : Nat := 0
  DstLabel : Nat := 0
  DstID : Nat := 0
  Reason : Nat := 0
  Ifindex : Nat := 0
  OrigIP : List Nat := List.replicate 16 0
  DataOffset : Nat := 0
  IsL3Device : Bool := false
  IsIPv6 : Bool := false
  IsVXLAN : Bool := false
  IsGeneve : Bool := false
  deriving DecidableEq, Repr, Inhabited

/-- Modelled from the spec: the policy verdict header of `pkg/monitor`, which is
not under src/, with the fields the data model of the spec lists. `Verdict` is a
signed 32 bit integer, `Flags` the flag byte that holds the direction, the match
type and the audit flag. -/
structure PolicyVerdictNotify where
  SubType : Nat := 0
  Source : Nat := 0
  RemoteLabel : Nat := 0
  Verdict : Int := 0
  Flags : Nat := 0
  AuthType : Nat := 0
  deriving DecidableEq, Repr, Inhabited

/-- Modelled from the spec: the debug capture header of `pkg/monitor`, which is
not under src/, with the fields the data model of the spec lists. -/
structure DebugCapture where
  SubType : Nat := 0
  Arg1 : Nat := 0
  deriving DecidableEq, Repr, Inhabited

/-- Modelled from the spec: the datapath value of the trace reason `Unknown`
(the spec gives 5); `pkg/monitor` is not under src/. -/
def TraceReasonUnknown : Nat := 5

/-- Modelled from the spec: the datapath value of the trace reason `CtReply` of
`pkg/monitor`, which is not under src/; the number is the one of the datapath
ABI. -/
def TraceReasonCtReply : Nat := 2

/-- Modelled from the spec: the datapath value of the trace reason `SRv6Encap` of
`pkg/monitor`, which is not under src/; the number is the one of the datapath
ABI. -/
def TraceReasonSRv6Encap : Nat := 6

/-- Modelled from the spec: the datapath value of the trace reason `SRv6Decap` of
`pkg/monitor`, which is not under src/; the number is the one of the datapath
ABI. -/
def TraceReasonSRv6Decap : Nat := 7

/-- Modelled from the spec: the datapath value of the trace reason
`EncryptOverlay` of `pkg/monitor`, which is not under src/; the number is the one
of the datapath ABI. -/
def TraceReasonEncryptOverlay : Nat := 8

/-- Modelled from the spec: the encrypt flag bit of the reason byte
(`TraceReasonEncryptMask` of `pkg/monitor`, which is not under src/). -/
def TraceReasonEncryptMask : Nat := 0x80

/-- Modelled from the spec: `TraceNotify.TraceReason` of `pkg/monitor` (not under
src/), the header reason with the encrypt flag bit removed. -/
def TraceNotify.TraceReason (tn : TraceNotify) : Nat :=
  Nat.land (tn.Reason % 256) (255 - TraceReasonEncryptMask)

/-- Modelled from the spec: `TraceNotify.IsEncrypted` of `pkg/monitor` (not under
src/), the encrypt flag bit of the reason byte. -/
def TraceNotify.IsEncrypted (tn : TraceNotify) : Bool :=
  Nat.land (tn.Reason % 256) TraceReasonEncryptMask != 0

/-- Modelled from the spec: `TraceNotify.TraceReasonIsKnown` of `pkg/monitor` (not
under src/): the reason is not `Unknown`. -/
def TraceNotify.TraceReasonIsKnown (tn : TraceNotify) : Bool :=
  tn.TraceReason != TraceReasonUnknown

/-- Modelled from the spec: `TraceNotify.TraceReasonIsReply` of `pkg/monitor` (not
under src/): the reason is the connection tracking reply reason. -/
def TraceNotify.TraceReasonIsReply (tn : TraceNotify) : Bool :=
  tn.TraceReason == TraceReasonCtReply

/-- Modelled from the spec: `TraceNotify.TraceReasonIsEncap` of `pkg/monitor` (not
under src/): the reason is one of the encapsulation reasons. -/
def TraceNotify.TraceReasonIsEncap (tn : TraceNotify) : Bool :=
  tn.TraceReason == TraceReasonSRv6Encap || tn.TraceReason == TraceReasonEncryptOverlay

/-- Modelled from the spec: `TraceNotify.TraceReasonIsDecap` of `pkg/monitor` (not
under src/): the reason is the decapsulation reason. -/
def TraceNotify.TraceReasonIsDecap (tn : TraceNotify) : Bool :=
  tn.TraceReason == TraceReasonSRv6Decap

/-- Modelled from the spec: `TraceNotify.OriginalIP` of `pkg/monitor` (not under
src/): the original IP array, cut to 4 bytes unless the IPv6 flag is set. -/
def TraceNotify.OriginalIP (tn : TraceNotify) : List Nat :=
  if tn.IsIPv6 then tn.OrigIP else tn.OrigIP.take 4

/-- Modelled from the spec: the direction bits of the policy verdict flags
(`pkg/monitor`, not under src/). -/
def PolicyVerdictNotifyFlagDirection : Nat := 0x03

/-- Modelled from the spec: the match type bits of the policy verdict flags
(`pkg/monitor`, not under src/). -/
def PolicyVerdictNotifyFlagMatchType : Nat := 0x38

/-- Modelled from the spec: the position of the match type bits (`pkg/monitor`,
not under src/). -/
def PolicyVerdictNotifyFlagMatchTypeBitOffset : Nat := 3

/-- Modelled from the spec: the audit bit of the policy verdict flags
(`pkg/monitor`, not under src/). -/
def PolicyVerdictNotifyFlagIsAudited : Nat := 0x40

/-- Modelled from the spec: `PolicyVerdictNotify.IsTrafficIngress` of `pkg/monitor`
(not under src/): the ingress/egress flag says ingress. -/
def PolicyVerdictNotify.IsTrafficIngress (pvn : PolicyVerdictNotify) : Bool :=
  Nat.land pvn.Flags PolicyVerdictNotifyFlagDirection == monitorAPI.PolicyIngress

/-- Modelled from the spec: `PolicyVerdictNotify.IsTrafficAudited` of `pkg/monitor`
(not under src/): the audit flag is set. -/
def PolicyVerdictNotify.IsTrafficAudited (pvn : PolicyVerdictNotify) : Bool :=
  Nat.land pvn.Flags PolicyVerdictNotifyFlagIsAudited != 0

/-- Modelled from the spec: `PolicyVerdictNotify.GetAuthType` of `pkg/monitor` (not
under src/): the auth type of the header. -/
def PolicyVerdictNotify.GetAuthType (pvn : PolicyVerdictNotify) : Nat :=
  pvn.AuthType

/-- Modelled from the spec: the fixed packet offset of policy verdict events
(`PolicyVerdictNotifyLen` of `pkg/monitor`, not under src/). -/
def PolicyVerdictNotifyLen : Nat := 32

/-- Modelled from the spec: the fixed packet offset of debug capture events
(`DebugCaptureLen` of `pkg/monitor`, not under src/). -/
def DebugCaptureLen : Nat := 24

/-- Modelled from the spec: the capture point `DbgCaptureDelivery` of
`pkg/monitor`, which is not under src/; the number is the one of the datapath
ABI. -/
def DbgCaptureDelivery : Nat := 4

/-- Modelled from the spec: the capture point `DbgCaptureFromLb` of `pkg/monitor`,
which is not under src/; the number is the one of the datapath ABI. -/
def DbgCaptureFromLb : Nat := 5

/-- Modelled from the spec: the capture point `DbgCaptureAfterV46` of
`pkg/monitor`, which is not under src/; the number is the one of the datapath
ABI. -/
def DbgCaptureAfterV46 : Nat := 6

/-- Modelled from the spec: the capture point `DbgCaptureAfterV64` of
`pkg/monitor`, which is not under src/; the number is the one of the datapath
ABI. -/
def DbgCaptureAfterV64 : Nat := 7

/-- Modelled from the spec: the capture point `DbgCaptureProxyPre` of
`pkg/monitor`, which is not under src/; the number is the one of the datapath
ABI. -/
def DbgCaptureProxyPre : Nat := 8

/-- Modelled from the spec: the capture point `DbgCaptureProxyPost` of
`pkg/monitor`, which is not under src/; the number is the one of the datapath
ABI. -/
def DbgCaptureProxyPost : Nat := 9

/-- Modelled from the spec: the capture point `DbgCaptureSnatPre` of `pkg/monitor`,
which is not under src/; the number is the one of the datapath ABI. -/
def DbgCaptureSnatPre : Nat := 10

/-- Modelled from the spec: the capture point `DbgCaptureSnatPost` of
`pkg/monitor`, which is not under src/; the number is the one of the datapath
ABI. -/
def DbgCaptureSnatPost : Nat := 11

end monitor

namespace byteorder

/-- Modelled from the spec: `byteorder.NetworkToHost32` of `pkg/byteorder`, which
is not under src/: the 32 bit value with its four bytes in reverse order. -/
def NetworkToHost32 (n : Nat) : Nat :=
  (n % 256) * 2 ^ 24 + (n / 2 ^ 8 % 256) * 2 ^ 16 + (n / 2 ^ 16 % 256) * 2 ^ 8
    + (n / 2 ^ 24 % 256)

end byteorder

/-! ## Machine integer conversions -/

/-- Conversion to `uint16`. -/
def uint16 (n : Nat) : Nat := n % 2 ^ 16

/-- Conversion of a signed integer to `uint32` (two's complement). -/
def uint32 (i : Int) : Nat := (i % 2 ^ 32).toNat

/-- Wrap an integer into the `int32` range. -/
def int32 (i : Int) : Int := (i + 2 ^ 31) % 2 ^ 32 - 2 ^ 31

/-- Unary minus on `int32`, which wraps at the minimum value. -/
def negInt32 (v : Int) : Int := int32 (-v)

/-! ## Field decoders of `parser.go` -/

/-- Source lines 428-447. -/
def decodeVerdict (dn : Option monitor.DropNotify) (tn : Option monitor.TraceNotify)
    (pvn : Option monitor.PolicyVerdictNotify) : pb.Verdict :=
  match dn, tn, pvn with
  | some _, _, _ => pb.Verdict.DROPPED
  | none, some _, _ => pb.Verdict.FORWARDED
  | none, none, some pvn =>
    if pvn.Verdict < 0 then pb.Verdict.DROPPED
    else if pvn.Verdict > 0 then pb.Verdict.REDIRECTED
    else if pvn.IsTrafficAudited then pb.Verdict.AUDIT
    else pb.Verdict.FORWARDED
  | none, none, none => pb.Verdict.VERDICT_UNKNOWN

/-- Source lines 449-458. -/
def decodeDropReason (dn : Option monitor.DropNotify)
    (pvn : Option monitor.PolicyVerdictNotify) : Nat :=
  match dn, pvn with
  | some dn, _ => dn.SubType
  | none, some pvn => if pvn.Verdict < 0 then uint32 (negInt32 pvn.Verdict) else 0
  | none, none => 0

/-- Source lines 471-477. -/
def decodePolicyMatchType (pvn : Option monitor.PolicyVerdictNotify) : Nat :=
  match pvn with
  | some pvn =>
    Nat.shiftRight (Nat.land pvn.Flags monitor.PolicyVerdictNotifyFlagMatchType)
      monitor.PolicyVerdictNotifyFlagMatchTypeBitOffset
  | none => 0

/-- Source lines 566-586: `none` is the nil `BoolValue`. -/
def decodeIsReply (tn : Option monitor.TraceNotify)
    (pvn : Option monitor.PolicyVerdictNotify) : Option Bool :=
  let fromVerdict : Option Bool :=
    match pvn with
    | some pvn => if pvn.Verdict ≥ 0 then some false else none
    | none => none
  match tn with
  | some tn =>
    if tn.TraceReasonIsKnown then
      if tn.TraceReasonIsEncap || tn.TraceReasonIsDecap then none
      else some tn.TraceReasonIsReply
    else fromVerdict
  | none => fromVerdict

/-- Source lines 588-593. -/
def decodeCiliumEventType (eventType eventSubType : Nat) : pb.CiliumEventType :=
  { Type_ := eventType, SubType := eventSubType }

/-- Source lines 595-616. -/
def decodeTraceReason (tn : Option monitor.TraceNotify) : Nat :=
  match tn with
  | none => pb.TraceReason_TRACE_REASON_UNKNOWN
  | some tn =>
    if tn.TraceReason = monitor.TraceReasonUnknown then pb.TraceReason_TRACE_REASON_UNKNOWN
    else if tn.TraceReason < monitor.TraceReasonUnknown then tn.TraceReason + 1
    else tn.TraceReason

/-- Source lines 618-637. -/
def decodeSecurityIdentities (dn : Option monitor.DropNotify)
    (tn : Option monitor.TraceNotify) (pvn : Option monitor.PolicyVerdictNotify) :
    Nat × Nat :=
  match dn, tn, pvn with
  | some dn, _, _ => (dn.SrcLabel, dn.DstLabel)
  | none, some tn, _ => (tn.SrcLabel, tn.DstLabel)
  | none, none, some pvn =>
    if pvn.IsTrafficIngress then (pvn.RemoteLabel, 0) else (0, pvn.RemoteLabel)
  | none, none, none => (0, 0)

/-- The policy verdict branch and the final return of `decodeTrafficDirection`
(source lines 682-688). -/
def decodeTrafficDirection.verdict (pvn : Option monitor.PolicyVerdictNotify) :
    pb.TrafficDirection :=
  match pvn with
  | some pvn =>
    if pvn.IsTrafficIngress then pb.TrafficDirection.INGRESS
    else pb.TrafficDirection.EGRESS
  | none => pb.TrafficDirection.TRAFFIC_DIRECTION_UNKNOWN

/-- The trace branch of `decodeTrafficDirection` and what follows it (source lines
650-688). -/
def decodeTrafficDirection.trace (srcEP : Nat) (tn : Option monitor.TraceNotify)
    (pvn : Option monitor.PolicyVerdictNotify) : pb.TrafficDirection :=
  match tn with
  | some tn =>
    if tn.Source ≠ 0 ∧ tn.TraceReasonIsKnown then
      let isSourceEP : Bool := tn.Source == uint16 srcEP
      let isSNATed : Bool := !net.IP_IsUnspecified tn.OriginalIP
      let isReply : Bool := tn.TraceReasonIsReply
      if tn.TraceReason = monitor.TraceReasonEncryptOverlay then pb.TrafficDirection.EGRESS
      else if isSourceEP != isReply then pb.TrafficDirection.EGRESS
      else if isSNATed then pb.TrafficDirection.EGRESS
      else pb.TrafficDirection.INGRESS
    else decodeTrafficDirection.verdict pvn
  | none => decodeTrafficDirection.verdict pvn

/-- Source lines 639-689. `srcEP` is a `uint32`, the `Source` of both headers a
`uint16`; the source compares `Source` with `uint16(srcEP)`. -/
def decodeTrafficDirection (srcEP : Nat) (dn : Option monitor.DropNotify)
    (tn : Option monitor.TraceNotify) (pvn : Option monitor.PolicyVerdictNotify) :
    pb.TrafficDirection :=
  match dn with
  | some dn =>
    if dn.Source ≠ 0 then
      if dn.Source = uint16 srcEP then pb.TrafficDirection.EGRESS
      else pb.TrafficDirection.INGRESS
    else decodeTrafficDirection.trace srcEP tn pvn
  | none => decodeTrafficDirection.trace srcEP tn pvn

/-- Source lines 460-469; `name` is `monitorAPI.BPFFileName dn.File`. -/
def decodeFileInfo (name : Nat → String) (dn : Option monitor.DropNotify) :
    Option pb.FileInfo :=
  match dn with
  | some dn => some { Name := name dn.File, Line := dn.Line }
  | none => none

/-- Source lines 747-752. -/
def decodeDebugCapturePoint (dbg : Option monitor.DebugCapture) : Nat :=
  match dbg with
  | none => pb.DebugCapturePoint_DBG_CAPTURE_POINT_UNKNOWN
  | some dbg => dbg.SubType

/-! ## Errors -/

/-- The error values `Decode` and `decodeLayers` return. -/
inductive Error where
  /-- `errors.ErrEmptyData`. -/
  | ErrEmptyData
  /-- `errors.NewErrInvalidType t`. -/
  | ErrInvalidType (t : Nat)
  /-- `fmt.Errorf` with a message and a wrapped cause. -/
  | wrap (msg : String) (cause : Error)
  /-- The error of source line 207, which prints the event. -/
  | notEnoughBytes (data : List Nat)
  /-- An error value made by code outside `parser.go`. -/
  | external (msg : String)
  deriving DecidableEq, Repr

/-! ## gopacket layers and the packet workspace -/

/-- The layer types the two parsers of the workspace have a decoding layer for
(`gopacket.LayerType`); only these can appear in a decoded layer list. -/
inductive LayerType where
  | Ethernet | IPv4 | IPv6 | ICMPv4 | ICMPv6 | TCP | UDP | SCTP | VXLAN | Geneve
  deriving DecidableEq, Repr, Inhabited

/-- The name gopacket registers for each layer type (`LayerType.String`). -/
def LayerType.String (t : LayerType) : String :=
  match t with
  | LayerType.Ethernet => "Ethernet"
  | LayerType.IPv4 => "IPv4"
  | LayerType.IPv6 => "IPv6"
  | LayerType.ICMPv4 => "ICMPv4"
  | LayerType.ICMPv6 => "ICMPv6"
  | LayerType.TCP => "TCP"
  | LayerType.UDP => "UDP"
  | LayerType.SCTP => "SCTP"
  | LayerType.VXLAN => "VXLAN"
  | LayerType.Geneve => "Geneve"

namespace layers

/-- The fields of `layers.Ethernet` the parser and the decoding loop read. -/
structure Ethernet where
  SrcMAC : List Nat := []
  DstMAC : List Nat := []
  EthernetType : Nat := 0
  Payload : List Nat := []
  deriving DecidableEq, Repr, Inhabited

/-- The fields of `layers.IPv4` the parser and the decoding loop read. -/
structure IPv4 where
  SrcIP : List Nat := []
  DstIP : List Nat := []
  Protocol : Nat := 0
  Flags : Nat := 0
  FragOffset : Nat := 0
  Payload : List Nat := []
  deriving DecidableEq, Repr, Inhabited

/-- The fields of `layers.IPv6` the parser and the decoding loop read. -/
structure IPv6 where
  SrcIP : List Nat := []
  DstIP : List Nat := []
  NextHeader : Nat := 0
  Payload : List Nat := []
  deriving DecidableEq, Repr, Inhabited

/-- The fields of `layers.ICMPv4` the parser reads; `TypeCode` is a `uint16`. -/
structure ICMPv4 where
  TypeCode : Nat := 0
  Payload : List Nat := []
  deriving DecidableEq, Repr, Inhabited

/-- The fields of `layers.ICMPv6` the parser reads; `TypeCode` is a `uint16`. -/
structure ICMPv6 where
  TypeCode : Nat := 0
  Payload : List Nat := []
  deriving DecidableEq, Repr, Inhabited

/-- The fields of `layers.TCP` the parser reads. -/
structure TCP where
  SrcPort : Nat := 0
  DstPort : Nat := 0
  FIN : Bool := false
  SYN : Bool := false
  RST : Bool := false
  PSH : Bool := false
  ACK : Bool := false
  URG : Bool := false
  ECE : Bool := false
  CWR : Bool := false
  NS : Bool := false
  Payload : List Nat := []
  deriving DecidableEq, Repr, Inhabited

/-- The fields of `layers.UDP` the parser reads. -/
structure UDP where
  SrcPort : Nat := 0
  DstPort : Nat := 0
  Payload : List Nat := []
  deriving DecidableEq, Repr, Inhabited

/-- The fields of `layers.SCTP` the parser reads. -/
structure SCTP where
  SrcPort : Nat := 0
  DstPort : Nat := 0
  Payload : List Nat := []
  deriving DecidableEq, Repr, Inhabited

/-- The fields of `layers.VXLAN` the decoding loop reads. -/
structure VXLAN where
  VNI : Nat := 0
  Payload : List Nat := []
  deriving DecidableEq, Repr, Inhabited

/-- The fields of `layers.Geneve` the decoding loop reads. -/
structure Geneve where
  Protocol : Nat := 0
  VNI : Nat := 0
  Payload : List Nat := []
  deriving DecidableEq, Repr, Inhabited

/-- `ICMPv4TypeCode.Type` and `ICMPv6TypeCode.Type`: the high byte. -/
def TypeCode_Type (tc : Nat) : Nat := (tc / 256) % 256

/-- `ICMPv4TypeCode.Code` and `ICMPv6TypeCode.Code`: the low byte. -/
def TypeCode_Code (tc : Nat) : Nat := tc % 256

end layers

/-- The eight decoding layers embedded in `packet` (source lines 61-68). -/
structure packetLayers where
  Ethernet : layers.Ethernet := {}
  IPv4 : layers.IPv4 := {}
  IPv6 : layers.IPv6 := {}
  ICMPv4 : layers.ICMPv4 := {}
  ICMPv6 : layers.ICMPv6 := {}
  TCP : layers.TCP := {}
  UDP : layers.UDP := {}
  SCTP : layers.SCTP := {}
  deriving DecidableEq, Repr, Inhabited

/-- The ten decoding layers embedded in `packet.overlay` (source lines 72-81). -/
structure overlayLayers where
  VXLAN : layers.VXLAN := {}
  Geneve : layers.Geneve := {}
  Ethernet : layers.Ethernet := {}
  IPv4 : layers.IPv4 := {}
  IPv6 : layers.IPv6 := {}
  ICMPv4 : layers.ICMPv4 := {}
  ICMPv6 : layers.ICMPv6 := {}
  TCP : layers.TCP := {}
  UDP : layers.UDP := {}
  SCTP : layers.SCTP := {}
  deriving DecidableEq, Repr, Inhabited

/-- What one call of `DecodingLayerParser.DecodeLayers` leaves behind: the decoding
layers it wrote into, the list of decoded layer types and its error. -/
structure DecodeLayersOut (σ : Type) where
  layers : σ
  decoded : List LayerType
  err : Option Error

/-- A `gopacket.DecodingLayerParser` bound to decoding layers of type `σ`: the Go
call `DecodeLayers(data, &decoded)` reads the bytes and the layers and writes the
layers and the list. -/
abbrev DecodingLayerParser (σ : Type) : Type := List Nat → σ → DecodeLayersOut σ

/-- The re-usable packet of source lines 46-83, without its mutex: the five
parsers, the decoded layer lists and the decoding layers of the outer packet and
of the overlay. -/
structure packet where
  decLayerL2Dev : DecodingLayerParser packetLayers
  decLayerL3Dev_IPv4 : DecodingLayerParser packetLayers
  decLayerL3Dev_IPv6 : DecodingLayerParser packetLayers
  decLayerOverlay_VXLAN : DecodingLayerParser overlayLayers
  decLayerOverlay_Geneve : DecodingLayerParser overlayLayers
  Layers : List LayerType := []
  layers : packetLayers := {}
  overlay_Layers : List LayerType := []
  overlay : overlayLayers := {}

/-! ## Getters and the endpoint resolver (`pkg/hubble/parser/getters`, `common`) -/

namespace getters

/-- Modelled from the spec: the endpoint getter of `pkg/hubble/parser/getters`,
which is not under src/ (section 6.1 of the spec). -/
structure EndpointGetter where
  GetEndpointInfo : netip.Addr → Option pb.Endpoint
  GetEndpointInfoByID : Nat → Option pb.Endpoint

/-- Modelled from the spec: the DNS getter of `pkg/hubble/parser/getters`, which
is not under src/ (section 6.1 of the spec). -/
structure DNSGetter where
  GetNamesOf : Nat → netip.Addr → List String

/-- Modelled from the spec: the service getter of `pkg/hubble/parser/getters`,
which is not under src/ (section 6.1 of the spec). -/
structure ServiceGetter where
  GetServiceByAddr : netip.Addr → Nat → Option pb.Service

/-- Modelled from the spec: the link getter of `pkg/hubble/parser/getters`, which
is not under src/ (section 6.1 of the spec). -/
structure LinkGetter where
  GetIfNameCached : Nat → String × Bool

end getters

namespace common

/-- Modelled from the spec: the datapath context of `pkg/hubble/parser/common`,
which is not under src/; the fields are the ones `Decode` fills. -/
structure DatapathContext where
  SrcIP : netip.Addr := netip.Addr.zero
  SrcLabelID : Nat := 0
  DstIP : netip.Addr := netip.Addr.zero
  DstLabelID : Nat := 0
  TraceObservationPoint : Nat := 0
  deriving DecidableEq, Repr

/-- Modelled from the spec: the endpoint resolver of `pkg/hubble/parser/common`,
which is not under src/: it resolves an endpoint from an IP, a security identity
and the datapath context. -/
structure EndpointResolver where
  ResolveEndpoint : netip.Addr → Nat → DatapathContext → pb.Endpoint

end common

/-! ## Functions of other packages, taken as parameters -/

/-- The functions of the Go standard library, of gopacket and of other packages of
the repository that `parser.go` calls and whose code is not under src/. -/
structure Externals where
  /-- `net.HardwareAddr.String`. -/
  HardwareAddr_String : List Nat → String
  /-- `net.IP.String`. -/
  IP_String : List Nat → String
  /-- `netip.Addr.String`. -/
  Addr_String : netip.Addr → String
  /-- `layers.ICMPv4TypeCode.String`. -/
  ICMPv4TypeCode_String : Nat → String
  /-- `layers.ICMPv6TypeCode.String`. -/
  ICMPv6TypeCode_String : Nat → String
  /-- `monitorAPI.BPFFileName`. -/
  BPFFileName : Nat → String
  /-- `monitor.DropNotify.Decode`. -/
  DropNotify_Decode : List Nat → Except Error monitor.DropNotify
  /-- `monitor.TraceNotify.Decode`. -/
  TraceNotify_Decode : List Nat → Except Error monitor.TraceNotify
  /-- `monitor.PolicyVerdictNotify.Decode`. -/
  PolicyVerdictNotify_Decode : List Nat → Except Error monitor.PolicyVerdictNotify
  /-- `monitor.DebugCapture.Decode`. -/
  DebugCapture_Decode : List Nat → Except Error monitor.DebugCapture
  /-- `correlation.CorrelatePolicy`: the annotations it leaves on the flow. -/
  CorrelatePolicy : getters.EndpointGetter → pb.Flow → pb.PolicyAnnotations

/-! ## Layer decoders of `parser.go` -/

/-- Source lines 479-484. -/
def decodeEthernet (x : Externals) (ethernet : layers.Ethernet) : pb.Ethernet :=
  { Source := x.HardwareAddr_String ethernet.SrcMAC,
    Destination := x.HardwareAddr_String ethernet.DstMAC }

/-- Source lines 486-496. -/
def decodeIPv4 (x : Externals) (ipv4 : layers.IPv4) : pb.IP × netip.Addr × netip.Addr :=
  ({ Source := x.IP_String ipv4.SrcIP,
     Destination := x.IP_String ipv4.DstIP,
     IpVersion := pb.IPVersion.IPv4 },
   netipx.FromStdIP ipv4.SrcIP, netipx.FromStdIP ipv4.DstIP)

/-- Source lines 498-508. -/
def decodeIPv6 (x : Externals) (ipv6 : layers.IPv6) : pb.IP × netip.Addr × netip.Addr :=
  ({ Source := x.IP_String ipv6.SrcIP,
     Destination := x.IP_String ipv6.DstIP,
     IpVersion := pb.IPVersion.IPv6 },
   netipx.FromStdIP ipv6.SrcIP, netipx.FromStdIP ipv6.DstIP)

/-- Source lines 510-524. -/
def decodeTCP (tcp : layers.TCP) : pb.Layer4 × Nat × Nat :=
  (pb.Layer4.TCP tcp.SrcPort tcp.DstPort
     { FIN := tcp.FIN, SYN := tcp.SYN, RST := tcp.RST,
       PSH := tcp.PSH, ACK := tcp.ACK, URG := tcp.URG,
       ECE := tcp.ECE, CWR := tcp.CWR, NS := tcp.NS },
   uint16 tcp.SrcPort, uint16 tcp.DstPort)

/-- Source lines 526-535. -/
def decodeSCTP (sctp : layers.SCTP) : pb.Layer4 × Nat × Nat :=
  (pb.Layer4.SCTP sctp.SrcPort sctp.DstPort, uint16 sctp.SrcPort, uint16 sctp.DstPort)

/-- Source lines 537-546. -/
def decodeUDP (udp : layers.UDP) : pb.Layer4 × Nat × Nat :=
  (pb.Layer4.UDP udp.SrcPort udp.DstPort, uint16 udp.SrcPort, uint16 udp.DstPort)

/-- Source lines 548-555. -/
def decodeICMPv4 (icmp : layers.ICMPv4) : pb.Layer4 :=
  pb.Layer4.ICMPv4 (layers.TypeCode_Type icmp.TypeCode) (layers.TypeCode_Code icmp.TypeCode)

/-- Source lines 557-564. -/
def decodeICMPv6 (icmp : layers.ICMPv6) : pb.Layer4 :=
  pb.Layer4.ICMPv6 (layers.TypeCode_Type icmp.TypeCode) (layers.TypeCode_Code icmp.TypeCode)

/-- Source lines 691-745: the names of the set flags, in the order of the `if`s,
joined by a comma and a blank. -/
def getTCPFlags (tcp : layers.TCP) : String :=
  let info : List String := []
  let info := if tcp.SYN then info ++ ["SYN"] else info
  let info := if tcp.ACK then info ++ ["ACK"] else info
  let info := if tcp.RST then info ++ ["RST"] else info
  let info := if tcp.FIN then info ++ ["FIN"] else info
  let info := if tcp.PSH then info ++ ["PSH"] else info
  let info := if tcp.URG then info ++ ["URG"] else info
  let info := if tcp.ECE then info ++ ["ECE"] else info
  let info := if tcp.CWR then info ++ ["CWR"] else info
  let info := if tcp.NS then info ++ ["NS"] else info
  String.intercalate ", " info

/-- The ten results of `decodeLayers` (source lines 296-305). -/
structure LayersResult where
  ethernet : Option pb.Ethernet := none
  ip : Option pb.IP := none
  l4 : Option pb.Layer4 := none
  tunnel : Option pb.Tunnel := none
  sourceIP : netip.Addr := netip.Addr.zero
  destinationIP : netip.Addr := netip.Addr.zero
  sourcePort : Nat := 0
  destinationPort : Nat := 0
  summary : String := ""
  err : Option Error := none
  deriving DecidableEq, Repr

/-- One round of the loop over `packet.Layers` (source lines 333-354). -/
def decodeLayers.outerStep (x : Externals) (l : packetLayers) (r : LayersResult)
    (typ : LayerType) : LayersResult :=
  let r := { r with summary := typ.String }
  match typ with
  | LayerType.Ethernet => { r with ethernet := some (decodeEthernet x l.Ethernet) }
  | LayerType.IPv4 =>
    let d := decodeIPv4 x l.IPv4
    { r with ip := some d.1, sourceIP := d.2.1, destinationIP := d.2.2 }
  | LayerType.IPv6 =>
    let d := decodeIPv6 x l.IPv6
    { r with ip := some d.1, sourceIP := d.2.1, destinationIP := d.2.2 }
  | LayerType.TCP =>
    let d := decodeTCP l.TCP
    { r with l4 := some d.1, sourcePort := d.2.1, destinationPort := d.2.2,
             summary := "TCP Flags: " ++ getTCPFlags l.TCP }
  | LayerType.UDP =>
    let d := decodeUDP l.UDP
    { r with l4 := some d.1, sourcePort := d.2.1, destinationPort := d.2.2 }
  | LayerType.SCTP =>
    let d := decodeSCTP l.SCTP
    { r with l4 := some d.1, sourcePort := d.2.1, destinationPort := d.2.2 }
  | LayerType.ICMPv4 =>
    { r with l4 := some (decodeICMPv4 l.ICMPv4),
             summary := "ICMPv4 " ++ x.ICMPv4TypeCode_String l.ICMPv4.TypeCode }
  | LayerType.ICMPv6 =>
    { r with l4 := some (decodeICMPv6 l.ICMPv6),
             summary := "ICMPv6 " ++ x.ICMPv6TypeCode_String l.ICMPv6.TypeCode }
  | _ => r

/-- One round of the loop over `packet.overlay.Layers[1:]` (source lines
401-422). -/
def decodeLayers.overlayStep (x : Externals) (l : overlayLayers) (r : LayersResult)
    (typ : LayerType) : LayersResult :=
  let r := { r with summary := typ.String }
  match typ with
  | LayerType.Ethernet => { r with ethernet := some (decodeEthernet x l.Ethernet) }
  | LayerType.IPv4 =>
    let d := decodeIPv4 x l.IPv4
    { r with ip := some d.1, sourceIP := d.2.1, destinationIP := d.2.2 }
  | LayerType.IPv6 =>
    let d := decodeIPv6 x l.IPv6
    { r with ip := some d.1, sourceIP := d.2.1, destinationIP := d.2.2 }
  | LayerType.TCP =>
    let d := decodeTCP l.TCP
    { r with l4 := some d.1, sourcePort := d.2.1, destinationPort := d.2.2,
             summary := "TCP Flags: " ++ getTCPFlags l.TCP }
  | LayerType.UDP =>
    let d := decodeUDP l.UDP
    { r with l4 := some d.1, sourcePort := d.2.1, destinationPort := d.2.2 }
  | LayerType.SCTP =>
    let d := decodeSCTP l.SCTP
    { r with l4 := some d.1, sourcePort := d.2.1, destinationPort := d.2.2 }
  | LayerType.ICMPv4 =>
    { r with l4 := some (decodeICMPv4 l.ICMPv4),
             summary := "ICMPv4 " ++ x.ICMPv4TypeCode_String l.ICMPv4.TypeCode }
  | LayerType.ICMPv6 =>
    { r with l4 := some (decodeICMPv6 l.ICMPv6),
             summary := "ICMPv6 " ++ x.ICMPv6TypeCode_String l.ICMPv6.TypeCode }
  | _ => r

/-- The per-layer loop over the layers of the outer packet, run from all-default
results (source lines 332-355). -/
def decodeLayers.outerLoop (x : Externals) (l : packetLayers) (typs : List LayerType) :
    LayersResult :=
  typs.foldl (decodeLayers.outerStep x l) {}

/-- The per-layer loop of source lines 400-423, run from all-default results over
a list of overlay layer types; it reads the decoding layers of the overlay only. -/
def decodeLayers.overlayLoop (x : Externals) (l : overlayLayers) (typs : List LayerType) :
    LayersResult :=
  typs.foldl (decodeLayers.overlayStep x l) {}

/-- Source lines 368-425: what `decodeLayers` does once an overlay parser has run.
`r` holds the results of the outer loop, `out` is what the overlay parser left. -/
def decodeLayers.overlay (x : Externals) (r : LayersResult) (pkt : packet)
    (out : DecodeLayersOut overlayLayers) : LayersResult × packet :=
  let pkt := { pkt with overlay_Layers := out.decoded, overlay := out.layers }
  match out.err with
  | some e => ({ r with err := some (Error.wrap "overlay" e) }, pkt)
  | none =>
    match pkt.overlay_Layers with
    | [] => (r, pkt)
    | first :: rest =>
      let tunnel : Option pb.Tunnel :=
        match first with
        | LayerType.VXLAN =>
          some { Protocol := pb.TunnelProtocol.VXLAN, IP := r.ip, L4 := r.l4 }
        | LayerType.Geneve =>
          some { Protocol := pb.TunnelProtocol.GENEVE, IP := r.ip, L4 := r.l4 }
        | _ => none
      match tunnel with
      | none => (r, pkt)
      | some t =>
        let r : LayersResult :=
          { r with tunnel := some t, ethernet := none, ip := none, l4 := none,
                   sourceIP := netip.Addr.zero, destinationIP := netip.Addr.zero,
                   sourcePort := 0, destinationPort := 0, summary := "" }
        (rest.foldl (decodeLayers.overlayStep x pkt.overlay) r, pkt)

/-- The outer parser `decodeLayers` picks (source lines 319-326). -/
def decodeLayers.outerParser (pkt : packet) (isL3Device isIPv6 : Bool) :
    DecodingLayerParser packetLayers :=
  if !isL3Device then pkt.decLayerL2Dev
  else if isIPv6 then pkt.decLayerL3Dev_IPv6
  else pkt.decLayerL3Dev_IPv4

/-- The overlay parser `decodeLayers` picks, if any (source lines 357-366). -/
def decodeLayers.overlayParser (pkt : packet) (isVXLAN isGeneve : Bool) :
    Option (DecodingLayerParser overlayLayers) :=
  if isVXLAN then some pkt.decLayerOverlay_VXLAN
  else if isGeneve then some pkt.decLayerOverlay_Geneve
  else none

/-- Source lines 296-426. The mutex is left out; the second component is the
workspace after the call. -/
def decodeLayers (x : Externals) (payload : List Nat) (pkt : packet)
    (isL3Device isIPv6 isVXLAN isGeneve : Bool) : LayersResult × packet :=
  if payload.length = 0 then
    ({}, { pkt with Layers := [], overlay_Layers := [] })
  else
    let out : DecodeLayersOut packetLayers :=
      decodeLayers.outerParser pkt isL3Device isIPv6 payload pkt.layers
    let pkt := { pkt with Layers := out.decoded, layers := out.layers }
    match out.err with
    | some e => ({ err := some e }, pkt)
    | none =>
      let r : LayersResult := decodeLayers.outerLoop x pkt.layers pkt.Layers
      match decodeLayers.overlayParser pkt isVXLAN isGeneve with
      | some parser =>
        decodeLayers.overlay x r pkt (parser pkt.layers.UDP.Payload pkt.overlay)
      | none => (r, { pkt with overlay_Layers := [] })

/-! ## The parser and `Decode` -/

/-- The parser of source lines 29-44, without its logger and without the identity
and IP getters, which only the endpoint resolver uses. -/
structure Parser where
  endpointGetter : Option getters.EndpointGetter := none
  dnsGetter : Option getters.DNSGetter := none
  serviceGetter : Option getters.ServiceGetter := none
  linkGetter : Option getters.LinkGetter := none
  epResolver : common.EndpointResolver
  correlateL3L4Policy : Bool := true
  packet : packet

/-- Source lines 288-294. -/
def Parser.resolveNames (p : Parser) (epID : Nat) (ip : netip.Addr) : List String :=
  match p.dnsGetter with
  | some g => g.GetNamesOf epID ip
  | none => []

/-- Source lines 754-784. -/
def Parser.decodeNetworkInterface (p : Parser) (tn : Option monitor.TraceNotify)
    (dbg : Option monitor.DebugCapture) : Option pb.NetworkInterface :=
  let ifIndex : Nat :=
    match tn, dbg with
    | some tn, _ => tn.Ifindex
    | none, some dbg =>
      if dbg.SubType = monitor.DbgCaptureDelivery ∨ dbg.SubType = monitor.DbgCaptureFromLb ∨
          dbg.SubType = monitor.DbgCaptureAfterV46 ∨ dbg.SubType = monitor.DbgCaptureAfterV64 ∨
          dbg.SubType = monitor.DbgCaptureSnatPre ∨ dbg.SubType = monitor.DbgCaptureSnatPost
      then dbg.Arg1 else 0
    | none, none => 0
  if ifIndex = 0 then none
  else
    let name : String :=
      match p.linkGetter with
      | some g => (g.GetIfNameCached ifIndex).1
      | none => ""
    some { Index := ifIndex, Name := name }

/-- The debug capture branch of `decodeProxyPort` (source lines 789-797). -/
def decodeProxyPort.capture (dbg : Option monitor.DebugCapture) : Nat :=
  match dbg with
  | some dbg =>
    if dbg.SubType = monitor.DbgCaptureProxyPre ∨ dbg.SubType = monitor.DbgCaptureProxyPost
    then byteorder.NetworkToHost32 dbg.Arg1 else 0
  | none => 0

/-- Source lines 786-798. -/
def decodeProxyPort (dbg : Option monitor.DebugCapture) (tn : Option monitor.TraceNotify) :
    Nat :=
  match tn with
  | some tn =>
    if tn.ObsPoint = monitorAPI.TraceToProxy then tn.DstID
    else decodeProxyPort.capture dbg
  | none => decodeProxyPort.capture dbg

/-- The local variables `Decode` sets while it reads the header (source lines
155-161). -/
structure Headers where
  packetOffset : Nat := 0
  dn : Option monitor.DropNotify := none
  tn : Option monitor.TraceNotify := none
  pvn : Option monitor.PolicyVerdictNotify := none
  dbg : Option monitor.DebugCapture := none
  eventSubType : Nat := 0
  authType : Nat := 0
  deriving DecidableEq, Repr

/-- Source lines 153-204: the dispatch on the first byte. The result is the error
it returns or the header variables; the flow is returned in both cases, since the
trace branch writes the observation point before anything can fail later. -/
def Parser.decodeHeader (x : Externals) (data : List Nat) (decoded : pb.Flow) :
    Except Error Headers × pb.Flow :=
  let eventType := data.headD 0
  if eventType = monitorAPI.MessageTypeDrop then
    match x.DropNotify_Decode data with
    | Except.error e => (Except.error (Error.wrap "failed to parse drop" e), decoded)
    | Except.ok dn =>
      (Except.ok { dn := some dn, eventSubType := dn.SubType, packetOffset := dn.DataOffset },
       decoded)
  else if eventType = monitorAPI.MessageTypeTrace then
    match x.TraceNotify_Decode data with
    | Except.error e => (Except.error (Error.wrap "failed to parse trace" e), decoded)
    | Except.ok tn =>
      (Except.ok { tn := some tn, eventSubType := tn.ObsPoint, packetOffset := tn.DataOffset },
       { decoded with TraceObservationPoint :=
           if tn.ObsPoint ≠ 0 then tn.ObsPoint else pb.TraceObservationPoint_TO_ENDPOINT })
  else if eventType = monitorAPI.MessageTypePolicyVerdict then
    match x.PolicyVerdictNotify_Decode data with
    | Except.error e =>
      (Except.error (Error.wrap "failed to parse policy verdict" e), decoded)
    | Except.ok pvn =>
      (Except.ok { pvn := some pvn, eventSubType := pvn.SubType,
                   packetOffset := monitor.PolicyVerdictNotifyLen,
                   authType := pvn.GetAuthType },
       decoded)
  else if eventType = monitorAPI.MessageTypeCapture then
    match x.DebugCapture_Decode data with
    | Except.error e =>
      (Except.error (Error.wrap "failed to parse debug capture" e), decoded)
    | Except.ok dbg =>
      (Except.ok { dbg := some dbg, eventSubType := dbg.SubType,
                   packetOffset := monitor.DebugCaptureLen },
       decoded)
  else (Except.error (Error.ErrInvalidType eventType), decoded)

/-- The four hints `Decode` passes to `decodeLayers` (source lines 210-213). -/
def Headers.isL3Device (h : Headers) : Bool :=
  (match h.tn with | some tn => tn.IsL3Device | none => false) ||
  (match h.dn with | some dn => dn.IsL3Device | none => false)

/-- See `Headers.isL3Device`. -/
def Headers.isIPv6 (h : Headers) : Bool :=
  (match h.tn with | some tn => tn.IsIPv6 | none => false) ||
  (match h.dn with | some dn => dn.IsIPv6 | none => false)

/-- See `Headers.isL3Device`. -/
def Headers.isVXLAN (h : Headers) : Bool :=
  (match h.tn with | some tn => tn.IsVXLAN | none => false) ||
  (match h.dn with | some dn => dn.IsVXLAN | none => false)

/-- See `Headers.isL3Device`. -/
def Headers.isGeneve (h : Headers) : Bool :=
  (match h.tn with | some tn => tn.IsGeneve | none => false) ||
  (match h.dn with | some dn => dn.IsGeneve | none => false)

/-- Source lines 219-235: the fixup of the IP message and of the source IP for a
trace event. The result is the IP message and the source IP after it. -/
def Parser.fixupTrace (x : Externals) (tn : Option monitor.TraceNotify)
    (ip : Option pb.IP) (srcIP : netip.Addr) : Option pb.IP × netip.Addr :=
  match tn, ip with
  | some tn, some ip =>
    if !net.IP_IsUnspecified tn.OriginalIP then
      let srcIP := netipx.FromStdIP tn.OriginalIP
      let ip : pb.IP :=
        if pb.IP.GetSource (some ip) ≠ x.Addr_String srcIP then
          { ip with SourceXlated := pb.IP.GetSource (some ip), Source := x.Addr_String srcIP }
        else ip
      (some { ip with Encrypted := tn.IsEncrypted }, srcIP)
    else (some { ip with Encrypted := tn.IsEncrypted }, srcIP)
  | _, _ => (ip, srcIP)

/-- What a call of `Decode` leaves behind: its error, the flow and the packet
workspace of the parser. -/
structure DecodeOut where
  err : Option Error
  decoded : pb.Flow
  packet : packet

/-- Source lines 281-283: the policy correlation, which runs when it is enabled
and an endpoint getter is configured. -/
def Parser.correlate (x : Externals) (p : Parser) (decoded : pb.Flow) : pb.Flow :=
  match p.correlateL3L4Policy, p.endpointGetter with
  | true, some g => { decoded with Policies := x.CorrelatePolicy g decoded }
  | _, _ => decoded

/-- Source lines 237-279: the lookups and the assignments to the flow once the
layers are decoded and the trace fixup is done. -/
def Parser.fillFields (x : Externals) (p : Parser) (eventType : Nat) (h : Headers)
    (l : LayersResult) (ip : Option pb.IP) (srcIP : netip.Addr) (decoded : pb.Flow) :
    pb.Flow :=
  let dstIP := l.destinationIP
  let ids := decodeSecurityIdentities h.dn h.tn h.pvn
  let srcLabelID := ids.1
  let dstLabelID := ids.2
  let datapathContext : common.DatapathContext :=
    { SrcIP := srcIP, SrcLabelID := srcLabelID, DstIP := dstIP, DstLabelID := dstLabelID,
      TraceObservationPoint := decoded.TraceObservationPoint }
  let srcEndpoint := p.epResolver.ResolveEndpoint srcIP srcLabelID datapathContext
  let dstEndpoint := p.epResolver.ResolveEndpoint dstIP dstLabelID datapathContext
  let sourceService : Option pb.Service :=
    match p.serviceGetter with
    | some g => g.GetServiceByAddr srcIP l.sourcePort
    | none => none
  let destinationService : Option pb.Service :=
    match p.serviceGetter with
    | some g => g.GetServiceByAddr dstIP l.destinationPort
    | none => none
  let isReply := decodeIsReply h.tn h.pvn
  { decoded with
    Verdict := decodeVerdict h.dn h.tn h.pvn,
    AuthType := h.authType,
    DropReason := decodeDropReason h.dn h.pvn,
    DropReasonDesc := decodeDropReason h.dn h.pvn,
    File := decodeFileInfo x.BPFFileName h.dn,
    Ethernet := l.ethernet,
    IP := ip,
    L4 := l.l4,
    Tunnel := l.tunnel,
    Source := some srcEndpoint,
    Destination := some dstEndpoint,
    Type_ := pb.FlowType.L3_L4,
    SourceNames := p.resolveNames dstEndpoint.ID srcIP,
    DestinationNames := p.resolveNames srcEndpoint.ID dstIP,
    L7 := none,
    IsReply := isReply,
    Reply := pb.BoolValue.GetValue isReply,
    TrafficDirection := decodeTrafficDirection srcEndpoint.ID h.dn h.tn h.pvn,
    EventType := some (decodeCiliumEventType eventType h.eventSubType),
    TraceReason := decodeTraceReason h.tn,
    SourceService := sourceService,
    DestinationService := destinationService,
    PolicyMatchType := decodePolicyMatchType h.pvn,
    DebugCapturePoint := decodeDebugCapturePoint h.dbg,
    Interface := p.decodeNetworkInterface h.tn h.dbg,
    ProxyPort := decodeProxyPort h.dbg h.tn,
    Summary := l.summary }

/-- Source lines 237-285: the rest of `Decode` once the layers are decoded and the
trace fixup is done. -/
def Parser.fill (x : Externals) (p : Parser) (eventType : Nat) (h : Headers)
    (l : LayersResult) (ip : Option pb.IP) (srcIP : netip.Addr) (decoded : pb.Flow) :
    pb.Flow :=
  Parser.correlate x p (Parser.fillFields x p eventType h l ip srcIP decoded)

/-- Source lines 148-286. -/
def Parser.Decode (x : Externals) (p : Parser) (data : List Nat) (decoded : pb.Flow) :
    DecodeOut :=
  if data.length = 0 then
    { err := some Error.ErrEmptyData, decoded := decoded, packet := p.packet }
  else
    match Parser.decodeHeader x data decoded with
    | (Except.error e, decoded) => { err := some e, decoded := decoded, packet := p.packet }
    | (Except.ok h, decoded) =>
      if data.length < h.packetOffset then
        { err := some (Error.notEnoughBytes data), decoded := decoded, packet := p.packet }
      else
        let r := decodeLayers x (data.drop h.packetOffset) p.packet
          h.isL3Device h.isIPv6 h.isVXLAN h.isGeneve
        match r.1.err with
        | some e => { err := some e, decoded := decoded, packet := r.2 }
        | none =>
          let f := Parser.fixupTrace x h.tn r.1.ip r.1.sourceIP
          { err := none,
            decoded := Parser.fill x p (data.headD 0) h r.1 f.1 f.2 decoded,
            packet := r.2 }

/-! ## A model of gopacket, to run the parser on bytes

`gopacket` is a dependency of the repository. What follows models its decoding
loop and its decoding layers for Ethernet, IPv4, TCP, UDP and VXLAN, after the
protocol headers; it is used to build the workspace `New` makes and to run
`decodeLayers` and `Decode` on concrete packets. The general theorems below hold
for every parser and do not use it. -/

namespace gopacket

/-- A `gopacket.DecodingLayer` that keeps its state in a field of `σ`:
`DecodeFromBytes` writes that field, `NextLayerType` and `LayerPayload` read it.
`NextLayerType` is `none` for a layer type outside `LayerType`. -/
structure DecodingLayer (σ : Type) where
  CanDecode : LayerType
  DecodeFromBytes : List Nat → σ → Except Error σ
  NextLayerType : σ → Option LayerType
  LayerPayload : σ → List Nat

/-- The loop of `DecodingLayerParser.DecodeLayers` with `IgnoreUnsupported` set:
decode with the decoding layer of the current type, append the type, go on with
the payload; stop without error at a type no decoding layer is registered for and
at an empty payload, stop with the error of a decoding layer that fails. Every
decoding layer consumes at least one byte, so `fuel` above the length of the data
is never used up. -/
def decodeLoop {σ : Type} (decoders : List (DecodingLayer σ)) :
    Nat → LayerType → List Nat → σ → List LayerType → DecodeLayersOut σ
  | 0, _, _, s, decoded => { layers := s, decoded := decoded, err := none }
  | fuel + 1, typ, data, s, decoded =>
    match decoders.find? (fun d => d.CanDecode == typ) with
    | none => { layers := s, decoded := decoded, err := none }
    | some d =>
      match d.DecodeFromBytes data s with
      | Except.error e => { layers := s, decoded := decoded, err := some e }
      | Except.ok s =>
        let decoded := decoded ++ [typ]
        if (d.LayerPayload s).length = 0 then
          { layers := s, decoded := decoded, err := none }
        else
          match d.NextLayerType s with
          | none => { layers := s, decoded := decoded, err := none }
          | some next => decodeLoop decoders fuel next (d.LayerPayload s) s decoded

/-- `gopacket.NewDecodingLayerParser first decoders`, with `IgnoreUnsupported`. -/
def NewDecodingLayerParser {σ : Type} (first : LayerType)
    (decoders : List (DecodingLayer σ)) : DecodingLayerParser σ :=
  fun data s => decodeLoop decoders (data.length + 1) first data s []

/-- A big-endian 16 bit field at offset `i`. -/
def be16 (data : List Nat) (i : Nat) : Nat := data.getD i 0 * 256 + data.getD (i + 1) 0

/-- `Ethernet.DecodeFromBytes`: 14 bytes of header, then the payload. -/
def Ethernet_DecodeFromBytes (data : List Nat) : Except Error layers.Ethernet :=
  if data.length < 14 then Except.error (Error.external "Ethernet packet too small")
  else Except.ok
    { DstMAC := data.take 6, SrcMAC := (data.drop 6).take 6,
      EthernetType := be16 data 12, Payload := data.drop 14 }

/-- `Ethernet.NextLayerType`, for the two ether types the parser has a decoding
layer for. -/
def Ethernet_NextLayerType (eth : layers.Ethernet) : Option LayerType :=
  if eth.EthernetType = 0x0800 then some LayerType.IPv4
  else if eth.EthernetType = 0x86DD then some LayerType.IPv6
  else none

/-- `IPv4.DecodeFromBytes`: the header length and the total length are checked,
the payload is cut at the total length. -/
def IPv4_DecodeFromBytes (data : List Nat) : Except Error layers.IPv4 :=
  if data.length < 20 then Except.error (Error.external "Invalid ip4 header")
  else
    let ihl := data.getD 0 0 % 16
    let length := if be16 data 2 = 0 then data.length else be16 data 2
    if length < 20 then Except.error (Error.external "Invalid (too small) IP length")
    else if ihl < 5 then Except.error (Error.external "Invalid (too small) IP header length")
    else if ihl * 4 > length then
      Except.error (Error.external "Invalid IP header length > IP length")
    else if ihl * 4 > data.length then
      Except.error (Error.external "Not all IP header bytes available")
    else Except.ok
      { SrcIP := (data.drop 12).take 4, DstIP := (data.drop 16).take 4,
        Protocol := data.getD 9 0, Flags := be16 data 6 / 2 ^ 13,
        FragOffset := be16 data 6 % 2 ^ 13,
        Payload := ((data.take length).drop (ihl * 4)) }

/-- `IPv4.NextLayerType`: a fragment has no decoding layer; otherwise the protocol
number selects the layer. -/
def IPv4_NextLayerType (ip : layers.IPv4) : Option LayerType :=
  if ip.Flags % 2 = 1 ∨ ip.FragOffset ≠ 0 then none
  else if ip.Protocol = 1 then some LayerType.ICMPv4
  else if ip.Protocol = 6 then some LayerType.TCP
  else if ip.Protocol = 17 then some LayerType.UDP
  else if ip.Protocol = 58 then some LayerType.ICMPv6
  else if ip.Protocol = 132 then some LayerType.SCTP
  else none

/-- `TCP.DecodeFromBytes`: ports, the nine flags, the payload after the data
offset. -/
def TCP_DecodeFromBytes (data : List Nat) : Except Error layers.TCP :=
  if data.length < 20 then Except.error (Error.external "Invalid TCP header")
  else
    let dataStart := (data.getD 12 0 / 16) * 4
    let flags := data.getD 13 0
    if dataStart > data.length then
      Except.error (Error.external "TCP data offset greater than packet length")
    else if dataStart < 20 then
      Except.error (Error.external "Invalid TCP data offset")
    else Except.ok
      { SrcPort := be16 data 0, DstPort := be16 data 2,
        FIN := flags % 2 = 1, SYN := flags / 2 % 2 = 1, RST := flags / 4 % 2 = 1,
        PSH := flags / 8 % 2 = 1, ACK := flags / 16 % 2 = 1, URG := flags / 32 % 2 = 1,
        ECE := flags / 64 % 2 = 1, CWR := flags / 128 % 2 = 1,
        NS := data.getD 12 0 % 2 = 1,
        Payload := data.drop dataStart }

/-- `UDP.DecodeFromBytes`: ports, and the payload cut at the length field. -/
def UDP_DecodeFromBytes (data : List Nat) : Except Error layers.UDP :=
  if data.length < 8 then Except.error (Error.external "Invalid UDP header")
  else
    let length := be16 data 4
    if length ≥ 8 then
      Except.ok { SrcPort := be16 data 0, DstPort := be16 data 2,
                  Payload := (data.take (min length data.length)).drop 8 }
    else if length = 0 then
      Except.ok { SrcPort := be16 data 0, DstPort := be16 data 2, Payload := data.drop 8 }
    else Except.error (Error.external "UDP packet too small")

/-- `UDP.NextLayerType`, for the two tunnel ports gopacket knows. -/
def UDP_NextLayerType (udp : layers.UDP) : Option LayerType :=
  if udp.DstPort = 4789 ∨ udp.SrcPort = 4789 then some LayerType.VXLAN
  else if udp.DstPort = 6081 ∨ udp.SrcPort = 6081 then some LayerType.Geneve
  else none

/-- `VXLAN.DecodeFromBytes`: 8 bytes of header, then the inner frame. -/
def VXLAN_DecodeFromBytes (data : List Nat) : Except Error layers.VXLAN :=
  if data.length < 8 then Except.error (Error.external "vxlan packet too small")
  else Except.ok
    { VNI := (data.getD 4 0 * 256 + data.getD 5 0) * 256 + data.getD 6 0,
      Payload := data.drop 8 }

/-- The decoding layers of the outer packet that `New` registers (source lines
97-102), as far as they are modelled. -/
def decoders : List (DecodingLayer packetLayers) :=
  [ { CanDecode := LayerType.Ethernet,
      DecodeFromBytes := fun data s =>
        (Ethernet_DecodeFromBytes data).map (fun l => { s with Ethernet := l }),
      NextLayerType := fun s => Ethernet_NextLayerType s.Ethernet,
      LayerPayload := fun s => s.Ethernet.Payload },
    { CanDecode := LayerType.IPv4,
      DecodeFromBytes := fun data s =>
        (IPv4_DecodeFromBytes data).map (fun l => { s with IPv4 := l }),
      NextLayerType := fun s => IPv4_NextLayerType s.IPv4,
      LayerPayload := fun s => s.IPv4.Payload },
    { CanDecode := LayerType.TCP,
      DecodeFromBytes := fun data s =>
        (TCP_DecodeFromBytes data).map (fun l => { s with TCP := l }),
      NextLayerType := fun _ => none,
      LayerPayload := fun s => s.TCP.Payload },
    { CanDecode := LayerType.UDP,
      DecodeFromBytes := fun data s =>
        (UDP_DecodeFromBytes data).map (fun l => { s with UDP := l }),
      NextLayerType := fun s => UDP_NextLayerType s.UDP,
      LayerPayload := fun s => s.UDP.Payload } ]

/-- The decoding layers of the overlay that `New` registers (source lines
107-113), as far as they are modelled. -/
def overlayDecoders : List (DecodingLayer overlayLayers) :=
  [ { CanDecode := LayerType.VXLAN,
      DecodeFromBytes := fun data s =>
        (VXLAN_DecodeFromBytes data).map (fun l => { s with VXLAN := l }),
      NextLayerType := fun _ => some LayerType.Ethernet,
      LayerPayload := fun s => s.VXLAN.Payload },
    { CanDecode := LayerType.Ethernet,
      DecodeFromBytes := fun data s =>
        (Ethernet_DecodeFromBytes data).map (fun l => { s with Ethernet := l }),
      NextLayerType := fun s => Ethernet_NextLayerType s.Ethernet,
      LayerPayload := fun s => s.Ethernet.Payload },
    { CanDecode := LayerType.IPv4,
      DecodeFromBytes := fun data s =>
        (IPv4_DecodeFromBytes data).map (fun l => { s with IPv4 := l }),
      NextLayerType := fun s => IPv4_NextLayerType s.IPv4,
      LayerPayload := fun s => s.IPv4.Payload },
    { CanDecode := LayerType.TCP,
      DecodeFromBytes := fun data s =>
        (TCP_DecodeFromBytes data).map (fun l => { s with TCP := l }),
      NextLayerType := fun _ => none,
      LayerPayload := fun s => s.TCP.Payload },
    { CanDecode := LayerType.UDP,
      DecodeFromBytes := fun data s =>
        (UDP_DecodeFromBytes data).map (fun l => { s with UDP := l }),
      NextLayerType := fun s => UDP_NextLayerType s.UDP,
      LayerPayload := fun s => s.UDP.Payload } ]

end gopacket

/-- The packet workspace `New` builds (source lines 96-123): five parsers over the
modelled decoding layers, empty layer lists and zero decoding layers. -/
def newPacket : packet :=
  { decLayerL2Dev := gopacket.NewDecodingLayerParser LayerType.Ethernet gopacket.decoders,
    decLayerL3Dev_IPv4 := gopacket.NewDecodingLayerParser LayerType.IPv4 gopacket.decoders,
    decLayerL3Dev_IPv6 := gopacket.NewDecodingLayerParser LayerType.IPv6 gopacket.decoders,
    decLayerOverlay_VXLAN :=
      gopacket.NewDecodingLayerParser LayerType.VXLAN gopacket.overlayDecoders,
    decLayerOverlay_Geneve :=
      gopacket.NewDecodingLayerParser LayerType.Geneve gopacket.overlayDecoders }

/-! ## A sample environment, to run `Decode` on bytes

String forms after the Go standard library for MAC and IPv4 addresses, a plain
rendering for the rest, and header decoders that read the little-endian layout of
the datapath notifications. The general theorems below hold for every
`Externals` and do not use it. -/

namespace sample

/-- Two lower case hex digits of a byte. -/
def hexByte (b : Nat) : String :=
  String.mk [Nat.digitChar (b / 16 % 16), Nat.digitChar (b % 16)]

/-- `net.HardwareAddr.String`: hex bytes joined by colons. -/
def HardwareAddr_String (a : List Nat) : String :=
  String.intercalate ":" (a.map hexByte)

/-- Dotted decimal form of a list of bytes. -/
def dotted (a : List Nat) : String :=
  String.intercalate "." (a.map (fun b => toString b))

/-- Sixteen bytes as eight hex groups joined by colons (no zero compression). -/
def groups : List Nat → List String
  | a :: b :: rest => (hexByte a ++ hexByte b) :: groups rest
  | _ => []

/-- `netip.Addr.String`, with IPv6 addresses in the uncompressed form. -/
def Addr_String (a : netip.Addr) : String :=
  match a with
  | netip.Addr.zero => "invalid IP"
  | netip.Addr.v4 b => dotted b
  | netip.Addr.v6 b => String.intercalate ":" (groups b)

/-- `net.IP.String`: `<nil>` for the empty slice, a question mark and the hex
bytes for a slice of a wrong length, the form of the address otherwise. -/
def IP_String (ip : List Nat) : String :=
  if ip.length = 0 then "<nil>"
  else if ip.length ≠ 4 ∧ ip.length ≠ 16 then "?" ++ String.join (ip.map hexByte)
  else Addr_String (netipx.FromStdIP ip)

/-- A type code in the numeric form gopacket uses for a type it has no name
for. -/
def TypeCode_String (tc : Nat) : String :=
  toString (layers.TypeCode_Type tc) ++ "(" ++ toString (layers.TypeCode_Code tc) ++ ")"

/-- A little-endian 16 bit field at offset `i`. -/
def le16 (data : List Nat) (i : Nat) : Nat := data.getD i 0 + data.getD (i + 1) 0 * 256

/-- A little-endian 32 bit field at offset `i`. -/
def le32 (data : List Nat) (i : Nat) : Nat := le16 data i + le16 data (i + 2) * 65536

/-- A drop notification of 40 bytes: sub-type at 1, source at 2, labels at 16 and
20, line at 28, file at 30, flags at 36. -/
def DropNotify_Decode (data : List Nat) : Except Error monitor.DropNotify :=
  if data.length < 40 then Except.error (Error.external "unexpected DropNotify data length")
  else Except.ok
    { SubType := data.getD 1 0, Source := le16 data 2,
      SrcLabel := le32 data 16, DstLabel := le32 data 20,
      Line := le16 data 28, File := data.getD 30 0, DataOffset := 40,
      IsIPv6 := data.getD 36 0 % 2 = 1, IsL3Device := data.getD 36 0 / 2 % 2 = 1,
      IsVXLAN := data.getD 36 0 / 4 % 2 = 1, IsGeneve := data.getD 36 0 / 8 % 2 = 1 }

/-- A trace notification of 48 bytes: observation point at 1, source at 2, labels
at 16 and 20, dst id at 24, reason at 26, flags at 27, interface index at 28,
original IP at 32. -/
def TraceNotify_Decode (data : List Nat) : Except Error monitor.TraceNotify :=
  if data.length < 48 then Except.error (Error.external "unexpected TraceNotify data length")
  else Except.ok
    { ObsPoint := data.getD 1 0, Source := le16 data 2,
      SrcLabel := le32 data 16, DstLabel := le32 data 20,
      DstID := le16 data 24, Reason := data.getD 26 0, Ifindex := le32 data 28,
      OrigIP := (data.drop 32).take 16, DataOffset := 48,
      IsIPv6 := data.getD 27 0 % 2 = 1, IsL3Device := data.getD 27 0 / 2 % 2 = 1,
      IsVXLAN := data.getD 27 0 / 4 % 2 = 1, IsGeneve := data.getD 27 0 / 8 % 2 = 1 }

/-- A policy verdict notification of 32 bytes: sub-type at 1, source at 2, remote
label at 16, verdict at 20, flags at 27, auth type at 28. -/
def PolicyVerdictNotify_Decode (data : List Nat) : Except Error monitor.PolicyVerdictNotify :=
  if data.length < 32 then
    Except.error (Error.external "unexpected PolicyVerdictNotify data length")
  else Except.ok
    { SubType := data.getD 1 0, Source := le16 data 2, RemoteLabel := le32 data 16,
      Verdict := int32 (le32 data 20), Flags := data.getD 27 0, AuthType := data.getD 28 0 }

/-- A debug capture of 24 bytes: sub-type at 1, first argument at 16. -/
def DebugCapture_Decode (data : List Nat) : Except Error monitor.DebugCapture :=
  if data.length < 24 then Except.error (Error.external "unexpected DebugCapture data length")
  else Except.ok { SubType := data.getD 1 0, Arg1 := le32 data 16 }

/-- The sample environment. The policy correlator leaves the annotations of the
flow as they are. -/
def externals : Externals :=
  { HardwareAddr_String := HardwareAddr_String,
    IP_String := IP_String,
    Addr_String := Addr_String,
    ICMPv4TypeCode_String := TypeCode_String,
    ICMPv6TypeCode_String := TypeCode_String,
    BPFFileName := fun n => toString n,
    DropNotify_Decode := DropNotify_Decode,
    TraceNotify_Decode := TraceNotify_Decode,
    PolicyVerdictNotify_Decode := PolicyVerdictNotify_Decode,
    DebugCapture_Decode := DebugCapture_Decode,
    CorrelatePolicy := fun _ f => f.Policies }

/-- A parser whose resolver and getters record the IP they are asked about: the
resolver returns an endpoint with id 1 for a valid IP and id 0 for the zero
`Addr`, with the string form of the IP as pod name; the DNS getter returns the
string form of the IP as the one name, the service getter as the service name. -/
def parser : Parser :=
  { epResolver :=
      { ResolveEndpoint := fun ip _ _ =>
          { ID := if ip.IsValid then 1 else 0, PodName := Addr_String ip } },
    dnsGetter := some { GetNamesOf := fun _ ip => [Addr_String ip] },
    serviceGetter := some { GetServiceByAddr := fun ip _ => some { Name := Addr_String ip } },
    packet := newPacket }

/-- The 48 bytes of a trace notification at observation point 0 with source
endpoint id 42, labels 100 and 200, reason CT_ESTABLISHED, interface index 3 and
original IP 10.0.0.99. -/
def traceHeader : List Nat :=
  [4, 0, 42, 0] ++ List.replicate 12 0 ++ [100, 0, 0, 0, 200, 0, 0, 0] ++
  [0, 0, 1, 0, 3, 0, 0, 0] ++ [10, 0, 0, 99] ++ List.replicate 12 0

/-- An Ethernet frame with an IPv4 packet from 10.0.0.1 to 10.0.0.2 that carries a
TCP segment from port 5555 to port 80 with the SYN flag. -/
def tcpFrame : List Nat :=
  [0x02, 0, 0, 0, 0, 0x02, 0x02, 0, 0, 0, 0, 0x01, 0x08, 0x00] ++
  [0x45, 0, 0, 40, 0, 0, 0, 0, 64, 6, 0, 0, 10, 0, 0, 1, 10, 0, 0, 2] ++
  [0x15, 0xb3, 0, 80, 0, 0, 0, 0, 0, 0, 0, 0, 0x50, 0x02, 0, 0, 0, 0, 0, 0]

/-- An Ethernet frame with an IPv4 packet from 192.168.0.1 to 192.168.0.2 that
carries a UDP datagram to port 8472 with a VXLAN header and, inside, the frame
`tcpFrame`. -/
def vxlanFrame : List Nat :=
  [0x02, 0, 0, 0, 0, 0x0b, 0x02, 0, 0, 0, 0, 0x0a, 0x08, 0x00] ++
  [0x45, 0, 0, 90, 0, 0, 0, 0, 64, 17, 0, 0, 192, 168, 0, 1, 192, 168, 0, 2] ++
  [0xc0, 0x00, 0x21, 0x18, 0, 70, 0, 0] ++
  [0x08, 0, 0, 0, 0, 0, 0x2a, 0] ++ tcpFrame

/-- An Ethernet frame with an IPv4 packet from 10.0.0.9 to 10.0.0.8 that carries a
TCP segment from port 8080 to port 443 with the ACK flag; it has no UDP layer. -/
def plainFrame : List Nat :=
  [0x02, 0, 0, 0, 0, 0x04, 0x02, 0, 0, 0, 0, 0x03, 0x08, 0x00] ++
  [0x45, 0, 0, 40, 0, 0, 0, 0, 64, 6, 0, 0, 10, 0, 0, 9, 10, 0, 0, 8] ++
  [0x1f, 0x90, 0x01, 0xbb, 0, 0, 0, 0, 0, 0, 0, 0, 0x50, 0x10, 0, 0, 0, 0, 0, 0]

/-- The workspace of `New` after one call of `decodeLayers` on `vxlanFrame` with
the VXLAN hint. -/
def usedPacket : packet :=
  (decodeLayers externals vxlanFrame newPacket false false true false).2

/-- A trace event: `traceHeader` followed by `tcpFrame`, whose IPv4 source is
10.0.0.1. -/
def traceEvent : List Nat := traceHeader ++ tcpFrame

/-- A trace event that carries an original IP and no packet bytes: `traceHeader`
alone, so the packet offset equals the length of the event. -/
def traceEventNoPacket : List Nat := traceHeader

/-- The header variables `Decode` reads from `traceEvent` and from
`traceEventNoPacket`. -/
def traceHeaders : Headers :=
  { packetOffset := 48,
    tn := some { Source := 42, SrcLabel := 100, DstLabel := 200, Reason := 1, Ifindex := 3,
                 OrigIP := [10, 0, 0, 99] ++ List.replicate 12 0, DataOffset := 48 } }

/-- The sample environment with a drop decoder that accepts the 36 bytes of a
version 1 drop notification and reports the data offset 40 of a version 2
notification. -/
def shortDropExternals : Externals :=
  { externals with
    DropNotify_Decode := fun data =>
      if data.length < 36 then
        Except.error (Error.external "unexpected DropNotify data length")
      else Except.ok
        { SubType := data.getD 1 0, Source := le16 data 2,
          SrcLabel := le32 data 16, DstLabel := le32 data 20,
          Line := le16 data 28, File := data.getD 30 0, DataOffset := 40 } }

/-- A drop event of 36 bytes with sub-type 132 and source endpoint id 7. -/
def shortDropEvent : List Nat := [1, 132, 7, 0] ++ List.replicate 32 0

/-- A parser whose resolver returns the endpoint whose id is the security identity
it is asked about, and whose DNS getter returns one name made of the endpoint id
and the IP it is asked about. -/
def crossParser : Parser :=
  { epResolver := { ResolveEndpoint := fun _ label _ => { ID := label } },
    dnsGetter := some
      { GetNamesOf := fun epID ip => [toString epID ++ " knows " ++ Addr_String ip] },
    packet := newPacket }

/-- An Ethernet frame with an IPv4 packet that carries a UDP datagram to port 8472
with a VXLAN header and, inside, an Ethernet frame of ether type ARP (0x0806),
for which the workspace has no decoding layer. -/
def vxlanArpFrame : List Nat :=
  [0x02, 0, 0, 0, 0, 0x0b, 0x02, 0, 0, 0, 0, 0x0a, 0x08, 0x00] ++
  [0x45, 0, 0, 78, 0, 0, 0, 0, 64, 17, 0, 0, 192, 168, 0, 1, 192, 168, 0, 2] ++
  [0xc0, 0x00, 0x21, 0x18, 0, 58, 0, 0] ++
  [0x08, 0, 0, 0, 0, 0, 0x2a, 0] ++
  [0xff, 0xff, 0xff, 0xff, 0xff, 0xff, 0x02, 0, 0, 0, 0, 0x01, 0x08, 0x06] ++
  [0, 1, 8, 0, 6, 4, 0, 1, 0x02, 0, 0, 0, 0, 0x01, 10, 0, 0, 1,
   0, 0, 0, 0, 0, 0, 10, 0, 0, 2]

/-- A trace event whose packet bytes are too short for an Ethernet header:
`traceHeader` followed by three bytes. -/
def traceEventShortPacket : List Nat := traceHeader ++ [1, 2, 3]

/-- A flow that already carries values, as a flow that is re-used would. -/
def usedFlow : pb.Flow :=
  { Time := 7, Uuid := "u", NodeName := "n", Verdict := pb.Verdict.DROPPED, DropReason := 132,
    IP := some { Source := "10.0.0.7" }, Reply := true, Summary := "old",
    TraceObservationPoint := 5 }

end sample

/-! ## Definitions in the words of the specification -/

namespace Spec

/-- The derived interface index as the specification words it (section 4.3,
Interface): the interface index of the trace header when there is one, else the
first argument of a debug capture whose sub-type is one of Delivery, FromLb,
AfterV46, AfterV64, SnatPre, SnatPost, else 0. -/
def derivedIfindex (tn : Option monitor.TraceNotify) (dbg : Option monitor.DebugCapture) :
    Nat :=
  match tn with
  | some t => t.Ifindex
  | none =>
    match dbg with
    | some d =>
      if d.SubType ∈ [monitor.DbgCaptureDelivery, monitor.DbgCaptureFromLb,
          monitor.DbgCaptureAfterV46, monitor.DbgCaptureAfterV64,
          monitor.DbgCaptureSnatPre, monitor.DbgCaptureSnatPost]
      then d.Arg1 else 0
    | none => 0

/-- The summary of one layer as the specification words it (section 4.2): the
comma-joined flags after `TCP Flags: ` for TCP, the type code string after
`ICMPv4 ` or `ICMPv6 ` for ICMP, the name of the layer type otherwise. -/
def layerSummary (x : Externals) (l : packetLayers) (typ : LayerType) : String :=
  match typ with
  | LayerType.TCP => "TCP Flags: " ++ getTCPFlags l.TCP
  | LayerType.ICMPv4 => "ICMPv4 " ++ x.ICMPv4TypeCode_String l.ICMPv4.TypeCode
  | LayerType.ICMPv6 => "ICMPv6 " ++ x.ICMPv6TypeCode_String l.ICMPv6.TypeCode
  | _ => typ.String

/-- The nine TCP flags with their names, in the fixed order of the specification:
SYN, ACK, RST, FIN, PSH, URG, ECE, CWR, NS. -/
def tcpFlagTable (tcp : layers.TCP) : List (Bool × String) :=
  [(tcp.SYN, "SYN"), (tcp.ACK, "ACK"), (tcp.RST, "RST"), (tcp.FIN, "FIN"),
   (tcp.PSH, "PSH"), (tcp.URG, "URG"), (tcp.ECE, "ECE"), (tcp.CWR, "CWR"), (tcp.NS, "NS")]

/-- The names of the flags that are set, in the order of the table. -/
def tcpFlagNames (tcp : layers.TCP) : List String :=
  ((tcpFlagTable tcp).filter (fun f => f.1)).map (fun f => f.2)

end Spec

/-- The number of headers among drop, trace and policy verdict that are
populated. -/
def populatedHeaders (dn : Option monitor.DropNotify) (tn : Option monitor.TraceNotify)
    (pvn : Option monitor.PolicyVerdictNotify) : Nat :=
  dn.isSome.toNat + tn.isSome.toNat + pvn.isSome.toNat

/-! ## Theorems -/

/-! ### Verdict and drop reason -/

/-- C2: `decodeVerdict` follows the priority table. A drop header gives DROPPED
whatever the other headers are; without a drop header a trace header gives
FORWARDED; with only a policy verdict header the verdict is DROPPED when negative,
REDIRECTED when positive, AUDIT when zero with the audit flag and FORWARDED when
zero without it; with no header it is VERDICT_UNKNOWN. -/
theorem decodeVerdict_priority_table :
    (∀ (d : monitor.DropNotify) (tn : Option monitor.TraceNotify)
        (pvn : Option monitor.PolicyVerdictNotify),
        decodeVerdict (some d) tn pvn = pb.Verdict.DROPPED) ∧
    (∀ (t : monitor.TraceNotify) (pvn : Option monitor.PolicyVerdictNotify),
        decodeVerdict none (some t) pvn = pb.Verdict.FORWARDED) ∧
    (∀ p : monitor.PolicyVerdictNotify, p.Verdict < 0 →
        decodeVerdict none none (some p) = pb.Verdict.DROPPED) ∧
    (∀ p : monitor.PolicyVerdictNotify, 0 < p.Verdict →
        decodeVerdict none none (some p) = pb.Verdict.REDIRECTED) ∧
    (∀ p : monitor.PolicyVerdictNotify, p.Verdict = 0 → p.IsTrafficAudited = true →
        decodeVerdict none none (some p) = pb.Verdict.AUDIT) ∧
    (∀ p : monitor.PolicyVerdictNotify, p.Verdict = 0 → p.IsTrafficAudited = false →
        decodeVerdict none none (some p) = pb.Verdict.FORWARDED) ∧
    decodeVerdict none none none = pb.Verdict.VERDICT_UNKNOWN := by
  refine ⟨fun d tn pvn => rfl, fun t pvn => rfl, ?_, ?_, ?_, ?_, rfl⟩
  · intro p h
    simp [decodeVerdict, h]
  · intro p h
    have h0 : ¬ p.Verdict < 0 := by omega
    simp [decodeVerdict, h, h0]
  · intro p h ha
    simp [decodeVerdict, h, ha]
  · intro p h ha
    simp [decodeVerdict, h, ha]

/-- The table of C2 read at four policy verdict headers: verdict -3, verdict 2,
verdict 0 with the audit bit, verdict 0 without it. -/
theorem decodeVerdict_priority_table_witness :
    decodeVerdict none none (some { Verdict := -3 }) = pb.Verdict.DROPPED ∧
    decodeVerdict none none (some { Verdict := 2 }) = pb.Verdict.REDIRECTED ∧
    decodeVerdict none none (some { Verdict := 0, Flags := 0x40 }) = pb.Verdict.AUDIT ∧
    decodeVerdict none none (some { Verdict := 0, Flags := 0 }) = pb.Verdict.FORWARDED :=
  ⟨decodeVerdict_priority_table.2.2.1 _ (by decide),
   decodeVerdict_priority_table.2.2.2.1 _ (by decide),
   decodeVerdict_priority_table.2.2.2.2.1 _ rfl (by decide),
   decodeVerdict_priority_table.2.2.2.2.2.1 _ rfl (by decide)⟩

/-- Negating a negative `int32` and converting to `uint32` gives the absolute
value, also at the minimum value, where the negation wraps. -/
theorem uint32_negInt32 (v : Int) (hlo : -2 ^ 31 ≤ v) (hneg : v < 0) :
    (uint32 (negInt32 v) : Int) = -v := by
  unfold uint32 negInt32 int32
  have h1 : (0 : Int) ≤ (-v + 2 ^ 31) % 2 ^ 32 := Int.emod_nonneg _ (by norm_num)
  have h2 : (-v + 2 ^ 31) % 2 ^ 32 < 2 ^ 32 := Int.emod_lt_of_pos _ (by norm_num)
  have h3 : (0 : Int) ≤ ((-v + 2 ^ 31) % 2 ^ 32 - 2 ^ 31) % 2 ^ 32 :=
    Int.emod_nonneg _ (by norm_num)
  rw [Int.toNat_of_nonneg h3]
  omega

/-- C3: `decodeDropReason` returns the sub-type of a drop header; for a policy
verdict header with a negative 32 bit verdict `v` and no drop header it returns
exactly `-v`, a value below `2 ^ 32`, also at the minimum `int32`; for a policy
verdict header with a verdict that is not negative, and without any header, it
returns 0. -/
theorem decodeDropReason_cases :
    (∀ (d : monitor.DropNotify) (pvn : Option monitor.PolicyVerdictNotify),
        decodeDropReason (some d) pvn = d.SubType) ∧
    (∀ p : monitor.PolicyVerdictNotify, -2 ^ 31 ≤ p.Verdict → p.Verdict < 0 →
        (decodeDropReason none (some p) : Int) = -p.Verdict ∧
        decodeDropReason none (some p) < 2 ^ 32) ∧
    (∀ p : monitor.PolicyVerdictNotify, 0 ≤ p.Verdict →
        decodeDropReason none (some p) = 0) ∧
    decodeDropReason none none = 0 := by
  refine ⟨fun d pvn => rfl, ?_, ?_, rfl⟩
  · intro p hlo hneg
    have h := uint32_negInt32 p.Verdict hlo hneg
    simp only [decodeDropReason, hneg, if_true]
    refine ⟨h, ?_⟩
    have : (uint32 (negInt32 p.Verdict) : Int) < 2 ^ 32 := by rw [h]; omega
    exact_mod_cast this
  · intro p h
    have h0 : ¬ p.Verdict < 0 := by omega
    simp [decodeDropReason, h0]

/-- The table of C3 read at the minimum `int32` verdict and at verdict -7. -/
theorem decodeDropReason_cases_witness :
    ((decodeDropReason none (some { Verdict := -2147483648 }) : Int) = 2147483648 ∧
      decodeDropReason none (some { Verdict := -2147483648 }) < 2 ^ 32) ∧
    (decodeDropReason none (some { Verdict := -7 }) : Int) = 7 :=
  ⟨decodeDropReason_cases.2.1 { Verdict := -2147483648 } (by decide) (by decide),
   (decodeDropReason_cases.2.1 { Verdict := -7 } (by decide) (by decide)).1⟩

/-! ### Traffic direction -/

/-- What `decodeTrafficDirection` computes for a drop header with a non-zero
source endpoint id: EGRESS exactly when the header source equals the low 16 bits
of the resolved source endpoint id. -/
theorem decodeTrafficDirection_drop (srcEP : Nat) (d : monitor.DropNotify)
    (tn : Option monitor.TraceNotify) (pvn : Option monitor.PolicyVerdictNotify)
    (hsrc : d.Source ≠ 0) :
    decodeTrafficDirection srcEP (some d) tn pvn =
      if d.Source = srcEP % 2 ^ 16 then pb.TrafficDirection.EGRESS
      else pb.TrafficDirection.INGRESS := by
  simp [decodeTrafficDirection, hsrc, uint16]

/-- On endpoint ids that fit 16 bits the drop branch is the comparison of the two
ids. -/
theorem decodeTrafficDirection_drop_small (srcEP : Nat) (d : monitor.DropNotify)
    (tn : Option monitor.TraceNotify) (pvn : Option monitor.PolicyVerdictNotify)
    (hsrc : d.Source ≠ 0) (hsmall : srcEP < 2 ^ 16) :
    decodeTrafficDirection srcEP (some d) tn pvn =
      if d.Source = srcEP then pb.TrafficDirection.EGRESS
      else pb.TrafficDirection.INGRESS := by
  rw [decodeTrafficDirection_drop srcEP d tn pvn hsrc, Nat.mod_eq_of_lt hsmall]

/-- C4: a drop header with source endpoint id 7 and the resolved source endpoint
id 65543 (a `uint32` whose low 16 bits are 7). The two ids differ, and
`decodeTrafficDirection` returns EGRESS, not INGRESS. -/
theorem decodeTrafficDirection_drop_truncates :
    (7 : Nat) ≠ 65543 ∧ 65543 < 2 ^ 32 ∧
    decodeTrafficDirection 65543 (some { Source := 7 }) none none
      = pb.TrafficDirection.EGRESS := by
  decide

/-- C5: for a trace header (no drop header) with a non-zero source endpoint id and
a known trace reason, `decodeTrafficDirection` returns EGRESS when the reason is
EncryptOverlay and when the original IP is not unspecified, whatever the resolved
source endpoint id, the reply flag and the policy verdict header are. -/
theorem decodeTrafficDirection_trace_egress (srcEP : Nat) (t : monitor.TraceNotify)
    (pvn : Option monitor.PolicyVerdictNotify)
    (hsrc : t.Source ≠ 0) (hknown : t.TraceReasonIsKnown = true)
    (h : t.TraceReason = monitor.TraceReasonEncryptOverlay ∨
      net.IP_IsUnspecified t.OriginalIP = false) :
    decodeTrafficDirection srcEP none (some t) pvn = pb.TrafficDirection.EGRESS := by
  simp only [decodeTrafficDirection, decodeTrafficDirection.trace]
  rw [if_pos ⟨hsrc, hknown⟩]
  rcases h with h | h
  · simp [h]
  · simp only [h]
    split_ifs <;> simp_all

/-- The hypotheses of C5 hold at a trace header with source 42, reason
CT_ESTABLISHED and original IP 10.0.0.1, seen from endpoint 42 and from endpoint
43. -/
theorem decodeTrafficDirection_trace_egress_witness :
    decodeTrafficDirection 42 none
        (some { Source := 42, Reason := 1, OrigIP := [10, 0, 0, 1] ++ List.replicate 12 0 })
        none = pb.TrafficDirection.EGRESS ∧
    decodeTrafficDirection 43 none
        (some { Source := 42, Reason := 1, OrigIP := [10, 0, 0, 1] ++ List.replicate 12 0 })
        none = pb.TrafficDirection.EGRESS :=
  ⟨decodeTrafficDirection_trace_egress 42 _ none (by decide) (by decide)
      (Or.inr (by decide)),
   decodeTrafficDirection_trace_egress 43 _ none (by decide) (by decide)
      (Or.inr (by decide))⟩

/-- C6: with at most one of the three headers populated, `decodeTrafficDirection`
returns INGRESS for a policy verdict header with the ingress flag and EGRESS for
one without it, and it returns TRAFFIC_DIRECTION_UNKNOWN exactly for a drop header
with source endpoint id 0, for a trace header with source endpoint id 0 or an
unknown trace reason, and when none of the three headers is populated. -/
theorem decodeTrafficDirection_unknown_iff (srcEP : Nat)
    (dn : Option monitor.DropNotify) (tn : Option monitor.TraceNotify)
    (pvn : Option monitor.PolicyVerdictNotify)
    (hone : populatedHeaders dn tn pvn ≤ 1) :
    (∀ p, pvn = some p →
      decodeTrafficDirection srcEP dn tn pvn =
        if p.IsTrafficIngress then pb.TrafficDirection.INGRESS
        else pb.TrafficDirection.EGRESS) ∧
    (decodeTrafficDirection srcEP dn tn pvn = pb.TrafficDirection.TRAFFIC_DIRECTION_UNKNOWN ↔
      (∃ d, dn = some d ∧ d.Source = 0) ∨
      (∃ t, tn = some t ∧ (t.Source = 0 ∨ t.TraceReasonIsKnown = false)) ∨
      (dn = none ∧ tn = none ∧ pvn = none)) := by
  cases dn with
  | some d =>
    cases tn with
    | some t => exfalso; simp [populatedHeaders] at hone; omega
    | none =>
      cases pvn with
      | some p => exfalso; simp [populatedHeaders] at hone
      | none =>
        simp only [decodeTrafficDirection, decodeTrafficDirection.trace,
          decodeTrafficDirection.verdict]
        by_cases h0 : d.Source = 0
        · simp [h0]
        · simp only [ne_eq, h0, not_false_eq_true, if_true]
          split_ifs <;> simp [h0]
  | none =>
    cases tn with
    | some t =>
      cases pvn with
      | some p => exfalso; simp [populatedHeaders] at hone
      | none =>
        simp only [decodeTrafficDirection, decodeTrafficDirection.trace,
          decodeTrafficDirection.verdict]
        by_cases hk : t.Source ≠ 0 ∧ t.TraceReasonIsKnown = true
        · rw [if_pos hk]
          have h1 : t.Source ≠ 0 := hk.1
          have h2 : t.TraceReasonIsKnown = true := hk.2
          split_ifs <;> simp [h1, h2]
        · rw [if_neg hk]
          have : t.Source = 0 ∨ t.TraceReasonIsKnown = false := by
            by_cases h1 : t.Source = 0
            · exact Or.inl h1
            · right
              cases hb : t.TraceReasonIsKnown with
              | false => rfl
              | true => exact absurd ⟨h1, hb⟩ hk
          simp [this]
    | none =>
      cases pvn with
      | some p =>
        simp only [decodeTrafficDirection, decodeTrafficDirection.trace,
          decodeTrafficDirection.verdict]
        split_ifs <;> simp_all
      | none =>
        simp [decodeTrafficDirection, decodeTrafficDirection.trace,
          decodeTrafficDirection.verdict]

/-- The hypothesis of C6 holds at a lone trace header with source endpoint id 0,
where the direction is unknown, and at a lone policy verdict header with the
ingress flag. -/
theorem decodeTrafficDirection_unknown_iff_witness :
    decodeTrafficDirection 42 none (some { Source := 0, Reason := 1 }) none
      = pb.TrafficDirection.TRAFFIC_DIRECTION_UNKNOWN ∧
    decodeTrafficDirection 42 none none (some { Flags := 1 })
      = pb.TrafficDirection.INGRESS :=
  ⟨(decodeTrafficDirection_unknown_iff 42 none (some { Source := 0, Reason := 1 }) none
      (by decide)).2.mpr (Or.inr (Or.inl ⟨_, rfl, Or.inl rfl⟩)),
   (decodeTrafficDirection_unknown_iff 42 none none (some { Flags := 1 })
      (by decide)).1 _ rfl⟩

/-! ### Layer decoding -/

/-- C1: the same frame (Ethernet, IPv4, TCP: no UDP layer) decoded with the VXLAN
hint on the workspace `New` builds and on the same workspace after it has decoded
one VXLAN packet. On the fresh workspace `decodeLayers` returns an overlay error;
on the used one it returns no error, a VXLAN tunnel around the frame, and the
ethernet, ip, l4, addresses, ports and summary of the inner frame of the earlier
packet, which it reads from the UDP payload that packet left in the workspace. -/
theorem decodeLayers_reads_stale_udp_payload :
    (decodeLayers sample.externals sample.plainFrame newPacket false false true false).1
      = { ethernet := some { Source := "02:00:00:00:00:03", Destination := "02:00:00:00:00:04" },
          ip := some { Source := "10.0.0.9", Destination := "10.0.0.8",
                       IpVersion := pb.IPVersion.IPv4 },
          l4 := some (pb.Layer4.TCP 8080 443 { ACK := true }),
          sourceIP := netip.Addr.v4 [10, 0, 0, 9],
          destinationIP := netip.Addr.v4 [10, 0, 0, 8],
          sourcePort := 8080, destinationPort := 443,
          summary := "TCP Flags: ACK",
          err := some (Error.wrap "overlay" (Error.external "vxlan packet too small")) } ∧
    (decodeLayers sample.externals sample.plainFrame sample.usedPacket false false true false).1
      = { ethernet := some { Source := "02:00:00:00:00:01", Destination := "02:00:00:00:00:02" },
          ip := some { Source := "10.0.0.1", Destination := "10.0.0.2",
                       IpVersion := pb.IPVersion.IPv4 },
          l4 := some (pb.Layer4.TCP 5555 80 { SYN := true }),
          tunnel := some
            { Protocol := pb.TunnelProtocol.VXLAN,
              IP := some { Source := "10.0.0.9", Destination := "10.0.0.8",
                           IpVersion := pb.IPVersion.IPv4 },
              L4 := some (pb.Layer4.TCP 8080 443 { ACK := true }) },
          sourceIP := netip.Addr.v4 [10, 0, 0, 1],
          destinationIP := netip.Addr.v4 [10, 0, 0, 2],
          sourcePort := 5555, destinationPort := 80,
          summary := "TCP Flags: SYN",
          err := none } := by
  constructor <;> decide

/-- One round of the overlay loop leaves the tunnel and the error alone, and it
does the same to the other results whatever the tunnel and the error are. -/
theorem overlayStep_with_tunnel (x : Externals) (l : overlayLayers) (r : LayersResult)
    (t : Option pb.Tunnel) (e : Option Error) (typ : LayerType) :
    decodeLayers.overlayStep x l { r with tunnel := t, err := e } typ =
      { decodeLayers.overlayStep x l r typ with tunnel := t, err := e } := by
  cases typ <;> rfl

/-- The overlay loop started from results that differ from `r` in the tunnel and
the error only ends in the results of the loop started from `r`, with that tunnel
and that error. -/
theorem overlayLoop_with_tunnel (x : Externals) (l : overlayLayers)
    (t : Option pb.Tunnel) (e : Option Error) (typs : List LayerType) (r : LayersResult) :
    typs.foldl (decodeLayers.overlayStep x l) { r with tunnel := t, err := e } =
      { typs.foldl (decodeLayers.overlayStep x l) r with tunnel := t, err := e } := by
  induction typs generalizing r with
  | nil => rfl
  | cons typ typs ih =>
    simp only [List.foldl_cons]
    rw [overlayStep_with_tunnel, ih]

/-- An overlay parser is picked exactly when one of the two overlay hints is
set. -/
theorem overlayParser_isSome_iff (pkt : packet) (isVXLAN isGeneve : Bool) :
    (decodeLayers.overlayParser pkt isVXLAN isGeneve).isSome = true ↔
      (isVXLAN = true ∨ isGeneve = true) := by
  cases isVXLAN <;> cases isGeneve <;> simp [decodeLayers.overlayParser]

/-- C10: `decodeLayers` on a payload that is not empty, with the VXLAN or the
Geneve hint set, when the outer parser and the overlay parser (the VXLAN one with
the VXLAN hint, else the Geneve one) succeed and the first overlay layer is VXLAN
or Geneve. The tunnel has the protocol of that first layer and the ip and l4 the
outer loop produced; ethernet, ip, l4, the addresses, the ports and the summary
are what the per-layer loop gives from all-default values over the overlay layers
after the first, read from the overlay decoding layers; there is no error. When
the overlay list holds the tunnel layer only, all of these are null, zero or empty
and the tunnel is still returned. -/
theorem decodeLayers_tunnel (x : Externals) (payload : List Nat) (pkt : packet)
    (isL3Device isIPv6 isVXLAN isGeneve : Bool)
    (parser : DecodingLayerParser overlayLayers)
    (first : LayerType) (rest : List LayerType)
    (hpayload : payload ≠ [])
    (hhint : isVXLAN = true ∨ isGeneve = true)
    (hparser : parser =
      if isVXLAN then pkt.decLayerOverlay_VXLAN else pkt.decLayerOverlay_Geneve)
    (houter : (decodeLayers.outerParser pkt isL3Device isIPv6 payload pkt.layers).err = none)
    (hoverlay : (parser
      (decodeLayers.outerParser pkt isL3Device isIPv6 payload pkt.layers).layers.UDP.Payload
      pkt.overlay).err = none)
    (hlayers : (parser
      (decodeLayers.outerParser pkt isL3Device isIPv6 payload pkt.layers).layers.UDP.Payload
      pkt.overlay).decoded = first :: rest)
    (hfirst : first = LayerType.VXLAN ∨ first = LayerType.Geneve) :
    let out := decodeLayers.outerParser pkt isL3Device isIPv6 payload pkt.layers
    let o := parser out.layers.UDP.Payload pkt.overlay
    let outer := decodeLayers.outerLoop x out.layers out.decoded
    let inner := decodeLayers.overlayLoop x o.layers rest
    let res := (decodeLayers x payload pkt isL3Device isIPv6 isVXLAN isGeneve).1
    res.tunnel = some
        { Protocol := if first = LayerType.VXLAN then pb.TunnelProtocol.VXLAN
                      else pb.TunnelProtocol.GENEVE,
          IP := outer.ip, L4 := outer.l4 } ∧
      res.ethernet = inner.ethernet ∧ res.ip = inner.ip ∧ res.l4 = inner.l4 ∧
      res.sourceIP = inner.sourceIP ∧ res.destinationIP = inner.destinationIP ∧
      res.sourcePort = inner.sourcePort ∧ res.destinationPort = inner.destinationPort ∧
      res.summary = inner.summary ∧ res.err = none ∧
      (rest = [] →
        res.ethernet = none ∧ res.ip = none ∧ res.l4 = none ∧
        res.sourceIP = netip.Addr.zero ∧ res.destinationIP = netip.Addr.zero ∧
        res.sourcePort = 0 ∧ res.destinationPort = 0 ∧ res.summary = "") := by
  have hpick : decodeLayers.overlayParser pkt isVXLAN isGeneve = some parser := by
    rw [hparser]
    cases isVXLAN
    · cases isGeneve
      · simp at hhint
      · rfl
    · rfl
  intro out o outer inner res
  have hlen : ¬ payload.length = 0 := by
    intro h
    exact hpayload (List.length_eq_zero.mp h)
  have hres : res =
      { inner with
        tunnel := some
          { Protocol := if first = LayerType.VXLAN then pb.TunnelProtocol.VXLAN
                        else pb.TunnelProtocol.GENEVE,
            IP := outer.ip, L4 := outer.l4 },
        err := none } := by
    have hloop := overlayLoop_with_tunnel x o.layers
      (some { Protocol := if first = LayerType.VXLAN then pb.TunnelProtocol.VXLAN
                          else pb.TunnelProtocol.GENEVE,
              IP := outer.ip, L4 := outer.l4 }) none rest {}
    have herr : outer.err = none := by
      have : ∀ (typs : List LayerType) (r : LayersResult), r.err = none →
          (typs.foldl (decodeLayers.outerStep x out.layers) r).err = none := by
        intro typs
        induction typs with
        | nil => intro r hr; exact hr
        | cons typ typs ih =>
          intro r hr
          simp only [List.foldl_cons]
          apply ih
          cases typ <;> exact hr
      exact this _ _ rfl
    have hparser : decodeLayers.overlayParser
        { pkt with Layers := out.decoded, layers := out.layers } isVXLAN isGeneve
        = some parser := hpick
    show (decodeLayers x payload pkt isL3Device isIPv6 isVXLAN isGeneve).1 = _
    unfold decodeLayers
    rw [if_neg hlen]
    simp only []
    rw [show (decodeLayers.outerParser pkt isL3Device isIPv6 payload pkt.layers).err = none
      from houter]
    simp only []
    rw [hparser]
    simp only [decodeLayers.overlay]
    rw [show (parser (decodeLayers.outerParser pkt isL3Device isIPv6 payload
      pkt.layers).layers.UDP.Payload pkt.overlay).err = none from hoverlay]
    simp only []
    rw [show (parser (decodeLayers.outerParser pkt isL3Device isIPv6 payload
      pkt.layers).layers.UDP.Payload pkt.overlay).decoded = first :: rest from hlayers]
    simp only []
    rw [show (decodeLayers.outerLoop x
      (decodeLayers.outerParser pkt isL3Device isIPv6 payload pkt.layers).layers
      (decodeLayers.outerParser pkt isL3Device isIPv6 payload pkt.layers).decoded).err = none
      from herr]
    rcases hfirst with h | h
    · subst h
      simp only [if_true]
      exact hloop
    · subst h
      simp only [if_false, reduceCtorEq]
      exact hloop
  refine ⟨by rw [hres], by rw [hres], by rw [hres], by rw [hres], by rw [hres], by rw [hres],
    by rw [hres], by rw [hres], by rw [hres], by rw [hres], ?_⟩
  intro hrest
  rw [hres]
  have : inner = {} := by
    show decodeLayers.overlayLoop x o.layers rest = {}
    rw [hrest]
    rfl
  rw [this]
  exact ⟨rfl, rfl, rfl, rfl, rfl, rfl, rfl, rfl⟩

/-- The hypotheses of C10 hold for `sample.vxlanFrame` on the workspace of `New`
with the VXLAN hint: the overlay layers are VXLAN, Ethernet, IPv4, TCP, the
tunnel carries the outer IPv4 and UDP, the summary is the one of the inner TCP
segment and there is no error. -/
theorem decodeLayers_tunnel_witness :
    (decodeLayers sample.externals sample.vxlanFrame newPacket false false true false).1.tunnel
      = some { Protocol := pb.TunnelProtocol.VXLAN,
               IP := some { Source := "192.168.0.1", Destination := "192.168.0.2",
                            IpVersion := pb.IPVersion.IPv4 },
               L4 := some (pb.Layer4.UDP 49152 8472) } ∧
    (decodeLayers sample.externals sample.vxlanFrame newPacket false false true false).1.summary
      = "TCP Flags: SYN" ∧
    (decodeLayers sample.externals sample.vxlanFrame newPacket false false true false).1.err
      = none :=
  have h := decodeLayers_tunnel sample.externals sample.vxlanFrame newPacket
    false false true false newPacket.decLayerOverlay_VXLAN LayerType.VXLAN
    [LayerType.Ethernet, LayerType.IPv4, LayerType.TCP]
    (by decide) (Or.inl rfl) rfl (by decide) (by decide) (by decide) (Or.inl rfl)
  ⟨h.1.trans (by decide), h.2.2.2.2.2.2.2.2.1.trans (by decide), h.2.2.2.2.2.2.2.2.2.1⟩

/-! ### Reply -/

/-- The policy correlation changes the policy annotations of a flow and nothing
else. -/
theorem correlate_eq (x : Externals) (p : Parser) (f : pb.Flow) :
    Parser.correlate x p f = { f with Policies := (Parser.correlate x p f).Policies } := by
  unfold Parser.correlate
  split <;> rfl

/-- `Parser.fill` sets `IsReply` from `decodeIsReply`. -/
theorem fill_IsReply (x : Externals) (p : Parser) (eventType : Nat) (h : Headers)
    (l : LayersResult) (ip : Option pb.IP) (srcIP : netip.Addr) (decoded : pb.Flow) :
    (Parser.fill x p eventType h l ip srcIP decoded).IsReply = decodeIsReply h.tn h.pvn := by
  unfold Parser.fill
  rw [correlate_eq]
  rfl

/-- `Parser.fill` sets `Reply` to the value of what `decodeIsReply` returns. -/
theorem fill_Reply (x : Externals) (p : Parser) (eventType : Nat) (h : Headers)
    (l : LayersResult) (ip : Option pb.IP) (srcIP : netip.Addr) (decoded : pb.Flow) :
    (Parser.fill x p eventType h l ip srcIP decoded).Reply =
      pb.BoolValue.GetValue (decodeIsReply h.tn h.pvn) := by
  unfold Parser.fill
  rw [correlate_eq]
  rfl

/-- A call of `Decode` without error: the event is not empty, the header
dispatch returned header variables whose packet offset is within the event,
`decodeLayers` returned no error, and the flow is the one `Parser.fill` builds
from the header variables, the layer results and the trace fixup. -/
theorem Decode_ok (x : Externals) (p : Parser) (data : List Nat) (decoded : pb.Flow)
    (hok : (Parser.Decode x p data decoded).err = none) :
    ∃ h : Headers,
      data ≠ [] ∧
      (Parser.decodeHeader x data decoded).1 = Except.ok h ∧
      h.packetOffset ≤ data.length ∧
      (decodeLayers x (data.drop h.packetOffset) p.packet
        h.isL3Device h.isIPv6 h.isVXLAN h.isGeneve).1.err = none ∧
      (Parser.Decode x p data decoded).decoded =
        Parser.fill x p (data.headD 0) h
          (decodeLayers x (data.drop h.packetOffset) p.packet
            h.isL3Device h.isIPv6 h.isVXLAN h.isGeneve).1
          (Parser.fixupTrace x h.tn
            (decodeLayers x (data.drop h.packetOffset) p.packet
              h.isL3Device h.isIPv6 h.isVXLAN h.isGeneve).1.ip
            (decodeLayers x (data.drop h.packetOffset) p.packet
              h.isL3Device h.isIPv6 h.isVXLAN h.isGeneve).1.sourceIP).1
          (Parser.fixupTrace x h.tn
            (decodeLayers x (data.drop h.packetOffset) p.packet
              h.isL3Device h.isIPv6 h.isVXLAN h.isGeneve).1.ip
            (decodeLayers x (data.drop h.packetOffset) p.packet
              h.isL3Device h.isIPv6 h.isVXLAN h.isGeneve).1.sourceIP).2
          (Parser.decodeHeader x data decoded).2 := by
  unfold Parser.Decode at hok ⊢
  by_cases hlen : data.length = 0
  · rw [if_pos hlen] at hok
    simp at hok
  · rw [if_neg hlen] at hok ⊢
    have hne : data ≠ [] := fun h => hlen (by rw [h]; rfl)
    rcases hd : Parser.decodeHeader x data decoded with ⟨r, d⟩
    rw [hd] at hok
    cases r with
    | error e => simp at hok
    | ok h =>
      simp only [] at hok ⊢
      by_cases hoff : data.length < h.packetOffset
      · rw [if_pos hoff] at hok
        simp at hok
      · rw [if_neg hoff] at hok ⊢
        cases he : (decodeLayers x (data.drop h.packetOffset) p.packet
            h.isL3Device h.isIPv6 h.isVXLAN h.isGeneve).1.err with
        | some e =>
          simp only [he] at hok
          simp at hok
        | none =>
          refine ⟨h, hne, rfl, by omega, he, ?_⟩
          simp only [he]

/-- C7: `decodeIsReply` is tri-state. For a trace header with a known reason it is
unknown when the reason is encap or decap and the reply flag of the reason
otherwise; without such a trace header it is the known value false for a policy
verdict header with a verdict that is not negative, and unknown in every other
case (no policy verdict header, or a negative verdict). After every call of
`Decode` without error the flow's `IsReply` is the result of `decodeIsReply` on
the decoded headers, and the flow's `Reply` is its value when it is known and
false when it is unknown. -/
theorem decodeIsReply_tristate :
    (∀ (t : monitor.TraceNotify) (pvn : Option monitor.PolicyVerdictNotify),
      t.TraceReasonIsKnown = true →
      decodeIsReply (some t) pvn =
        if t.TraceReasonIsEncap = true ∨ t.TraceReasonIsDecap = true then none
        else some t.TraceReasonIsReply) ∧
    (∀ (tn : Option monitor.TraceNotify) (pv : monitor.PolicyVerdictNotify),
      (∀ t, tn = some t → t.TraceReasonIsKnown = false) → 0 ≤ pv.Verdict →
      decodeIsReply tn (some pv) = some false) ∧
    (∀ (tn : Option monitor.TraceNotify) (pvn : Option monitor.PolicyVerdictNotify),
      (∀ t, tn = some t → t.TraceReasonIsKnown = false) →
      (∀ pv, pvn = some pv → pv.Verdict < 0) →
      decodeIsReply tn pvn = none) ∧
    (∀ (x : Externals) (p : Parser) (data : List Nat) (decoded : pb.Flow),
      (Parser.Decode x p data decoded).err = none →
      (∃ h : Headers, (Parser.decodeHeader x data decoded).1 = Except.ok h ∧
        (Parser.Decode x p data decoded).decoded.IsReply = decodeIsReply h.tn h.pvn) ∧
      (∀ b, (Parser.Decode x p data decoded).decoded.IsReply = some b →
        (Parser.Decode x p data decoded).decoded.Reply = b) ∧
      ((Parser.Decode x p data decoded).decoded.IsReply = none →
        (Parser.Decode x p data decoded).decoded.Reply = false)) := by
  refine ⟨?_, ?_, ?_, ?_⟩
  · intro t pvn hk
    simp only [decodeIsReply, hk, if_true, Bool.or_eq_true]
  · intro tn pv htn hv
    cases tn with
    | none => simp [decodeIsReply, hv]
    | some t => simp [decodeIsReply, htn t rfl, hv]
  · intro tn pvn htn hv
    have hpv : (match pvn with
        | some pvn => if pvn.Verdict ≥ 0 then some false else none
        | none => none) = none := by
      cases pvn with
      | none => rfl
      | some pv =>
        have := hv pv rfl
        have h0 : ¬ pv.Verdict ≥ 0 := by omega
        simp only [h0, if_false]
    cases tn with
    | none => simp only [decodeIsReply, hpv]
    | some t => simp [decodeIsReply, htn t rfl, hpv]
  · intro x p data decoded hok
    obtain ⟨h, _, hh, _, _, hd⟩ := Decode_ok x p data decoded hok
    have hr := fill_Reply x p (data.headD 0) h
    have hi := fill_IsReply x p (data.headD 0) h
    refine ⟨⟨h, hh, ?_⟩, ?_, ?_⟩
    · rw [hd, hi]
    · intro b hb
      rw [hd, hi] at hb
      rw [hd, hr, hb]
      rfl
    · intro hb
      rw [hd, hi] at hb
      rw [hd, hr, hb]
      rfl

/-- C7 read on the trace event `sample.traceEvent` (reason CT_ESTABLISHED: known,
not a reply, neither encap nor decap): `Decode` returns no error, `IsReply` is the
known value false and `Reply` is false. -/
theorem decodeIsReply_tristate_witness :
    (Parser.Decode sample.externals sample.parser sample.traceEvent {}).err = none ∧
    (Parser.Decode sample.externals sample.parser sample.traceEvent {}).decoded.IsReply
      = some false ∧
    (Parser.Decode sample.externals sample.parser sample.traceEvent {}).decoded.Reply
      = false :=
  ⟨by decide, by decide,
   (decodeIsReply_tristate.2.2.2 sample.externals sample.parser sample.traceEvent {}
      (by decide)).2.1 false (by decide)⟩

/-! ### The trace fixup of the source IP -/

/-- One round of the outer loop keeps: an IP message, if there is one, has an
empty `SourceXlated` and a `Source` that is the string form of an IP. -/
theorem outerStep_ip (x : Externals) (l : packetLayers) (r : LayersResult) (typ : LayerType)
    (hr : ∀ v, r.ip = some v → v.SourceXlated = "" ∧ ∃ b, v.Source = x.IP_String b) :
    ∀ v, (decodeLayers.outerStep x l r typ).ip = some v →
      v.SourceXlated = "" ∧ ∃ b, v.Source = x.IP_String b := by
  intro v hv
  cases typ
  case IPv4 =>
    have : (decodeIPv4 x l.IPv4).1 = v := Option.some.inj hv
    subst this
    exact ⟨rfl, l.IPv4.SrcIP, rfl⟩
  case IPv6 =>
    have : (decodeIPv6 x l.IPv6).1 = v := Option.some.inj hv
    subst this
    exact ⟨rfl, l.IPv6.SrcIP, rfl⟩
  all_goals exact hr v hv

/-- One round of the overlay loop keeps the same property of the IP message. -/
theorem overlayStep_ip (x : Externals) (l : overlayLayers) (r : LayersResult)
    (typ : LayerType)
    (hr : ∀ v, r.ip = some v → v.SourceXlated = "" ∧ ∃ b, v.Source = x.IP_String b) :
    ∀ v, (decodeLayers.overlayStep x l r typ).ip = some v →
      v.SourceXlated = "" ∧ ∃ b, v.Source = x.IP_String b := by
  intro v hv
  cases typ
  case IPv4 =>
    have : (decodeIPv4 x l.IPv4).1 = v := Option.some.inj hv
    subst this
    exact ⟨rfl, l.IPv4.SrcIP, rfl⟩
  case IPv6 =>
    have : (decodeIPv6 x l.IPv6).1 = v := Option.some.inj hv
    subst this
    exact ⟨rfl, l.IPv6.SrcIP, rfl⟩
  all_goals exact hr v hv

/-- The outer loop keeps the property of the IP message. -/
theorem outerFold_ip (x : Externals) (l : packetLayers) (typs : List LayerType)
    (r : LayersResult)
    (hr : ∀ v, r.ip = some v → v.SourceXlated = "" ∧ ∃ b, v.Source = x.IP_String b) :
    ∀ v, (typs.foldl (decodeLayers.outerStep x l) r).ip = some v →
      v.SourceXlated = "" ∧ ∃ b, v.Source = x.IP_String b := by
  induction typs generalizing r with
  | nil => exact hr
  | cons typ typs ih =>
    simp only [List.foldl_cons]
    exact ih _ (outerStep_ip x l r typ hr)

/-- The overlay loop keeps the property of the IP message. -/
theorem overlayFold_ip (x : Externals) (l : overlayLayers) (typs : List LayerType)
    (r : LayersResult)
    (hr : ∀ v, r.ip = some v → v.SourceXlated = "" ∧ ∃ b, v.Source = x.IP_String b) :
    ∀ v, (typs.foldl (decodeLayers.overlayStep x l) r).ip = some v →
      v.SourceXlated = "" ∧ ∃ b, v.Source = x.IP_String b := by
  induction typs generalizing r with
  | nil => exact hr
  | cons typ typs ih =>
    simp only [List.foldl_cons]
    exact ih _ (overlayStep_ip x l r typ hr)

/-- The overlay part of `decodeLayers` keeps the property of the IP message. -/
theorem overlay_ip (x : Externals) (r : LayersResult) (pkt : packet)
    (out : DecodeLayersOut overlayLayers)
    (hr : ∀ v, r.ip = some v → v.SourceXlated = "" ∧ ∃ b, v.Source = x.IP_String b) :
    ∀ v, (decodeLayers.overlay x r pkt out).1.ip = some v →
      v.SourceXlated = "" ∧ ∃ b, v.Source = x.IP_String b := by
  unfold decodeLayers.overlay
  simp only []
  cases out.err with
  | some e => exact hr
  | none =>
    simp only []
    cases out.decoded with
    | nil => exact hr
    | cons first rest =>
      simp only []
      cases first
      case VXLAN =>
        simp only []
        apply overlayFold_ip
        intro v hv
        cases hv
      case Geneve =>
        simp only []
        apply overlayFold_ip
        intro v hv
        cases hv
      all_goals exact hr

/-- The IP message `decodeLayers` returns, if any, has an empty `SourceXlated`, and
its `Source` is the string form of an IP read from a decoding layer. -/
theorem decodeLayers_ip (x : Externals) (payload : List Nat) (pkt : packet)
    (isL3Device isIPv6 isVXLAN isGeneve : Bool) :
    ∀ v, (decodeLayers x payload pkt isL3Device isIPv6 isVXLAN isGeneve).1.ip = some v →
      v.SourceXlated = "" ∧ ∃ b, v.Source = x.IP_String b := by
  unfold decodeLayers
  by_cases hlen : payload.length = 0
  · rw [if_pos hlen]
    intro v hv
    cases hv
  · rw [if_neg hlen]
    simp only []
    cases (decodeLayers.outerParser pkt isL3Device isIPv6 payload pkt.layers).err with
    | some e =>
      intro v hv
      cases hv
    | none =>
      simp only []
      have houter : ∀ v, (decodeLayers.outerLoop x
          (decodeLayers.outerParser pkt isL3Device isIPv6 payload pkt.layers).layers
          (decodeLayers.outerParser pkt isL3Device isIPv6 payload pkt.layers).decoded).ip
            = some v → v.SourceXlated = "" ∧ ∃ b, v.Source = x.IP_String b := by
        apply outerFold_ip
        intro v hv
        cases hv
      split
      · exact overlay_ip x _ _ _ houter
      · exact houter

/-- `Parser.fill` stores the IP message it is given. -/
theorem fill_IP (x : Externals) (p : Parser) (eventType : Nat) (h : Headers)
    (l : LayersResult) (ip : Option pb.IP) (srcIP : netip.Addr) (decoded : pb.Flow) :
    (Parser.fill x p eventType h l ip srcIP decoded).IP = ip := by
  unfold Parser.fill
  rw [correlate_eq]
  rfl

/-- C8: after a call of `Decode` without error, with `l` the results of
`decodeLayers` on the packet bytes and provided the string form of an IP is never
empty (as in Go). For a trace header whose original IP is not unspecified and an
IP message `ipv` from `decodeLayers`: the flow's `ip.source` is the string form of
the original IP, `ip.source_xlated` is non-empty exactly when the source string of
`ipv` differs from it, and is then that source string. For a trace header whose
original IP is unspecified and for an event without trace header:
`ip.source_xlated` is empty and `ip.source` is the source `decodeLayers`
returned. -/
theorem Decode_source_xlated (x : Externals) (p : Parser) (data : List Nat)
    (decoded : pb.Flow) (h : Headers)
    (hstr : ∀ b, x.IP_String b ≠ "")
    (hhdr : (Parser.decodeHeader x data decoded).1 = Except.ok h)
    (hok : (Parser.Decode x p data decoded).err = none) :
    let l := (decodeLayers x (data.drop h.packetOffset) p.packet
      h.isL3Device h.isIPv6 h.isVXLAN h.isGeneve).1
    let flow := (Parser.Decode x p data decoded).decoded
    (∀ (t : monitor.TraceNotify) (ipv : pb.IP),
      h.tn = some t → net.IP_IsUnspecified t.OriginalIP = false → l.ip = some ipv →
      pb.IP.GetSource flow.IP = x.Addr_String (netipx.FromStdIP t.OriginalIP) ∧
      (pb.IP.GetSourceXlated flow.IP ≠ "" ↔
        ipv.Source ≠ x.Addr_String (netipx.FromStdIP t.OriginalIP)) ∧
      (ipv.Source ≠ x.Addr_String (netipx.FromStdIP t.OriginalIP) →
        pb.IP.GetSourceXlated flow.IP = ipv.Source)) ∧
    ((h.tn = none ∨ ∃ t, h.tn = some t ∧ net.IP_IsUnspecified t.OriginalIP = true) →
      pb.IP.GetSourceXlated flow.IP = "" ∧
      pb.IP.GetSource flow.IP = pb.IP.GetSource l.ip) := by
  intro l flow
  obtain ⟨h', _, hh, _, _, hd⟩ := Decode_ok x p data decoded hok
  rw [hhdr] at hh
  cases hh
  have hflow : flow.IP = (Parser.fixupTrace x h.tn l.ip l.sourceIP).1 := by
    show (Parser.Decode x p data decoded).decoded.IP = _
    rw [hd, fill_IP]
  have hinv := decodeLayers_ip x (data.drop h.packetOffset) p.packet
    h.isL3Device h.isIPv6 h.isVXLAN h.isGeneve
  refine ⟨?_, ?_⟩
  · intro t ipv htn horig hip
    obtain ⟨hx, b, hb⟩ := hinv ipv hip
    have hne : ipv.Source ≠ "" := by rw [hb]; exact hstr b
    rw [hflow, htn, hip]
    simp only [Parser.fixupTrace, horig, Bool.not_false, if_true, pb.IP.GetSource]
    by_cases hs : ipv.Source = x.Addr_String (netipx.FromStdIP t.OriginalIP)
    · simp [hs, pb.IP.GetSource, pb.IP.GetSourceXlated, hx]
    · simp [hs, pb.IP.GetSource, pb.IP.GetSourceXlated, hne]
  · intro hcase
    rw [hflow]
    rcases hcase with htn | ⟨t, htn, horig⟩
    · rw [htn]
      cases hip : l.ip with
      | none => simp [Parser.fixupTrace, pb.IP.GetSource, pb.IP.GetSourceXlated]
      | some ipv =>
        obtain ⟨hx, _⟩ := hinv ipv hip
        simp [Parser.fixupTrace, pb.IP.GetSource, pb.IP.GetSourceXlated, hx]
    · rw [htn]
      cases hip : l.ip with
      | none => simp [Parser.fixupTrace, pb.IP.GetSource, pb.IP.GetSourceXlated]
      | some ipv =>
        obtain ⟨hx, _⟩ := hinv ipv hip
        simp [Parser.fixupTrace, horig, pb.IP.GetSource, pb.IP.GetSourceXlated, hx]

/-- A string with a non-empty left part is not empty. -/
theorem append_ne_empty_left (s t : String) (hs : s ≠ "") : s ++ t ≠ "" := by
  intro h
  apply hs
  have hd : (s ++ t).data = [] := by rw [h]
  rw [String.data_append] at hd
  exact String.ext (List.append_eq_nil.mp hd).1

/-- A string with a non-empty right part is not empty. -/
theorem append_ne_empty_right (s t : String) (ht : t ≠ "") : s ++ t ≠ "" := by
  intro h
  apply ht
  have hd : (s ++ t).data = [] := by rw [h]
  rw [String.data_append] at hd
  exact String.ext (List.append_eq_nil.mp hd).2

/-- Joining on from a non-empty string gives a non-empty string. -/
theorem intercalate_go_ne (sep : String) (l : List String) (acc : String) (h : acc ≠ "") :
    String.intercalate.go acc sep l ≠ "" := by
  induction l generalizing acc with
  | nil => exact h
  | cons a l ih =>
    apply ih
    exact append_ne_empty_left _ _ (append_ne_empty_left _ _ h)

/-- Two or more strings joined by a non-empty separator are not empty. -/
theorem intercalate_ne (sep a b : String) (l : List String) (h : sep ≠ "") :
    String.intercalate sep (a :: b :: l) ≠ "" := by
  show String.intercalate.go (a ++ sep ++ b) sep l ≠ ""
  apply intercalate_go_ne
  exact append_ne_empty_left _ _ (append_ne_empty_right _ _ h)

/-- The string form of an IP in the sample environment is never empty. -/
theorem sample_IP_String_ne (b : List Nat) : sample.IP_String b ≠ "" := by
  unfold sample.IP_String
  split_ifs with h0 h1
  · decide
  · exact append_ne_empty_left _ _ (by decide)
  · have hlen : b.length = 4 ∨ b.length = 16 := by
      by_cases h4 : b.length = 4
      · exact Or.inl h4
      · right
        by_contra h16
        exact h1 ⟨h4, h16⟩
    have hdot : ∀ c : List Nat, 2 ≤ c.length → sample.dotted c ≠ "" := by
      intro c hc
      match c, hc with
      | c0 :: c1 :: rest, _ => exact intercalate_ne _ _ _ _ (by decide)
    unfold netipx.FromStdIP
    split_ifs with h4 h16 hmap
    · exact hdot b (by omega)
    · exact hdot _ (by rw [List.length_drop]; omega)
    · match b, h16 with
      | c0 :: c1 :: c2 :: c3 :: rest, _ => exact intercalate_ne _ _ _ _ (by decide)
    · omega

/-- The hypotheses of C8 hold for the trace event `sample.traceEvent`, whose
header carries the original IP 10.0.0.99 and whose packet has the IPv4 source
10.0.0.1: the flow has `ip.source` 10.0.0.99 and `ip.source_xlated` 10.0.0.1. -/
theorem Decode_source_xlated_witness :
    pb.IP.GetSource
        (Parser.Decode sample.externals sample.parser sample.traceEvent {}).decoded.IP
      = "10.0.0.99" ∧
    pb.IP.GetSourceXlated
        (Parser.Decode sample.externals sample.parser sample.traceEvent {}).decoded.IP
      = "10.0.0.1" :=
  have h := (Decode_source_xlated sample.externals sample.parser sample.traceEvent {}
    sample.traceHeaders sample_IP_String_ne rfl (by decide)).1
    { Source := 42, SrcLabel := 100, DstLabel := 200, Reason := 1, Ifindex := 3,
      OrigIP := [10, 0, 0, 99] ++ List.replicate 12 0, DataOffset := 48 }
    { Source := "10.0.0.1", Destination := "10.0.0.2", IpVersion := pb.IPVersion.IPv4 }
    rfl (by decide) (by decide)
  ⟨h.1.trans (by decide), (h.2.2 (by decide)).trans rfl⟩

/-! ### The source IP of the lookups -/

/-- Header variables that come out of the dispatch with a trace header have no
drop and no policy verdict header. -/
theorem decodeHeader_trace (x : Externals) (data : List Nat) (decoded : pb.Flow)
    (h : Headers) (t : monitor.TraceNotify)
    (hhdr : (Parser.decodeHeader x data decoded).1 = Except.ok h) (htn : h.tn = some t) :
    h.dn = none ∧ h.pvn = none := by
  unfold Parser.decodeHeader at hhdr
  simp only [] at hhdr
  split_ifs at hhdr
  · split at hhdr
    · cases hhdr
    · cases hhdr
      cases htn
  · split at hhdr
    · cases hhdr
    · cases hhdr
      exact ⟨rfl, rfl⟩
  · split at hhdr
    · cases hhdr
    · cases hhdr
      cases htn
  · split at hhdr
    · cases hhdr
    · cases hhdr
      cases htn

/-- C9, as the claim states it, fails on the trace event `traceEventNoPacket`: its
header carries the original IP 10.0.0.99, which is not unspecified, `Decode`
returns no error, and the endpoint resolver, the DNS getter and the service
getter of the sample parser, which record the IP they are asked about, were all
asked about the zero address ("invalid IP"), not about 10.0.0.99. -/
theorem Decode_trace_without_ip_layer_looks_up_zero :
    (Parser.decodeHeader sample.externals sample.traceEventNoPacket {}).1
      = Except.ok sample.traceHeaders ∧
    sample.traceHeaders.tn.map
        (fun t => (net.IP_IsUnspecified t.OriginalIP, netipx.FromStdIP t.OriginalIP))
      = some (false, netip.Addr.v4 [10, 0, 0, 99]) ∧
    (Parser.Decode sample.externals sample.parser sample.traceEventNoPacket {}).err = none ∧
    (Parser.Decode sample.externals sample.parser sample.traceEventNoPacket {}).decoded.Source
      = some { ID := 0, PodName := "invalid IP" } ∧
    (Parser.Decode sample.externals sample.parser sample.traceEventNoPacket {}).decoded.SourceNames
      = ["invalid IP"] ∧
    (Parser.Decode sample.externals sample.parser
        sample.traceEventNoPacket {}).decoded.SourceService
      = some { Name := "invalid IP" } ∧
    sample.parser.epResolver.ResolveEndpoint (netip.Addr.v4 [10, 0, 0, 99]) 100 {}
      = { ID := 1, PodName := "10.0.0.99" } := by
  refine ⟨rfl, ?_, ?_, ?_, ?_, ?_, ?_⟩ <;> decide

/-- C9, amended: after a call of `Decode` without error on a trace event whose
original IP is not unspecified and for which `decodeLayers` returned an IP
message, the source IP of the lookups is the original IP, which is a valid
address: the flow's source endpoint is what the resolver returns for the original
IP (also as the source IP of the datapath context), the source service is what
the service getter returns for the original IP and the source port, and the
source names are what `resolveNames` returns for the original IP. -/
theorem Decode_trace_lookups_use_original_ip (x : Externals) (p : Parser)
    (data : List Nat) (decoded : pb.Flow) (h : Headers) (t : monitor.TraceNotify)
    (ipv : pb.IP)
    (hhdr : (Parser.decodeHeader x data decoded).1 = Except.ok h)
    (htn : h.tn = some t)
    (hok : (Parser.Decode x p data decoded).err = none)
    (hip : (decodeLayers x (data.drop h.packetOffset) p.packet
      h.isL3Device h.isIPv6 h.isVXLAN h.isGeneve).1.ip = some ipv)
    (horig : net.IP_IsUnspecified t.OriginalIP = false)
    (hlen : t.OrigIP.length = 16) :
    let l := (decodeLayers x (data.drop h.packetOffset) p.packet
      h.isL3Device h.isIPv6 h.isVXLAN h.isGeneve).1
    let flow := (Parser.Decode x p data decoded).decoded
    let orig := netipx.FromStdIP t.OriginalIP
    let ctx : common.DatapathContext :=
      { SrcIP := orig, SrcLabelID := t.SrcLabel, DstIP := l.destinationIP,
        DstLabelID := t.DstLabel, TraceObservationPoint := flow.TraceObservationPoint }
    orig.IsValid = true ∧
    flow.Source = some (p.epResolver.ResolveEndpoint orig t.SrcLabel ctx) ∧
    flow.SourceService =
      (match p.serviceGetter with
       | some g => g.GetServiceByAddr orig l.sourcePort
       | none => none) ∧
    flow.SourceNames =
      p.resolveNames (p.epResolver.ResolveEndpoint l.destinationIP t.DstLabel ctx).ID orig := by
  intro l flow orig ctx
  obtain ⟨h', _, hh, _, _, hd⟩ := Decode_ok x p data decoded hok
  rw [hhdr] at hh
  cases hh
  obtain ⟨hdn, hpvn⟩ := decodeHeader_trace x data decoded h t hhdr htn
  have hfix : Parser.fixupTrace x h.tn l.ip l.sourceIP =
      ((Parser.fixupTrace x h.tn l.ip l.sourceIP).1, orig) := by
    show Parser.fixupTrace x h.tn (decodeLayers x (data.drop h.packetOffset) p.packet
      h.isL3Device h.isIPv6 h.isVXLAN h.isGeneve).1.ip l.sourceIP = _
    rw [htn, hip]
    simp only [Parser.fixupTrace, horig, Bool.not_false, if_true]
  have hids : decodeSecurityIdentities h.dn h.tn h.pvn = (t.SrcLabel, t.DstLabel) := by
    rw [hdn, htn, hpvn]
    rfl
  have hflow : flow = Parser.fill x p (data.headD 0) h l
      (Parser.fixupTrace x h.tn l.ip l.sourceIP).1 orig
      (Parser.decodeHeader x data decoded).2 := by
    show (Parser.Decode x p data decoded).decoded = _
    rw [hd]
    show Parser.fill x p (data.headD 0) h l (Parser.fixupTrace x h.tn l.ip l.sourceIP).1
      (Parser.fixupTrace x h.tn l.ip l.sourceIP).2 _ = _
    rw [hfix]
  have htop : flow.TraceObservationPoint =
      (Parser.decodeHeader x data decoded).2.TraceObservationPoint := by
    rw [hflow]
    unfold Parser.fill
    rw [correlate_eq]
    rfl
  have hctx : ctx =
      { SrcIP := orig, SrcLabelID := t.SrcLabel, DstIP := l.destinationIP,
        DstLabelID := t.DstLabel,
        TraceObservationPoint :=
          (Parser.decodeHeader x data decoded).2.TraceObservationPoint } := by
    show ({ SrcIP := orig, SrcLabelID := t.SrcLabel, DstIP := l.destinationIP,
            DstLabelID := t.DstLabel,
            TraceObservationPoint := flow.TraceObservationPoint } :
          common.DatapathContext) = _
    rw [htop]
  refine ⟨?_, ?_, ?_, ?_⟩
  · show (netipx.FromStdIP t.OriginalIP).IsValid = true
    unfold netipx.FromStdIP monitor.TraceNotify.OriginalIP
    by_cases h6 : t.IsIPv6 = true
    · simp only [h6, if_true]
      rw [if_neg (by omega), if_pos hlen]
      split_ifs <;> rfl
    · simp only [h6]
      rw [if_pos (by rw [if_neg (by simp), List.length_take]; omega)]
      rfl
  · rw [hctx, hflow]
    unfold Parser.fill
    rw [correlate_eq]
    show some (p.epResolver.ResolveEndpoint orig (decodeSecurityIdentities h.dn h.tn h.pvn).1
      { SrcIP := orig, SrcLabelID := (decodeSecurityIdentities h.dn h.tn h.pvn).1,
        DstIP := l.destinationIP,
        DstLabelID := (decodeSecurityIdentities h.dn h.tn h.pvn).2,
        TraceObservationPoint :=
          (Parser.decodeHeader x data decoded).2.TraceObservationPoint }) = _
    rw [hids]
  · rw [hflow]
    unfold Parser.fill
    rw [correlate_eq]
    rfl
  · rw [hctx, hflow]
    unfold Parser.fill
    rw [correlate_eq]
    show p.resolveNames (p.epResolver.ResolveEndpoint l.destinationIP
      (decodeSecurityIdentities h.dn h.tn h.pvn).2
      { SrcIP := orig, SrcLabelID := (decodeSecurityIdentities h.dn h.tn h.pvn).1,
        DstIP := l.destinationIP,
        DstLabelID := (decodeSecurityIdentities h.dn h.tn h.pvn).2,
        TraceObservationPoint :=
          (Parser.decodeHeader x data decoded).2.TraceObservationPoint }).ID orig = _
    rw [hids]

/-- The hypotheses of C9 as amended hold for the trace event `sample.traceEvent`
(original IP 10.0.0.99, IPv4 source 10.0.0.1 in the packet): the resolver, the
service getter and the DNS getter of the sample parser were asked about
10.0.0.99. -/
theorem Decode_trace_lookups_use_original_ip_witness :
    (Parser.Decode sample.externals sample.parser sample.traceEvent {}).decoded.Source
      = some { ID := 1, PodName := "10.0.0.99" } ∧
    (Parser.Decode sample.externals sample.parser sample.traceEvent {}).decoded.SourceService
      = some { Name := "10.0.0.99" } ∧
    (Parser.Decode sample.externals sample.parser sample.traceEvent {}).decoded.SourceNames
      = ["10.0.0.99"] :=
  have h := Decode_trace_lookups_use_original_ip sample.externals sample.parser
    sample.traceEvent {} sample.traceHeaders
    { Source := 42, SrcLabel := 100, DstLabel := 200, Reason := 1, Ifindex := 3,
      OrigIP := [10, 0, 0, 99] ++ List.replicate 12 0, DataOffset := 48 }
    { Source := "10.0.0.1", Destination := "10.0.0.2", IpVersion := pb.IPVersion.IPv4 }
    rfl rfl (by decide) (by decide) (by decide) (by decide)
  ⟨h.2.1.trans (by decide), h.2.2.1.trans (by decide), h.2.2.2.trans (by decide)⟩


/-! ### Errors of the dispatch -/

/-- C13: `Decode` on the empty event returns the empty data error, and on an event
whose first byte is none of the four tags it returns the invalid type error with
that byte, whatever the other bytes are. In both cases the flow and the workspace
are the ones passed in, for every choice of the header decoders (none of them
contributes to the result). -/
theorem Decode_empty_or_invalid_type (x : Externals) (p : Parser) (decoded : pb.Flow) :
    ((Parser.Decode x p [] decoded).err = some Error.ErrEmptyData ∧
      (Parser.Decode x p [] decoded).decoded = decoded ∧
      (Parser.Decode x p [] decoded).packet = p.packet) ∧
    (∀ (b : Nat) (rest : List Nat),
      b ≠ monitorAPI.MessageTypeDrop → b ≠ monitorAPI.MessageTypeTrace →
      b ≠ monitorAPI.MessageTypePolicyVerdict → b ≠ monitorAPI.MessageTypeCapture →
      (Parser.Decode x p (b :: rest) decoded).err = some (Error.ErrInvalidType b) ∧
      (Parser.Decode x p (b :: rest) decoded).decoded = decoded ∧
      (Parser.Decode x p (b :: rest) decoded).packet = p.packet) := by
  refine ⟨⟨rfl, rfl, rfl⟩, ?_⟩
  intro b rest h1 h2 h3 h4
  have hd : Parser.decodeHeader x (b :: rest) decoded =
      (Except.error (Error.ErrInvalidType b), decoded) := by
    simp [Parser.decodeHeader, h1, h2, h3, h4]
  unfold Parser.Decode
  rw [if_neg (by simp), hd]
  exact ⟨rfl, rfl, rfl⟩

/-- C13 read at the event `[0xFF]` and at `[0xFF, 1, 2, 3]`: the invalid type error
with the byte 0xFF. -/
theorem Decode_empty_or_invalid_type_witness :
    (Parser.Decode sample.externals sample.parser [0xFF] {}).err
      = some (Error.ErrInvalidType 0xFF) ∧
    (Parser.Decode sample.externals sample.parser [0xFF, 1, 2, 3] {}).err
      = some (Error.ErrInvalidType 0xFF) :=
  ⟨((Decode_empty_or_invalid_type sample.externals sample.parser {}).2 0xFF []
      (by decide) (by decide) (by decide) (by decide)).1,
   ((Decode_empty_or_invalid_type sample.externals sample.parser {}).2 0xFF [1, 2, 3]
      (by decide) (by decide) (by decide) (by decide)).1⟩

/-! ### Trace reason, proxy port, security identities -/

/-- The trace reason of a header is its reason byte without the encrypt flag
bit. -/
theorem TraceReason_eq_mod (t : monitor.TraceNotify) (h : t.Reason < 256) :
    t.TraceReason = t.Reason % 128 := by
  unfold monitor.TraceNotify.TraceReason monitor.TraceReasonEncryptMask
  rw [Nat.mod_eq_of_lt h]
  exact Nat.and_pow_two_sub_one_eq_mod t.Reason 7

/-- C14: `decodeTraceReason` maps the datapath trace reason `r` (the reason byte
without the encrypt flag bit) to 0 when `r` is Unknown, which is 5, to `r + 1`
when `r < 5` and to `r` when `r > 5`; without a trace header the result is 0. -/
theorem decodeTraceReason_mapping :
    monitor.TraceReasonUnknown = 5 ∧
    pb.TraceReason_TRACE_REASON_UNKNOWN = 0 ∧
    decodeTraceReason none = 0 ∧
    (∀ t : monitor.TraceNotify, t.TraceReason = 5 → decodeTraceReason (some t) = 0) ∧
    (∀ t : monitor.TraceNotify, t.TraceReason < 5 →
      decodeTraceReason (some t) = t.TraceReason + 1) ∧
    (∀ t : monitor.TraceNotify, 5 < t.TraceReason →
      decodeTraceReason (some t) = t.TraceReason) ∧
    (∀ t : monitor.TraceNotify, t.Reason < 256 → t.TraceReason = t.Reason % 128) := by
  refine ⟨rfl, rfl, rfl, ?_, ?_, ?_, TraceReason_eq_mod⟩
  · intro t h
    simp [decodeTraceReason, monitor.TraceReasonUnknown, h]
    rfl
  · intro t h
    have h1 : ¬ t.TraceReason = 5 := by omega
    simp [decodeTraceReason, monitor.TraceReasonUnknown, h, h1]
  · intro t h
    have h1 : ¬ t.TraceReason = 5 := by omega
    have h2 : ¬ t.TraceReason < 5 := by omega
    simp [decodeTraceReason, monitor.TraceReasonUnknown, h1, h2]

/-- C14 read at the reason bytes 0x82 (reply, with the encrypt flag), 5 and 8. -/
theorem decodeTraceReason_mapping_witness :
    decodeTraceReason (some { Reason := 0x82 }) = 3 ∧
    decodeTraceReason (some { Reason := 5 }) = 0 ∧
    decodeTraceReason (some { Reason := 8 }) = 8 :=
  ⟨decodeTraceReason_mapping.2.2.2.2.1 { Reason := 0x82 } (by decide),
   decodeTraceReason_mapping.2.2.2.1 { Reason := 5 } (by decide),
   decodeTraceReason_mapping.2.2.2.2.2.1 { Reason := 8 } (by decide)⟩


/-- `byteorder.NetworkToHost32` reverses the four bytes of a 32 bit value. -/
theorem NetworkToHost32_bytes (a b c d : Nat) (ha : a < 256) (hb : b < 256) (hc : c < 256)
    (hd : d < 256) :
    byteorder.NetworkToHost32 (a * 2 ^ 24 + b * 2 ^ 16 + c * 2 ^ 8 + d)
      = d * 2 ^ 24 + c * 2 ^ 16 + b * 2 ^ 8 + a := by
  unfold byteorder.NetworkToHost32
  omega

/-- C16: `decodeProxyPort` returns the dst id of a trace header at the observation
point ToProxy; otherwise, for a debug capture with sub-type ProxyPre or ProxyPost,
the first argument with its four bytes reversed (0x50000000 gives 0x50); and 0 in
every other case: a capture with another sub-type, a trace at another observation
point without such a capture, no header. -/
theorem decodeProxyPort_cases :
    (∀ (t : monitor.TraceNotify) (dbg : Option monitor.DebugCapture),
      t.ObsPoint = monitorAPI.TraceToProxy → decodeProxyPort dbg (some t) = t.DstID) ∧
    (∀ (tn : Option monitor.TraceNotify) (d : monitor.DebugCapture),
      (∀ t, tn = some t → t.ObsPoint ≠ monitorAPI.TraceToProxy) →
      (d.SubType = monitor.DbgCaptureProxyPre ∨ d.SubType = monitor.DbgCaptureProxyPost) →
      decodeProxyPort (some d) tn = byteorder.NetworkToHost32 d.Arg1) ∧
    (∀ (tn : Option monitor.TraceNotify) (dbg : Option monitor.DebugCapture),
      (∀ t, tn = some t → t.ObsPoint ≠ monitorAPI.TraceToProxy) →
      (∀ d, dbg = some d →
        d.SubType ≠ monitor.DbgCaptureProxyPre ∧ d.SubType ≠ monitor.DbgCaptureProxyPost) →
      decodeProxyPort dbg tn = 0) ∧
    byteorder.NetworkToHost32 0x50000000 = 0x00000050 ∧
    (∀ a b c d : Nat, a < 256 → b < 256 → c < 256 → d < 256 →
      byteorder.NetworkToHost32 (a * 2 ^ 24 + b * 2 ^ 16 + c * 2 ^ 8 + d)
        = d * 2 ^ 24 + c * 2 ^ 16 + b * 2 ^ 8 + a) := by
  refine ⟨?_, ?_, ?_, by decide, NetworkToHost32_bytes⟩
  · intro t dbg h
    simp [decodeProxyPort, h]
  · intro tn d htn hd
    have hcap : decodeProxyPort.capture (some d) = byteorder.NetworkToHost32 d.Arg1 := by
      simp only [decodeProxyPort.capture, hd, if_true]
    cases tn with
    | none => exact hcap
    | some t => simp only [decodeProxyPort, htn t rfl, if_false, hcap]
  · intro tn dbg htn hdbg
    have hcap : decodeProxyPort.capture dbg = 0 := by
      cases dbg with
      | none => rfl
      | some d =>
        have := hdbg d rfl
        simp [decodeProxyPort.capture, this.1, this.2]
    cases tn with
    | none => exact hcap
    | some t => simp only [decodeProxyPort, htn t rfl, if_false, hcap]

/-- C16 read at a debug capture at ProxyPre with first argument 0x50000000 and at a
trace header at ToProxy with dst id 15001. -/
theorem decodeProxyPort_cases_witness :
    decodeProxyPort (some { SubType := 8, Arg1 := 0x50000000 }) none = 0x50 ∧
    decodeProxyPort none (some { ObsPoint := 1, DstID := 15001 }) = 15001 :=
  ⟨(decodeProxyPort_cases.2.1 none { SubType := 8, Arg1 := 0x50000000 }
      (fun _ h => nomatch h) (Or.inl rfl)).trans (by decide),
   decodeProxyPort_cases.1 { ObsPoint := 1, DstID := 15001 } none rfl⟩

/-- C17: `decodeSecurityIdentities` returns the labels of a drop header when there
is one, else the labels of a trace header when there is one, else for a policy
verdict header the remote label as source with destination 0 when the ingress
flag is set and as destination with source 0 when it is not, and (0, 0) without
any header. -/
theorem decodeSecurityIdentities_cases :
    (∀ (d : monitor.DropNotify) (tn : Option monitor.TraceNotify)
        (pvn : Option monitor.PolicyVerdictNotify),
      decodeSecurityIdentities (some d) tn pvn = (d.SrcLabel, d.DstLabel)) ∧
    (∀ (t : monitor.TraceNotify) (pvn : Option monitor.PolicyVerdictNotify),
      decodeSecurityIdentities none (some t) pvn = (t.SrcLabel, t.DstLabel)) ∧
    (∀ pv : monitor.PolicyVerdictNotify, pv.IsTrafficIngress = true →
      decodeSecurityIdentities none none (some pv) = (pv.RemoteLabel, 0)) ∧
    (∀ pv : monitor.PolicyVerdictNotify, pv.IsTrafficIngress = false →
      decodeSecurityIdentities none none (some pv) = (0, pv.RemoteLabel)) ∧
    decodeSecurityIdentities none none none = (0, 0) := by
  refine ⟨fun _ _ _ => rfl, fun _ _ => rfl, ?_, ?_, rfl⟩
  · intro pv h
    simp [decodeSecurityIdentities, h]
  · intro pv h
    simp [decodeSecurityIdentities, h]

/-- C17 read at an ingress and at an egress policy verdict header with remote
label 300. -/
theorem decodeSecurityIdentities_cases_witness :
    decodeSecurityIdentities none none (some { RemoteLabel := 300, Flags := 1 }) = (300, 0) ∧
    decodeSecurityIdentities none none (some { RemoteLabel := 300, Flags := 2 }) = (0, 300) :=
  ⟨decodeSecurityIdentities_cases.2.2.1 { RemoteLabel := 300, Flags := 1 } (by decide),
   decodeSecurityIdentities_cases.2.2.2.1 { RemoteLabel := 300, Flags := 2 } (by decide)⟩

/-! ### Network interface -/

/-- The interface index `decodeNetworkInterface` derives is the derived index of
the specification. -/
theorem decodeNetworkInterface_eq (p : Parser) (tn : Option monitor.TraceNotify)
    (dbg : Option monitor.DebugCapture) :
    p.decodeNetworkInterface tn dbg =
      if Spec.derivedIfindex tn dbg = 0 then none
      else some
        { Index := Spec.derivedIfindex tn dbg,
          Name := match p.linkGetter with
            | some g => (g.GetIfNameCached (Spec.derivedIfindex tn dbg)).1
            | none => "" } := by
  have hidx : (match tn, dbg with
      | some tn, _ => tn.Ifindex
      | none, some dbg =>
        if dbg.SubType = monitor.DbgCaptureDelivery ∨ dbg.SubType = monitor.DbgCaptureFromLb ∨
            dbg.SubType = monitor.DbgCaptureAfterV46 ∨ dbg.SubType = monitor.DbgCaptureAfterV64 ∨
            dbg.SubType = monitor.DbgCaptureSnatPre ∨ dbg.SubType = monitor.DbgCaptureSnatPost
        then dbg.Arg1 else 0
      | none, none => 0) = Spec.derivedIfindex tn dbg := by
    cases tn with
    | some t => rfl
    | none =>
      cases dbg with
      | none => rfl
      | some d => simp [Spec.derivedIfindex]
  unfold Parser.decodeNetworkInterface
  simp only [hidx]

/-- C15: `decodeNetworkInterface` returns null exactly when the derived interface
index is 0 (the interface index of the trace header when there is one, else the
first argument of a capture at Delivery, FromLb, AfterV46, AfterV64, SnatPre or
SnatPost, else 0), so a capture with another sub-type gives null whatever its
first argument is. Otherwise its index is the derived index, and its name is the
name the link getter returns for that index (the empty string when the getter has
no entry and says so with the empty name and `false`), or the empty string
without link getter. -/
theorem decodeNetworkInterface_null_iff (p : Parser) (tn : Option monitor.TraceNotify)
    (dbg : Option monitor.DebugCapture) :
    (p.decodeNetworkInterface tn dbg = none ↔ Spec.derivedIfindex tn dbg = 0) ∧
    (Spec.derivedIfindex tn dbg ≠ 0 →
      (∀ g, p.linkGetter = some g →
        p.decodeNetworkInterface tn dbg = some
          { Index := Spec.derivedIfindex tn dbg,
            Name := (g.GetIfNameCached (Spec.derivedIfindex tn dbg)).1 }) ∧
      (∀ g, p.linkGetter = some g →
        g.GetIfNameCached (Spec.derivedIfindex tn dbg) = ("", false) →
        p.decodeNetworkInterface tn dbg = some
          { Index := Spec.derivedIfindex tn dbg, Name := "" }) ∧
      (p.linkGetter = none →
        p.decodeNetworkInterface tn dbg = some
          { Index := Spec.derivedIfindex tn dbg, Name := "" })) ∧
    (∀ d : monitor.DebugCapture, tn = none → dbg = some d →
      d.SubType ∉ [monitor.DbgCaptureDelivery, monitor.DbgCaptureFromLb,
        monitor.DbgCaptureAfterV46, monitor.DbgCaptureAfterV64,
        monitor.DbgCaptureSnatPre, monitor.DbgCaptureSnatPost] →
      p.decodeNetworkInterface tn dbg = none) := by
  rw [decodeNetworkInterface_eq]
  refine ⟨?_, ?_, ?_⟩
  · by_cases h : Spec.derivedIfindex tn dbg = 0
    · simp [h]
    · simp [h]
  · intro h
    refine ⟨?_, ?_, ?_⟩
    · intro g hg
      rw [if_neg h, hg]
    · intro g hg hentry
      rw [if_neg h, hg]
      simp only [hentry]
    · intro hg
      rw [if_neg h, hg]
  · intro d htn hdbg hsub
    have : Spec.derivedIfindex tn dbg = 0 := by
      rw [htn, hdbg]
      simp only [Spec.derivedIfindex, hsub, if_false]
    rw [if_pos this]

/-- C15 read at a trace header with interface index 3 on a parser without link
getter, and at a capture at ProxyPre with first argument 7. -/
theorem decodeNetworkInterface_null_iff_witness :
    sample.parser.decodeNetworkInterface (some { Ifindex := 3 }) none
      = some { Index := 3, Name := "" } ∧
    sample.parser.decodeNetworkInterface none (some { SubType := 8, Arg1 := 7 }) = none :=
  ⟨((decodeNetworkInterface_null_iff sample.parser (some { Ifindex := 3 }) none).2.1
      (by decide)).2.2 rfl,
   (decodeNetworkInterface_null_iff sample.parser none (some { SubType := 8, Arg1 := 7 })).2.2
      { SubType := 8, Arg1 := 7 } rfl rfl (by decide)⟩


/-! ### Summary -/

/-- One round of the outer loop sets the summary of the layer, whatever the results
before it are. -/
theorem outerStep_summary (x : Externals) (l : packetLayers) (r : LayersResult)
    (typ : LayerType) :
    (decodeLayers.outerStep x l r typ).summary = Spec.layerSummary x l typ := by
  cases typ <;> rfl

/-- One round of the outer loop leaves the tunnel and the error alone. -/
theorem outerStep_tunnel_err (x : Externals) (l : packetLayers) (r : LayersResult)
    (typ : LayerType) :
    (decodeLayers.outerStep x l r typ).tunnel = r.tunnel ∧
    (decodeLayers.outerStep x l r typ).err = r.err := by
  cases typ <;> exact ⟨rfl, rfl⟩

/-- The outer loop returns neither a tunnel nor an error. -/
theorem outerLoop_tunnel_err (x : Externals) (l : packetLayers) (typs : List LayerType) :
    (decodeLayers.outerLoop x l typs).tunnel = none ∧
    (decodeLayers.outerLoop x l typs).err = none := by
  have : ∀ (typs : List LayerType) (r : LayersResult), r.tunnel = none → r.err = none →
      (typs.foldl (decodeLayers.outerStep x l) r).tunnel = none ∧
      (typs.foldl (decodeLayers.outerStep x l) r).err = none := by
    intro typs
    induction typs with
    | nil => intro r h1 h2; exact ⟨h1, h2⟩
    | cons typ typs ih =>
      intro r h1 h2
      simp only [List.foldl_cons]
      apply ih
      · rw [(outerStep_tunnel_err x l r typ).1, h1]
      · rw [(outerStep_tunnel_err x l r typ).2, h2]
  exact this typs {} rfl rfl

/-- Without overlay hint, on a payload that is not empty and that the outer parser
decodes without error, `decodeLayers` returns the results of the outer loop. -/
theorem decodeLayers_without_overlay (x : Externals) (payload : List Nat) (pkt : packet)
    (isL3Device isIPv6 : Bool) (hpayload : payload ≠ [])
    (houter : (decodeLayers.outerParser pkt isL3Device isIPv6 payload pkt.layers).err = none) :
    (decodeLayers x payload pkt isL3Device isIPv6 false false).1 =
      decodeLayers.outerLoop x
        (decodeLayers.outerParser pkt isL3Device isIPv6 payload pkt.layers).layers
        (decodeLayers.outerParser pkt isL3Device isIPv6 payload pkt.layers).decoded := by
  have hlen : ¬ payload.length = 0 := fun h => hpayload (List.length_eq_zero.mp h)
  unfold decodeLayers
  rw [if_neg hlen]
  simp only []
  rw [houter]
  rfl

/-- C19: after `decodeLayers` succeeds with neither overlay hint set on a payload
whose decoded layer list ends in the layer `last`, the summary is the summary of
`last` alone: `TCP Flags: ` and the comma-joined set flags for TCP, `ICMPv4 ` or
`ICMPv6 ` and the type code string for ICMP, the name of the layer type
otherwise. The layers before `last` do not appear in it. -/
theorem decodeLayers_summary_last_layer (x : Externals) (payload : List Nat) (pkt : packet)
    (isL3Device isIPv6 : Bool) (init : List LayerType) (last : LayerType)
    (hpayload : payload ≠ [])
    (houter : (decodeLayers.outerParser pkt isL3Device isIPv6 payload pkt.layers).err = none)
    (hlayers : (decodeLayers.outerParser pkt isL3Device isIPv6 payload pkt.layers).decoded
      = init ++ [last]) :
    (decodeLayers x payload pkt isL3Device isIPv6 false false).1.err = none ∧
    (decodeLayers x payload pkt isL3Device isIPv6 false false).1.summary =
      Spec.layerSummary x
        (decodeLayers.outerParser pkt isL3Device isIPv6 payload pkt.layers).layers last ∧
    Spec.layerSummary x
        (decodeLayers.outerParser pkt isL3Device isIPv6 payload pkt.layers).layers last =
      (match last with
       | LayerType.TCP => "TCP Flags: " ++ getTCPFlags
           (decodeLayers.outerParser pkt isL3Device isIPv6 payload pkt.layers).layers.TCP
       | LayerType.ICMPv4 => "ICMPv4 " ++ x.ICMPv4TypeCode_String
           (decodeLayers.outerParser pkt isL3Device isIPv6 payload pkt.layers).layers.ICMPv4.TypeCode
       | LayerType.ICMPv6 => "ICMPv6 " ++ x.ICMPv6TypeCode_String
           (decodeLayers.outerParser pkt isL3Device isIPv6 payload pkt.layers).layers.ICMPv6.TypeCode
       | typ => typ.String) := by
  rw [decodeLayers_without_overlay x payload pkt isL3Device isIPv6 hpayload houter]
  refine ⟨(outerLoop_tunnel_err x _ _).2, ?_, ?_⟩
  · rw [hlayers]
    unfold decodeLayers.outerLoop
    rw [List.foldl_append]
    simp only [List.foldl_cons, List.foldl_nil]
    exact outerStep_summary x _ _ last
  · cases last <;> rfl

/-- The hypotheses of C19 hold for `sample.tcpFrame` on the workspace of `New`:
the layers are Ethernet, IPv4, TCP and the summary is the one of the TCP layer. -/
theorem decodeLayers_summary_last_layer_witness :
    (decodeLayers sample.externals sample.tcpFrame newPacket false false false false).1.summary
      = "TCP Flags: SYN" :=
  (decodeLayers_summary_last_layer sample.externals sample.tcpFrame newPacket false false
    [LayerType.Ethernet, LayerType.IPv4] LayerType.TCP (by decide) (by decide)
    (by decide)).2.1.trans (by decide)


/-! ### Packet offset -/

/-- `Parser.fill` stores the ethernet, l4, tunnel and summary of the layer results,
keeps the observation point of the flow, and stores the two endpoints and the
names it looked up. -/
theorem fill_fields (x : Externals) (p : Parser) (eventType : Nat) (h : Headers)
    (l : LayersResult) (ip : Option pb.IP) (srcIP : netip.Addr) (decoded : pb.Flow) :
    let f := Parser.fill x p eventType h l ip srcIP decoded
    let ids := decodeSecurityIdentities h.dn h.tn h.pvn
    let ctx : common.DatapathContext :=
      { SrcIP := srcIP, SrcLabelID := ids.1, DstIP := l.destinationIP, DstLabelID := ids.2,
        TraceObservationPoint := decoded.TraceObservationPoint }
    let srcEndpoint := p.epResolver.ResolveEndpoint srcIP ids.1 ctx
    let dstEndpoint := p.epResolver.ResolveEndpoint l.destinationIP ids.2 ctx
    f.Ethernet = l.ethernet ∧ f.L4 = l.l4 ∧ f.Tunnel = l.tunnel ∧ f.Summary = l.summary ∧
    f.TraceObservationPoint = decoded.TraceObservationPoint ∧
    f.Source = some srcEndpoint ∧ f.Destination = some dstEndpoint ∧
    f.SourceNames = p.resolveNames dstEndpoint.ID srcIP ∧
    f.DestinationNames = p.resolveNames srcEndpoint.ID l.destinationIP := by
  intro f ids ctx srcEndpoint dstEndpoint
  have hf : f = Parser.correlate x p (Parser.fillFields x p eventType h l ip srcIP decoded) :=
    rfl
  rw [correlate_eq] at hf
  rw [hf]
  exact ⟨rfl, rfl, rfl, rfl, rfl, rfl, rfl, rfl, rfl⟩

/-- `decodeLayers` on the empty payload returns all-default results and empties the
two layer lists of the workspace, whatever the hints are. -/
theorem decodeLayers_empty (x : Externals) (pkt : packet)
    (isL3Device isIPv6 isVXLAN isGeneve : Bool) :
    decodeLayers x [] pkt isL3Device isIPv6 isVXLAN isGeneve =
      ({}, { pkt with Layers := [], overlay_Layers := [] }) := rfl

/-- C12: for an event that is not empty and whose header the dispatch decodes. If
the packet offset equals the length of the event, `Decode` returns no error, the
flow's ethernet, ip, l4 and tunnel are null, its summary is empty and both layer
lists of the workspace are empty afterwards; `decodeLayers` on the empty payload
returns all-default results for any hints. If the packet offset is greater than
the length of the event, `Decode` returns the error of source line 207. -/
theorem Decode_packet_offset_boundary (x : Externals) (p : Parser) (data : List Nat)
    (decoded : pb.Flow) (h : Headers)
    (hne : data ≠ [])
    (hhdr : (Parser.decodeHeader x data decoded).1 = Except.ok h) :
    (h.packetOffset = data.length →
      (Parser.Decode x p data decoded).err = none ∧
      (Parser.Decode x p data decoded).decoded.Ethernet = none ∧
      (Parser.Decode x p data decoded).decoded.IP = none ∧
      (Parser.Decode x p data decoded).decoded.L4 = none ∧
      (Parser.Decode x p data decoded).decoded.Tunnel = none ∧
      (Parser.Decode x p data decoded).decoded.Summary = "" ∧
      (Parser.Decode x p data decoded).packet.Layers = [] ∧
      (Parser.Decode x p data decoded).packet.overlay_Layers = []) ∧
    (data.length < h.packetOffset →
      (Parser.Decode x p data decoded).err = some (Error.notEnoughBytes data)) ∧
    (∀ (pkt : packet) (isL3Device isIPv6 isVXLAN isGeneve : Bool),
      (decodeLayers x [] pkt isL3Device isIPv6 isVXLAN isGeneve).1 = {} ∧
      (decodeLayers x [] pkt isL3Device isIPv6 isVXLAN isGeneve).2.Layers = [] ∧
      (decodeLayers x [] pkt isL3Device isIPv6 isVXLAN isGeneve).2.overlay_Layers = []) := by
  have hlen : ¬ data.length = 0 := fun h0 => hne (List.length_eq_zero.mp h0)
  rcases hd : Parser.decodeHeader x data decoded with ⟨r, d⟩
  rw [hd] at hhdr
  simp only [] at hhdr
  subst hhdr
  refine ⟨?_, ?_, fun _ _ _ _ _ => ⟨rfl, rfl, rfl⟩⟩
  · intro hoff
    have hdrop : data.drop h.packetOffset = [] := by
      rw [hoff]
      exact List.drop_length data
    unfold Parser.Decode
    rw [if_neg hlen, hd]
    simp only []
    rw [if_neg (by omega), hdrop, decodeLayers_empty]
    simp only []
    have hfix : Parser.fixupTrace x h.tn none netip.Addr.zero = (none, netip.Addr.zero) := by
      cases h.tn <;> rfl
    have hfix' : Parser.fixupTrace x h.tn ({} : LayersResult).ip ({} : LayersResult).sourceIP
        = (none, netip.Addr.zero) := hfix
    rw [hfix']
    have hf := fill_fields x p (data.headD 0) h {} none netip.Addr.zero d
    exact ⟨trivial, hf.1, fill_IP _ _ _ _ _ _ _ _, hf.2.1, hf.2.2.1, hf.2.2.2.1, trivial, trivial⟩
  · intro hoff
    unfold Parser.Decode
    rw [if_neg hlen, hd]
    simp only []
    rw [if_pos hoff]

/-- The hypotheses of C12 hold for the trace event `sample.traceEventNoPacket`,
whose packet offset 48 is its length, and for the drop event
`sample.shortDropEvent` of 36 bytes, whose header reports the packet offset 40. -/
theorem Decode_packet_offset_boundary_witness :
    (Parser.Decode sample.externals sample.parser sample.traceEventNoPacket {}).err = none ∧
    (Parser.Decode sample.shortDropExternals sample.parser sample.shortDropEvent {}).err
      = some (Error.notEnoughBytes sample.shortDropEvent) :=
  ⟨((Decode_packet_offset_boundary sample.externals sample.parser sample.traceEventNoPacket
      {} sample.traceHeaders (by decide) rfl).1 (by decide)).1,
   (Decode_packet_offset_boundary sample.shortDropExternals sample.parser
      sample.shortDropEvent {}
      { packetOffset := 40, dn := some { SubType := 132, Source := 7, DataOffset := 40 },
        eventSubType := 132 }
      (by decide) rfl).2.1 (by decide)⟩


/-! ### Observation point -/

/-- The observation point of the flow after `Decode` is the one the dispatch left,
whether `Decode` returns an error or not; on the empty event it is the one of the
flow passed in. -/
theorem Decode_TraceObservationPoint (x : Externals) (p : Parser) (data : List Nat)
    (decoded : pb.Flow) :
    (Parser.Decode x p data decoded).decoded.TraceObservationPoint =
      if data = [] then decoded.TraceObservationPoint
      else (Parser.decodeHeader x data decoded).2.TraceObservationPoint := by
  unfold Parser.Decode
  by_cases hlen : data.length = 0
  · rw [if_pos hlen, if_pos (List.length_eq_zero.mp hlen)]
  · have hne : data ≠ [] := fun h0 => hlen (by rw [h0]; rfl)
    rw [if_neg hlen, if_neg hne]
    rcases hd : Parser.decodeHeader x data decoded with ⟨r, d⟩
    cases r with
    | error e => rfl
    | ok h =>
      simp only []
      by_cases hoff : data.length < h.packetOffset
      · rw [if_pos hoff]
      · rw [if_neg hoff]
        cases he : (decodeLayers x (data.drop h.packetOffset) p.packet
            h.isL3Device h.isIPv6 h.isVXLAN h.isGeneve).1.err with
        | some e => simp only [he]
        | none =>
          simp only [he]
          exact (fill_fields x p (data.headD 0) h _ _ _ d).2.2.2.2.1

/-- C18: for an event with the trace tag whose header decodes to `t`, the flow's
observation point after `Decode` is the one of `t` when that is not zero and
TO_ENDPOINT when it is zero, and so never the zero value, whether `Decode` goes on
to return an error or not. For an event with another first byte (drop, policy
verdict, capture, or no known tag) and for the empty event the observation point
is the one the flow had before the call. -/
theorem Decode_trace_observation_point (x : Externals) (p : Parser) (data : List Nat)
    (decoded : pb.Flow) :
    (∀ t : monitor.TraceNotify,
      data ≠ [] → data.headD 0 = monitorAPI.MessageTypeTrace →
      x.TraceNotify_Decode data = Except.ok t →
      (Parser.Decode x p data decoded).decoded.TraceObservationPoint =
        (if t.ObsPoint ≠ 0 then t.ObsPoint else pb.TraceObservationPoint_TO_ENDPOINT) ∧
      (Parser.Decode x p data decoded).decoded.TraceObservationPoint ≠
        pb.TraceObservationPoint_UNKNOWN_POINT) ∧
    (data.headD 0 ≠ monitorAPI.MessageTypeTrace →
      (Parser.Decode x p data decoded).decoded.TraceObservationPoint =
        decoded.TraceObservationPoint) := by
  rw [Decode_TraceObservationPoint]
  refine ⟨?_, ?_⟩
  · intro t hne htag hdec
    rw [if_neg hne]
    have hd : (Parser.decodeHeader x data decoded).2.TraceObservationPoint =
        (if t.ObsPoint ≠ 0 then t.ObsPoint else pb.TraceObservationPoint_TO_ENDPOINT) := by
      unfold Parser.decodeHeader
      simp only [htag, hdec]
      rw [if_neg (by decide), if_pos trivial]
    rw [hd]
    refine ⟨rfl, ?_⟩
    by_cases h0 : t.ObsPoint = 0
    · simp only [h0, ne_eq, not_true_eq_false, if_false]
      decide
    · simp only [ne_eq, h0, not_false_eq_true, if_true]
      exact h0
  · intro htag
    by_cases hne : data = []
    · rw [if_pos hne]
    · rw [if_neg hne]
      unfold Parser.decodeHeader
      simp only []
      split_ifs
      · split <;> rfl
      · split <;> rfl
      · split <;> rfl
      · rfl

/-- C18 read at the trace event `sample.traceEvent`, whose header has the
observation point 0: the flow gets TO_ENDPOINT. -/
theorem Decode_trace_observation_point_witness :
    (Parser.Decode sample.externals sample.parser sample.traceEvent
      {}).decoded.TraceObservationPoint = pb.TraceObservationPoint_TO_ENDPOINT :=
  ((Decode_trace_observation_point sample.externals sample.parser sample.traceEvent {}).1
    { Source := 42, SrcLabel := 100, DstLabel := 200, Reason := 1, Ifindex := 3,
      OrigIP := [10, 0, 0, 99] ++ List.replicate 12 0, DataOffset := 48 }
    (by decide) (by decide) rfl).1.trans (by decide)

/-! ### DNS names -/

/-- C20: after a call of `Decode` without error, with `srcIP` the source IP after
the trace fixup, `dstIP` the destination IP of the layers, and the source and
destination endpoints the resolver returned for them: the flow's source names are
what `resolveNames` gives for the destination endpoint id and `srcIP`, and the
destination names what it gives for the source endpoint id and `dstIP`. With a
DNS getter these are its `GetNamesOf` on those arguments; without one both are
null. Whether `Decode` returns an error does not depend on the DNS getter. -/
theorem Decode_names_cross_wired (x : Externals) (p : Parser) (data : List Nat)
    (decoded : pb.Flow)
    (hok : (Parser.Decode x p data decoded).err = none) :
    (∃ (h : Headers) (srcEndpoint dstEndpoint : pb.Endpoint),
      (Parser.decodeHeader x data decoded).1 = Except.ok h ∧
      let l := (decodeLayers x (data.drop h.packetOffset) p.packet
        h.isL3Device h.isIPv6 h.isVXLAN h.isGeneve).1
      let srcIP := (Parser.fixupTrace x h.tn l.ip l.sourceIP).2
      let dstIP := l.destinationIP
      let flow := (Parser.Decode x p data decoded).decoded
      flow.Source = some srcEndpoint ∧ flow.Destination = some dstEndpoint ∧
      flow.SourceNames = p.resolveNames dstEndpoint.ID srcIP ∧
      flow.DestinationNames = p.resolveNames srcEndpoint.ID dstIP ∧
      (∀ g, p.dnsGetter = some g →
        flow.SourceNames = g.GetNamesOf dstEndpoint.ID srcIP ∧
        flow.DestinationNames = g.GetNamesOf srcEndpoint.ID dstIP) ∧
      (p.dnsGetter = none → flow.SourceNames = [] ∧ flow.DestinationNames = [])) ∧
    (Parser.Decode x { p with dnsGetter := none } data decoded).err =
      (Parser.Decode x p data decoded).err := by
  refine ⟨?_, ?_⟩
  · obtain ⟨h, _, hh, _, _, hd⟩ := Decode_ok x p data decoded hok
    have hf := fill_fields x p (data.headD 0) h
      (decodeLayers x (data.drop h.packetOffset) p.packet
        h.isL3Device h.isIPv6 h.isVXLAN h.isGeneve).1
      (Parser.fixupTrace x h.tn
        (decodeLayers x (data.drop h.packetOffset) p.packet
          h.isL3Device h.isIPv6 h.isVXLAN h.isGeneve).1.ip
        (decodeLayers x (data.drop h.packetOffset) p.packet
          h.isL3Device h.isIPv6 h.isVXLAN h.isGeneve).1.sourceIP).1
      (Parser.fixupTrace x h.tn
        (decodeLayers x (data.drop h.packetOffset) p.packet
          h.isL3Device h.isIPv6 h.isVXLAN h.isGeneve).1.ip
        (decodeLayers x (data.drop h.packetOffset) p.packet
          h.isL3Device h.isIPv6 h.isVXLAN h.isGeneve).1.sourceIP).2
      (Parser.decodeHeader x data decoded).2
    simp only [] at hf
    rw [← hd] at hf
    obtain ⟨_, _, _, _, _, hsrc, hdst, hsn, hdn⟩ := hf
    refine ⟨h, _, _, hh, hsrc, hdst, hsn, hdn, ?_, ?_⟩
    · intro g hg
      rw [hsn, hdn]
      simp only [Parser.resolveNames, hg]
      exact ⟨trivial, trivial⟩
    · intro hg
      rw [hsn, hdn]
      simp only [Parser.resolveNames, hg]
      exact ⟨trivial, trivial⟩
  · unfold Parser.Decode
    by_cases hlen : data.length = 0
    · rw [if_pos hlen, if_pos hlen]
    · rw [if_neg hlen, if_neg hlen]
      rcases hdh : Parser.decodeHeader x data decoded with ⟨r, d⟩
      cases r with
      | error e => rfl
      | ok h =>
        simp only []
        by_cases hoff : data.length < h.packetOffset
        · rw [if_pos hoff, if_pos hoff]
        · rw [if_neg hoff, if_neg hoff]
          cases he : (decodeLayers x (data.drop h.packetOffset) p.packet
              h.isL3Device h.isIPv6 h.isVXLAN h.isGeneve).1.err with
          | some e => simp only [he]
          | none => simp only [he]


/-- C20 read at the trace event `sample.traceEvent` on `sample.crossParser`, whose
resolver gives the source endpoint the id 100 and the destination endpoint the id
200: the source names were asked of endpoint 200, the destination names of
endpoint 100; without DNS getter there is no error either. -/
theorem Decode_names_cross_wired_witness :
    (Parser.Decode sample.externals sample.crossParser sample.traceEvent {}).decoded.SourceNames
      = ["200 knows 10.0.0.99"] ∧
    (Parser.Decode sample.externals sample.crossParser
      sample.traceEvent {}).decoded.DestinationNames = ["100 knows 10.0.0.2"] ∧
    (Parser.Decode sample.externals { sample.crossParser with dnsGetter := none }
      sample.traceEvent {}).err = none :=
  ⟨by decide, by decide,
   (Decode_names_cross_wired sample.externals sample.crossParser sample.traceEvent {}
      (by decide)).2.trans (by decide)⟩


/-! ### Inner layers of a tunnel -/

/-- Which of ethernet, ip and l4 one round of the overlay loop sets. -/
theorem overlayStep_isSome (x : Externals) (l : overlayLayers) (r : LayersResult)
    (typ : LayerType) :
    ((decodeLayers.overlayStep x l r typ).ethernet.isSome = true ↔
      r.ethernet.isSome = true ∨ typ = LayerType.Ethernet) ∧
    ((decodeLayers.overlayStep x l r typ).ip.isSome = true ↔
      r.ip.isSome = true ∨ typ = LayerType.IPv4 ∨ typ = LayerType.IPv6) ∧
    ((decodeLayers.overlayStep x l r typ).l4.isSome = true ↔
      r.l4.isSome = true ∨ typ = LayerType.TCP ∨ typ = LayerType.UDP ∨
        typ = LayerType.SCTP ∨ typ = LayerType.ICMPv4 ∨ typ = LayerType.ICMPv6) := by
  cases typ <;> simp [decodeLayers.overlayStep]

/-- Which of ethernet, ip and l4 the overlay loop sets. -/
theorem overlayFold_isSome (x : Externals) (l : overlayLayers) (typs : List LayerType)
    (r : LayersResult) :
    ((typs.foldl (decodeLayers.overlayStep x l) r).ethernet.isSome = true ↔
      r.ethernet.isSome = true ∨ LayerType.Ethernet ∈ typs) ∧
    ((typs.foldl (decodeLayers.overlayStep x l) r).ip.isSome = true ↔
      r.ip.isSome = true ∨ LayerType.IPv4 ∈ typs ∨ LayerType.IPv6 ∈ typs) ∧
    ((typs.foldl (decodeLayers.overlayStep x l) r).l4.isSome = true ↔
      r.l4.isSome = true ∨ LayerType.TCP ∈ typs ∨ LayerType.UDP ∈ typs ∨
        LayerType.SCTP ∈ typs ∨ LayerType.ICMPv4 ∈ typs ∨ LayerType.ICMPv6 ∈ typs) := by
  induction typs generalizing r with
  | nil => simp
  | cons typ typs ih =>
    simp only [List.foldl_cons, List.mem_cons]
    obtain ⟨h1, h2, h3⟩ := ih (decodeLayers.overlayStep x l r typ)
    obtain ⟨s1, s2, s3⟩ := overlayStep_isSome x l r typ
    rw [h1, h2, h3, s1, s2, s3]
    refine ⟨?_, ?_, ?_⟩
    · constructor
      · rintro ((h | h) | h)
        · exact Or.inl h
        · exact Or.inr (Or.inl h.symm)
        · exact Or.inr (Or.inr h)
      · rintro (h | h | h)
        · exact Or.inl (Or.inl h)
        · exact Or.inl (Or.inr h.symm)
        · exact Or.inr h
    · constructor
      · rintro ((h | h | h) | h | h)
        · exact Or.inl h
        · exact Or.inr (Or.inl (Or.inl h.symm))
        · exact Or.inr (Or.inr (Or.inl h.symm))
        · exact Or.inr (Or.inl (Or.inr h))
        · exact Or.inr (Or.inr (Or.inr h))
      · rintro (h | (h | h) | (h | h))
        · exact Or.inl (Or.inl h)
        · exact Or.inl (Or.inr (Or.inl h.symm))
        · exact Or.inr (Or.inl h)
        · exact Or.inl (Or.inr (Or.inr h.symm))
        · exact Or.inr (Or.inr h)
    · constructor
      · rintro ((h | h | h | h | h | h) | h | h | h | h | h)
        · exact Or.inl h
        · exact Or.inr (Or.inl (Or.inl h.symm))
        · exact Or.inr (Or.inr (Or.inl (Or.inl h.symm)))
        · exact Or.inr (Or.inr (Or.inr (Or.inl (Or.inl h.symm))))
        · exact Or.inr (Or.inr (Or.inr (Or.inr (Or.inl (Or.inl h.symm)))))
        · exact Or.inr (Or.inr (Or.inr (Or.inr (Or.inr (Or.inl h.symm)))))
        · exact Or.inr (Or.inl (Or.inr h))
        · exact Or.inr (Or.inr (Or.inl (Or.inr h)))
        · exact Or.inr (Or.inr (Or.inr (Or.inl (Or.inr h))))
        · exact Or.inr (Or.inr (Or.inr (Or.inr (Or.inl (Or.inr h)))))
        · exact Or.inr (Or.inr (Or.inr (Or.inr (Or.inr (Or.inr h)))))
      · rintro (h | (h | h) | (h | h) | (h | h) | (h | h) | (h | h))
        · exact Or.inl (Or.inl h)
        · exact Or.inl (Or.inr (Or.inl h.symm))
        · exact Or.inr (Or.inl h)
        · exact Or.inl (Or.inr (Or.inr (Or.inl h.symm)))
        · exact Or.inr (Or.inr (Or.inl h))
        · exact Or.inl (Or.inr (Or.inr (Or.inr (Or.inl h.symm))))
        · exact Or.inr (Or.inr (Or.inr (Or.inl h)))
        · exact Or.inl (Or.inr (Or.inr (Or.inr (Or.inr (Or.inl h.symm)))))
        · exact Or.inr (Or.inr (Or.inr (Or.inr (Or.inl h))))
        · exact Or.inl (Or.inr (Or.inr (Or.inr (Or.inr (Or.inr h.symm)))))
        · exact Or.inr (Or.inr (Or.inr (Or.inr (Or.inr h))))


/-- The overlay part of `decodeLayers`, entered with results without tunnel and
without error, returns a tunnel only on the path of source lines 379-425: the
overlay layer list it leaves is not empty, and the results are the ones of the
overlay loop over the layers after the first, with that tunnel and no error. -/
theorem overlay_of_tunnel (x : Externals) (r : LayersResult) (pkt : packet)
    (out : DecodeLayersOut overlayLayers) (t : pb.Tunnel)
    (hr : r.tunnel = none) (he : r.err = none)
    (htun : (decodeLayers.overlay x r pkt out).1.tunnel = some t) :
    ∃ (first : LayerType) (rest : List LayerType),
      (decodeLayers.overlay x r pkt out).2.overlay_Layers = first :: rest ∧
      (decodeLayers.overlay x r pkt out).1 =
        { decodeLayers.overlayLoop x (decodeLayers.overlay x r pkt out).2.overlay rest with
          tunnel := some t, err := none } := by
  revert htun
  unfold decodeLayers.overlay
  simp only []
  cases out.err with
  | some e =>
    simp only []
    intro htun
    rw [hr] at htun
    cases htun
  | none =>
    simp only []
    cases out.decoded with
    | nil =>
      simp only []
      intro htun
      rw [hr] at htun
      cases htun
    | cons first rest =>
      simp only []
      cases first
      case VXLAN =>
        simp only []
        intro htun
        refine ⟨LayerType.VXLAN, rest, rfl, ?_⟩
        have h1 : List.foldl (decodeLayers.overlayStep x out.layers)
            { ethernet := none, ip := none, l4 := none,
              tunnel := some { Protocol := pb.TunnelProtocol.VXLAN, IP := r.ip, L4 := r.l4 },
              sourceIP := netip.Addr.zero, destinationIP := netip.Addr.zero,
              sourcePort := 0, destinationPort := 0, summary := "", err := none } rest
            = { List.foldl (decodeLayers.overlayStep x out.layers) {} rest with
                tunnel := some { Protocol := pb.TunnelProtocol.VXLAN, IP := r.ip, L4 := r.l4 },
                err := none } :=
          overlayLoop_with_tunnel x out.layers
            (some { Protocol := pb.TunnelProtocol.VXLAN, IP := r.ip, L4 := r.l4 }) none rest {}
        rw [he] at htun ⊢
        rw [h1] at htun ⊢
        cases htun
        rfl
      case Geneve =>
        simp only []
        intro htun
        refine ⟨LayerType.Geneve, rest, rfl, ?_⟩
        have h1 : List.foldl (decodeLayers.overlayStep x out.layers)
            { ethernet := none, ip := none, l4 := none,
              tunnel := some { Protocol := pb.TunnelProtocol.GENEVE, IP := r.ip, L4 := r.l4 },
              sourceIP := netip.Addr.zero, destinationIP := netip.Addr.zero,
              sourcePort := 0, destinationPort := 0, summary := "", err := none } rest
            = { List.foldl (decodeLayers.overlayStep x out.layers) {} rest with
                tunnel := some { Protocol := pb.TunnelProtocol.GENEVE, IP := r.ip, L4 := r.l4 },
                err := none } :=
          overlayLoop_with_tunnel x out.layers
            (some { Protocol := pb.TunnelProtocol.GENEVE, IP := r.ip, L4 := r.l4 }) none rest {}
        rw [he] at htun ⊢
        rw [h1] at htun ⊢
        cases htun
        rfl
      all_goals
        simp only []
        intro htun
        rw [hr] at htun
        cases htun

/-- When `decodeLayers` returns a tunnel, the overlay layer list of the workspace
is not empty afterwards and the results are the ones of the overlay loop over the
layers after the first, with that tunnel and no error. -/
theorem decodeLayers_of_tunnel (x : Externals) (payload : List Nat) (pkt : packet)
    (isL3Device isIPv6 isVXLAN isGeneve : Bool) (t : pb.Tunnel)
    (htun : (decodeLayers x payload pkt isL3Device isIPv6 isVXLAN isGeneve).1.tunnel = some t) :
    ∃ (first : LayerType) (rest : List LayerType),
      (decodeLayers x payload pkt isL3Device isIPv6 isVXLAN isGeneve).2.overlay_Layers
        = first :: rest ∧
      (decodeLayers x payload pkt isL3Device isIPv6 isVXLAN isGeneve).1 =
        { decodeLayers.overlayLoop x
            (decodeLayers x payload pkt isL3Device isIPv6 isVXLAN isGeneve).2.overlay rest with
          tunnel := some t, err := none } := by
  revert htun
  unfold decodeLayers
  by_cases hlen : payload.length = 0
  · rw [if_pos hlen]
    intro htun
    cases htun
  · rw [if_neg hlen]
    simp only []
    cases (decodeLayers.outerParser pkt isL3Device isIPv6 payload pkt.layers).err with
    | some e =>
      simp only []
      intro htun
      cases htun
    | none =>
      simp only []
      have hout := outerLoop_tunnel_err x
        (decodeLayers.outerParser pkt isL3Device isIPv6 payload pkt.layers).layers
        (decodeLayers.outerParser pkt isL3Device isIPv6 payload pkt.layers).decoded
      split
      · intro htun
        exact overlay_of_tunnel x _ _ _ t hout.1 hout.2 htun
      · intro htun
        rw [hout.1] at htun
        cases htun

/-- C11, as the claim states it, fails on `sample.vxlanArpFrame` with the VXLAN
hint: the overlay layers are VXLAN and Ethernet (the inner frame is ARP), the
tunnel is populated, ethernet is set, and ip and l4 are null. -/
theorem decodeLayers_tunnel_with_ethernet_only :
    (decodeLayers sample.externals sample.vxlanArpFrame newPacket
      false false true false).2.overlay_Layers = [LayerType.VXLAN, LayerType.Ethernet] ∧
    (decodeLayers sample.externals sample.vxlanArpFrame newPacket
      false false true false).1.err = none ∧
    (decodeLayers sample.externals sample.vxlanArpFrame newPacket
      false false true false).1.tunnel.isSome = true ∧
    (decodeLayers sample.externals sample.vxlanArpFrame newPacket
      false false true false).1.ethernet
        = some { Source := "02:00:00:00:00:01", Destination := "ff:ff:ff:ff:ff:ff" } ∧
    (decodeLayers sample.externals sample.vxlanArpFrame newPacket
      false false true false).1.ip = none ∧
    (decodeLayers sample.externals sample.vxlanArpFrame newPacket
      false false true false).1.l4 = none := by
  refine ⟨?_, ?_, ?_, ?_, ?_, ?_⟩ <;> decide

/-- C11, amended: when `decodeLayers` returns a tunnel, with `rest` the overlay
layers after the first that the call left in the workspace, ethernet is non-null
exactly when `rest` holds an Ethernet layer, ip exactly when it holds an IPv4 or
IPv6 layer, and l4 exactly when it holds a TCP, UDP, SCTP, ICMPv4 or ICMPv6
layer. So the three are all null when `rest` is empty, and all non-null when
`rest` holds a layer of each of the three kinds. -/
theorem decodeLayers_tunnel_inner_fields (x : Externals) (payload : List Nat) (pkt : packet)
    (isL3Device isIPv6 isVXLAN isGeneve : Bool) (t : pb.Tunnel)
    (htun : (decodeLayers x payload pkt isL3Device isIPv6 isVXLAN isGeneve).1.tunnel = some t) :
    let res := (decodeLayers x payload pkt isL3Device isIPv6 isVXLAN isGeneve).1
    let rest := (decodeLayers x payload pkt isL3Device isIPv6 isVXLAN isGeneve).2.overlay_Layers.tail
    (res.ethernet.isSome = true ↔ LayerType.Ethernet ∈ rest) ∧
    (res.ip.isSome = true ↔ LayerType.IPv4 ∈ rest ∨ LayerType.IPv6 ∈ rest) ∧
    (res.l4.isSome = true ↔
      LayerType.TCP ∈ rest ∨ LayerType.UDP ∈ rest ∨ LayerType.SCTP ∈ rest ∨
        LayerType.ICMPv4 ∈ rest ∨ LayerType.ICMPv6 ∈ rest) ∧
    (rest = [] → res.ethernet = none ∧ res.ip = none ∧ res.l4 = none) := by
  intro res rest
  obtain ⟨first, rest', hl, hres⟩ :=
    decodeLayers_of_tunnel x payload pkt isL3Device isIPv6 isVXLAN isGeneve t htun
  have hrest : rest = rest' := by
    show (decodeLayers x payload pkt isL3Device isIPv6 isVXLAN isGeneve).2.overlay_Layers.tail
      = rest'
    rw [hl]
    rfl
  obtain ⟨h1, h2, h3⟩ := overlayFold_isSome x
    (decodeLayers x payload pkt isL3Device isIPv6 isVXLAN isGeneve).2.overlay rest' {}
  have he : res.ethernet = (decodeLayers.overlayLoop x
      (decodeLayers x payload pkt isL3Device isIPv6 isVXLAN isGeneve).2.overlay rest').ethernet := by
    show (decodeLayers x payload pkt isL3Device isIPv6 isVXLAN isGeneve).1.ethernet = _
    rw [hres]
  have hi : res.ip = (decodeLayers.overlayLoop x
      (decodeLayers x payload pkt isL3Device isIPv6 isVXLAN isGeneve).2.overlay rest').ip := by
    show (decodeLayers x payload pkt isL3Device isIPv6 isVXLAN isGeneve).1.ip = _
    rw [hres]
  have h4 : res.l4 = (decodeLayers.overlayLoop x
      (decodeLayers x payload pkt isL3Device isIPv6 isVXLAN isGeneve).2.overlay rest').l4 := by
    show (decodeLayers x payload pkt isL3Device isIPv6 isVXLAN isGeneve).1.l4 = _
    rw [hres]
  rw [hrest, he, hi, h4]
  unfold decodeLayers.overlayLoop
  refine ⟨?_, ?_, ?_, ?_⟩
  · rw [h1]
    simp
  · rw [h2]
    simp
  · rw [h3]
    simp
  · intro hnil
    rw [hnil]
    exact ⟨rfl, rfl, rfl⟩

/-- The hypothesis of C11 as amended holds for `sample.vxlanFrame` (inner layers
Ethernet, IPv4, TCP: all three set) on the workspace of `New`. -/
theorem decodeLayers_tunnel_inner_fields_witness :
    (decodeLayers sample.externals sample.vxlanFrame newPacket
      false false true false).1.ethernet.isSome = true ∧
    (decodeLayers sample.externals sample.vxlanFrame newPacket
      false false true false).1.ip.isSome = true ∧
    (decodeLayers sample.externals sample.vxlanFrame newPacket
      false false true false).1.l4.isSome = true :=
  have h := decodeLayers_tunnel_inner_fields sample.externals sample.vxlanFrame newPacket
    false false true false
    { Protocol := pb.TunnelProtocol.VXLAN,
      IP := some { Source := "192.168.0.1", Destination := "192.168.0.2",
                   IpVersion := pb.IPVersion.IPv4 },
      L4 := some (pb.Layer4.UDP 49152 8472) }
    (by decide)
  ⟨h.1.mpr (by decide), h.2.1.mpr (by decide), h.2.2.1.mpr (by decide)⟩


/-! ### Reply packets and the direction of trace events -/

/-- C22: two trace headers with the same non-zero source endpoint id, both with an
unspecified original IP and with known reasons other than EncryptOverlay, the
first with a reply reason and the second without. For every resolved source
endpoint id `decodeTrafficDirection` returns EGRESS for one of them and INGRESS
for the other: the reply is EGRESS exactly when the header source is not the
resolved source endpoint (in the 16 bits the code compares). -/
theorem decodeTrafficDirection_reply_inverts (srcEP : Nat) (t1 t2 : monitor.TraceNotify)
    (pvn : Option monitor.PolicyVerdictNotify)
    (hsame : t1.Source = t2.Source) (hsrc : t1.Source ≠ 0)
    (horig1 : net.IP_IsUnspecified t1.OriginalIP = true)
    (horig2 : net.IP_IsUnspecified t2.OriginalIP = true)
    (hknown1 : t1.TraceReasonIsKnown = true) (hknown2 : t2.TraceReasonIsKnown = true)
    (henc1 : t1.TraceReason ≠ monitor.TraceReasonEncryptOverlay)
    (henc2 : t2.TraceReason ≠ monitor.TraceReasonEncryptOverlay)
    (hreply1 : t1.TraceReasonIsReply = true) (hreply2 : t2.TraceReasonIsReply = false) :
    (decodeTrafficDirection srcEP none (some t1) pvn = pb.TrafficDirection.EGRESS ∧
      decodeTrafficDirection srcEP none (some t2) pvn = pb.TrafficDirection.INGRESS) ∨
    (decodeTrafficDirection srcEP none (some t1) pvn = pb.TrafficDirection.INGRESS ∧
      decodeTrafficDirection srcEP none (some t2) pvn = pb.TrafficDirection.EGRESS) := by
  have hsrc2 : t2.Source ≠ 0 := by rw [← hsame]; exact hsrc
  simp only [decodeTrafficDirection, decodeTrafficDirection.trace]
  rw [if_pos (show t1.Source ≠ 0 ∧ t1.TraceReasonIsKnown = true from ⟨hsrc, hknown1⟩),
    if_pos (show t2.Source ≠ 0 ∧ t2.TraceReasonIsKnown = true from ⟨hsrc2, hknown2⟩),
    if_neg henc1, if_neg henc2]
  simp only [horig1, horig2, hreply1, hreply2, ← hsame]
  by_cases hep : t1.Source = uint16 srcEP
  · right
    simp [hep]
  · left
    simp [hep]

/-- The hypotheses of C22 hold for two trace headers with source endpoint id 42,
one with the reason CT_REPLY and one with CT_ESTABLISHED, seen from endpoint 42:
the reply is INGRESS and the other EGRESS. -/
theorem decodeTrafficDirection_reply_inverts_witness :
    decodeTrafficDirection 42 none (some { Source := 42, Reason := 2 }) none
      = pb.TrafficDirection.INGRESS ∧
    decodeTrafficDirection 42 none (some { Source := 42, Reason := 1 }) none
      = pb.TrafficDirection.EGRESS :=
  (decodeTrafficDirection_reply_inverts 42 { Source := 42, Reason := 2 }
      { Source := 42, Reason := 1 } none rfl (by decide) (by decide) (by decide) (by decide)
      (by decide) (by decide) (by decide) (by decide) (by decide)).elim
    (fun h => absurd h.1 (by decide)) (fun h => h)

/-! ### Injectivity of the trace reason mapping -/

/-- C24: `decodeTraceReason` is injective on the datapath trace reasons: two trace
headers whose reasons (without the encrypt flag bit) differ get different output
reasons. So the output of a trace header is UNKNOWN, which is 0, only when its
datapath reason is Unknown, which is 5. -/
theorem decodeTraceReason_injective :
    (∀ t1 t2 : monitor.TraceNotify, t1.TraceReason ≠ t2.TraceReason →
      decodeTraceReason (some t1) ≠ decodeTraceReason (some t2)) ∧
    (∀ t : monitor.TraceNotify,
      decodeTraceReason (some t) = pb.TraceReason_TRACE_REASON_UNKNOWN ↔
        t.TraceReason = monitor.TraceReasonUnknown) ∧
    monitor.TraceReasonUnknown = 5 ∧ pb.TraceReason_TRACE_REASON_UNKNOWN = 0 := by
  refine ⟨?_, ?_, rfl, rfl⟩
  · intro t1 t2 h
    simp only [decodeTraceReason, monitor.TraceReasonUnknown,
      pb.TraceReason_TRACE_REASON_UNKNOWN]
    split_ifs <;> omega
  · intro t
    simp only [decodeTraceReason, monitor.TraceReasonUnknown,
      pb.TraceReason_TRACE_REASON_UNKNOWN]
    split_ifs <;> constructor <;> intro h <;> first | omega | exact h.elim

/-- C24 read at the reason bytes 4 and 5, whose outputs 5 and 0 differ. -/
theorem decodeTraceReason_injective_witness :
    decodeTraceReason (some { Reason := 4 }) ≠ decodeTraceReason (some { Reason := 5 }) :=
  decodeTraceReason_injective.1 { Reason := 4 } { Reason := 5 } (by decide)


/-! ### TCP flags -/

/-- The list `getTCPFlags` joins is the list of the names of the set flags in the
order of the table. -/
theorem getTCPFlags_eq_intercalate (tcp : layers.TCP) :
    getTCPFlags tcp = String.intercalate ", " (Spec.tcpFlagNames tcp) := by
  obtain ⟨sp, dp, fin, syn, rst, psh, ack, urg, ece, cwr, ns, pl⟩ := tcp
  cases fin <;> cases syn <;> cases rst <;> cases psh <;> cases ack <;> cases urg <;>
    cases ece <;> cases cwr <;> cases ns <;> rfl


/-- The names of the set flags form a sublist of the nine names in their fixed
order. -/
theorem tcpFlagNames_sublist (tcp : layers.TCP) :
    (Spec.tcpFlagNames tcp).Sublist
      ["SYN", "ACK", "RST", "FIN", "PSH", "URG", "ECE", "CWR", "NS"] := by
  have h : ((Spec.tcpFlagTable tcp).map (fun f => f.2)) =
      ["SYN", "ACK", "RST", "FIN", "PSH", "URG", "ECE", "CWR", "NS"] := rfl
  rw [← h]
  exact List.Sublist.map _ (List.filter_sublist _)

/-- A non-empty list of non-empty strings joins to a non-empty string. -/
theorem intercalate_eq_empty_iff (sep : String) (l : List String)
    (hl : ∀ s ∈ l, s ≠ "") : String.intercalate sep l = "" ↔ l = [] := by
  constructor
  · intro h
    cases l with
    | nil => rfl
    | cons a rest =>
      exfalso
      exact intercalate_go_ne sep rest a (hl a (List.mem_cons_self a rest)) h
  · intro h
    rw [h]
    rfl

/-- C21: `getTCPFlags` joins, with a comma and a blank, the names of exactly the
flags that are set: the joined list is a sublist of SYN, ACK, RST, FIN, PSH, URG,
ECE, CWR, NS in this order, it has no name twice, and it holds a name exactly when
its flag is set. The result is the empty string exactly when none of the nine
flags is set; with only SYN set it is `SYN`, so the summary is `TCP Flags: SYN`. -/
theorem getTCPFlags_names (tcp : layers.TCP) :
    getTCPFlags tcp = String.intercalate ", " (Spec.tcpFlagNames tcp) ∧
    (Spec.tcpFlagNames tcp).Sublist
      ["SYN", "ACK", "RST", "FIN", "PSH", "URG", "ECE", "CWR", "NS"] ∧
    (Spec.tcpFlagNames tcp).Nodup ∧
    (("SYN" ∈ Spec.tcpFlagNames tcp ↔ tcp.SYN = true) ∧
     ("ACK" ∈ Spec.tcpFlagNames tcp ↔ tcp.ACK = true) ∧
     ("RST" ∈ Spec.tcpFlagNames tcp ↔ tcp.RST = true) ∧
     ("FIN" ∈ Spec.tcpFlagNames tcp ↔ tcp.FIN = true) ∧
     ("PSH" ∈ Spec.tcpFlagNames tcp ↔ tcp.PSH = true) ∧
     ("URG" ∈ Spec.tcpFlagNames tcp ↔ tcp.URG = true) ∧
     ("ECE" ∈ Spec.tcpFlagNames tcp ↔ tcp.ECE = true) ∧
     ("CWR" ∈ Spec.tcpFlagNames tcp ↔ tcp.CWR = true) ∧
     ("NS" ∈ Spec.tcpFlagNames tcp ↔ tcp.NS = true)) ∧
    (getTCPFlags tcp = "" ↔
      tcp.SYN = false ∧ tcp.ACK = false ∧ tcp.RST = false ∧ tcp.FIN = false ∧
      tcp.PSH = false ∧ tcp.URG = false ∧ tcp.ECE = false ∧ tcp.CWR = false ∧
      tcp.NS = false) ∧
    getTCPFlags { SYN := true } = "SYN" ∧
    "TCP Flags: " ++ getTCPFlags { SYN := true } = "TCP Flags: SYN" := by
  have hsub := tcpFlagNames_sublist tcp
  refine ⟨getTCPFlags_eq_intercalate tcp, hsub, ?_, ?_, ?_, by decide, by decide⟩
  · exact List.Nodup.sublist hsub (by decide)
  · simp [Spec.tcpFlagNames, Spec.tcpFlagTable]
  · rw [getTCPFlags_eq_intercalate, intercalate_eq_empty_iff]
    · simp [Spec.tcpFlagNames, Spec.tcpFlagTable, List.filter_eq_nil_iff]
    · intro s hs
      have hmem := hsub.subset hs
      intro h0
      rw [h0] at hmem
      revert hmem
      decide


/-- C21 read at a TCP layer with SYN and ACK set. -/
theorem getTCPFlags_names_witness :
    getTCPFlags { SYN := true, ACK := true } = "SYN, ACK" :=
  (getTCPFlags_names { SYN := true, ACK := true }).1.trans (by decide)

/-! ### What an error leaves of the flow -/

/-- The flow the dispatch returns is the flow it was given, except that for an
event with the trace tag whose header decodes the observation point is written. -/
theorem decodeHeader_flow (x : Externals) (data : List Nat) (decoded : pb.Flow) :
    (Parser.decodeHeader x data decoded).2 = decoded ∨
    (data.headD 0 = monitorAPI.MessageTypeTrace ∧
      ∃ t : monitor.TraceNotify, x.TraceNotify_Decode data = Except.ok t ∧
        (Parser.decodeHeader x data decoded).2 =
          { decoded with TraceObservationPoint :=
              if t.ObsPoint ≠ 0 then t.ObsPoint else pb.TraceObservationPoint_TO_ENDPOINT }) := by
  unfold Parser.decodeHeader
  simp only []
  split_ifs with h1 h2 h3 h4
  · left
    split <;> rfl
  · cases hdec : x.TraceNotify_Decode data with
    | error e => left; rfl
    | ok t => right; exact ⟨h2, t, rfl, rfl⟩
  · left
    split <;> rfl
  · left
    split <;> rfl
  · left
    rfl

/-- When `Decode` returns an error, the flow it leaves is the flow the dispatch
returned, or the flow passed in. -/
theorem Decode_error_flow (x : Externals) (p : Parser) (data : List Nat) (decoded : pb.Flow)
    (herr : (Parser.Decode x p data decoded).err ≠ none) :
    (Parser.Decode x p data decoded).decoded = decoded ∨
    (data ≠ [] ∧
      (Parser.Decode x p data decoded).decoded = (Parser.decodeHeader x data decoded).2) := by
  revert herr
  unfold Parser.Decode
  by_cases hlen : data.length = 0
  · rw [if_pos hlen]
    intro _
    left
    rfl
  · have hne : data ≠ [] := fun h0 => hlen (by rw [h0]; rfl)
    rw [if_neg hlen]
    rcases hd : Parser.decodeHeader x data decoded with ⟨r, d⟩
    cases r with
    | error e =>
      intro _
      right
      exact ⟨hne, rfl⟩
    | ok h =>
      simp only []
      by_cases hoff : data.length < h.packetOffset
      · rw [if_pos hoff]
        intro _
        right
        exact ⟨hne, rfl⟩
      · rw [if_neg hoff]
        cases he : (decodeLayers x (data.drop h.packetOffset) p.packet
            h.isL3Device h.isIPv6 h.isVXLAN h.isGeneve).1.err with
        | some e =>
          simp only [he]
          intro _
          right
          exact ⟨hne, trivial⟩
        | none =>
          simp only [he]
          intro herr
          exact absurd rfl herr

/-- C23: whenever `Decode` returns an error, the flow it leaves differs from the
flow passed in at most in the observation point: every other field has the value
it had before the call. The observation point differs only when the event has the
trace tag and its header decoded. -/
theorem Decode_error_frame (x : Externals) (p : Parser) (data : List Nat) (decoded : pb.Flow)
    (herr : (Parser.Decode x p data decoded).err ≠ none) :
    (Parser.Decode x p data decoded).decoded =
      { decoded with TraceObservationPoint :=
          (Parser.Decode x p data decoded).decoded.TraceObservationPoint } ∧
    ((Parser.Decode x p data decoded).decoded.TraceObservationPoint ≠
        decoded.TraceObservationPoint →
      data ≠ [] ∧ data.headD 0 = monitorAPI.MessageTypeTrace ∧
      ∃ t : monitor.TraceNotify, x.TraceNotify_Decode data = Except.ok t) := by
  rcases Decode_error_flow x p data decoded herr with h | ⟨hne, h⟩
  · rw [h]
    exact ⟨rfl, fun hd => absurd rfl hd⟩
  · rw [h]
    rcases decodeHeader_flow x data decoded with hh | ⟨htag, t, hdec, hh⟩
    · rw [hh]
      exact ⟨rfl, fun hd => absurd rfl hd⟩
    · rw [hh]
      exact ⟨rfl, fun _ => ⟨hne, htag, t, hdec⟩⟩

/-- The hypothesis of C23 holds for the trace event `sample.traceEventShortPacket`,
on which the Ethernet decoding layer fails, and for the event `[0xFF]`. Of the
flow `sample.usedFlow` the first changes the observation point, from 5 to
TO_ENDPOINT, and nothing else; the second changes nothing. -/
theorem Decode_error_frame_witness :
    (Parser.Decode sample.externals sample.parser sample.traceEventShortPacket
        sample.usedFlow).err = some (Error.external "Ethernet packet too small") ∧
    (Parser.Decode sample.externals sample.parser sample.traceEventShortPacket
        sample.usedFlow).decoded =
      { sample.usedFlow with TraceObservationPoint := pb.TraceObservationPoint_TO_ENDPOINT } ∧
    (Parser.Decode sample.externals sample.parser [0xFF] sample.usedFlow).decoded
      = sample.usedFlow :=
  have h1 := Decode_error_frame sample.externals sample.parser sample.traceEventShortPacket
    sample.usedFlow (by decide)
  have h2 := Decode_error_frame sample.externals sample.parser [0xFF] sample.usedFlow
    (by decide)
  ⟨by decide, h1.1.trans (by decide), h2.1.trans (by decide)⟩

end Threefour
